import Mathlib

/-!
Filter invocation protocol and grid intersector of the embree ray tracing kernels.

Shallow embedding of `kernels/xeon/geometry/filter.h` and
`kernels/xeon/geometry/grid_soa_intersector1.h`.

* Floating point values are only copied by the filter protocol, never computed on, so the
  float type is a parameter `F` of every record.
* 32-bit integers (`geomID`, `primID`) are `Int`; the code only copies them and compares them
  with the invalid id `-1`, so no wrap-around can occur.
* A SIMD register of width `W` is a function `Fin W → α` (one value per lane), a mask is a
  function `Fin W → Bool`.
* A function that mutates the ray through a reference returns the new ray next to its result.
* A filter callback is arbitrary user code; it is a function from the ray it is handed to the
  ray it leaves behind.
-/

namespace embree

/-! ## Data model -/

/-- Modelled from the spec: the three component vector `Vec3fa` (geometric normal, origin,
direction) of the math library, which is not part of the filter source. -/
structure Vec3fa (F : Type) where
  x : F
  y : F
  z : F
deriving DecidableEq

/-- Modelled from the spec: the single ray record `Ray` of `common/ray.h` with origin, direction,
nearest distance `tfar` and the accumulated hit attributes. The four 32-bit fields `u`, `v`,
`geomID`, `primID` are consecutive in memory, which is what the 16-byte load at `&ray.u` in
`runIntersectionFilter1` (the local `ray_uv_ids`) relies on. -/
structure Ray (F : Type) where
  org : Vec3fa F
  dir : Vec3fa F
  tfar : F
  Ng : Vec3fa F
  u : F
  v : F
  geomID : Int
  primID : Int

/-- The four consecutive 32-bit words read by `*(vfloat4*)&ray.u`. -/
structure UVIds (F : Type) where
  u : F
  v : F
  geomID : Int
  primID : Int

/-- A float register of `W` lanes (`vfloat4`, `vfloat8`, `vfloat16`). -/
abbrev vfloat (W : Nat) (F : Type) := Fin W → F

/-- An integer register of `W` lanes (`vint4`, `vint8`, `vint16`). -/
abbrev vint (W : Nat) := Fin W → Int

/-- A lane mask of `W` lanes (`vbool4`, `vbool8`, `vbool16`). -/
abbrev vbool (W : Nat) := Fin W → Bool

/-- Modelled from the spec: the structure-of-arrays vector `Vec3vf4` / `Vec3vf8` / `Vec3vf16`. -/
@[ext]
structure Vec3vf (W : Nat) (F : Type) where
  x : vfloat W F
  y : vfloat W F
  z : vfloat W F

/-- Modelled from the spec: the ray batch `Ray4` / `Ray8` / `Ray16` of `common/ray4.h` etc.,
holding per lane the origin, direction, nearest distance and hit attributes. -/
@[ext]
structure RayK (W : Nat) (F : Type) where
  org : Vec3vf W F
  dir : Vec3vf W F
  tfar : vfloat W F
  Ng : Vec3vf W F
  u : vfloat W F
  v : vfloat W F
  geomID : vint W
  primID : vint W

/-- A batch filter function pointer (`RTCFilterFunc4` and relatives). The source calls the same
pointer under one of two calling conventions: `asISPC userPtr ray valid` is what the pointed-to
code does to the ray when called as `ISPCFilterFuncN` (mask passed by value), and
`asRTC valid_temp userPtr ray` what it does when called as `RTCFilterFuncN` with a pointer to a
copy of the mask: it yields the contents of that copy after the call and the ray. -/
structure FilterFuncK (W : Nat) (F : Type) where
  asISPC : Nat → RayK W F → vbool W → RayK W F
  asRTC : vbool W → Nat → RayK W F → vbool W × RayK W F

/-- Modelled from the spec: the geometry record of `common/geometry.h`: the user pointer, the
scalar filter callbacks, and for each width `W` the batch filter callbacks
(`intersectionFilter4`, `intersectionFilter8`, `intersectionFilter16` are `intersectionFilterN 4`,
`8`, `16`) with the flag that selects the calling convention (`ispcIntersectionFilter4`, ...). -/
structure Geometry (F : Type) where
  userPtr : Nat
  intersectionFilter1 : Nat → Ray F → Ray F
  occlusionFilter1 : Nat → Ray F → Ray F
  intersectionFilterN : (W : Nat) → FilterFuncK W F
  occlusionFilterN : (W : Nat) → FilterFuncK W F
  ispcIntersectionFilterN : Nat → Bool
  ispcOcclusionFilterN : Nat → Bool

variable {F : Type} {W : Nat} {α : Type}

/-! ## SIMD primitives used by the filter code -/

/-- Masked store `store4f(mask,ptr,value)` / `store4i` / `store8f` / ...: lanes in `mask`
receive `value`, the others keep the old contents `dst` of the destination. -/
def store (mask : vbool W) (dst : Fin W → α) (value : Fin W → α) : Fin W → α :=
  fun i => if mask i = true then value i else dst i

/-- Broadcast of a scalar to all lanes, as in `vint4(-1)` and the implicit conversion of the
scalar `geomID` in `store4i(valid,&ray.geomID,geomID)`. -/
def broadcast (a : α) : Fin W → α :=
  fun _ => a

/-- Write of one lane, `reg[k] = a`. -/
def setLane (reg : Fin W → α) (k : Fin W) (a : α) : Fin W → α :=
  fun i => if i = k then a else reg i

/-- Lane-wise comparison `a == b` of two integer registers. -/
def vint_eq (a b : vint W) : vbool W :=
  fun i => decide (a i = b i)

/-- Lane-wise comparison `a != b` of two integer registers. -/
def vint_ne (a b : vint W) : vbool W :=
  fun i => decide (a i ≠ b i)

/-- Lane-wise conjunction `a & b` of two masks. -/
def vbool_and (a b : vbool W) : vbool W :=
  fun i => a i && b i

/-- Test `any(mask)`: some lane of the mask is set. -/
def any (mask : vbool W) : Bool :=
  (List.finRange W).any mask

/-- The mask `vboolN(1 << k)`: exactly lane `k` is set. -/
def laneMask (k : Fin W) : vbool W :=
  fun i => decide (i = k)

/-- The 16-byte load `*(vfloat4*)&ray.u`. -/
def Ray.load_uv_ids (ray : Ray F) : UVIds F :=
  { u := ray.u, v := ray.v, geomID := ray.geomID, primID := ray.primID }

/-- The 16-byte store `*(vfloat4*)&ray.u = ray_uv_ids`. -/
def Ray.store_uv_ids (ray : Ray F) (w : UVIds F) : Ray F :=
  { ray with u := w.u, v := w.v, geomID := w.geomID, primID := w.primID }

/-! ## The hit fields of a ray, used to state the properties -/

/-- The six hit fields `(u, v, tfar, Ng, geomID, primID)` of one ray or of one lane of a ray
batch; also the shape of a candidate hit `(u, v, t, Ng, geomID, primID)`. -/
structure Hit (F : Type) where
  u : F
  v : F
  tfar : F
  Ng : Vec3fa F
  geomID : Int
  primID : Int
deriving DecidableEq

/-- The six hit fields of a single ray. -/
def Ray.hit (ray : Ray F) : Hit F :=
  { u := ray.u, v := ray.v, tfar := ray.tfar, Ng := ray.Ng, geomID := ray.geomID,
    primID := ray.primID }

/-- The six hit fields of lane `i` of a ray batch. -/
def RayK.hit (ray : RayK W F) (i : Fin W) : Hit F :=
  { u := ray.u i, v := ray.v i, tfar := ray.tfar i,
    Ng := { x := ray.Ng.x i, y := ray.Ng.y i, z := ray.Ng.z i },
    geomID := ray.geomID i, primID := ray.primID i }

/-- Lane `i` of a batch candidate `(u, v, t, Ng, geomID, primID)`. -/
def candidate (u v t : vfloat W F) (Ng : Vec3vf W F) (geomID primID : Int) (i : Fin W) : Hit F :=
  { u := u i, v := v i, tfar := t i, Ng := { x := Ng.x i, y := Ng.y i, z := Ng.z i },
    geomID := geomID, primID := primID }

namespace isa

/-! ## Single ray (filter.h lines 51-105) -/

/-- The state of the ray when the scalar callback is entered: the six hit fields hold the
candidate (filter.h lines 58-63 and 86-91). -/
def updateHit1 (ray : Ray F) (u v t : F) (Ng : Vec3fa F) (geomID primID : Int) : Ray F :=
  let ray := { ray with u := u }
  let ray := { ray with v := v }
  let ray := { ray with tfar := t }
  let ray := { ray with geomID := geomID }
  let ray := { ray with primID := primID }
  let ray := { ray with Ng := Ng }
  ray

/-- The state of the ray right after `geometry->intersectionFilter1` returned. -/
def afterIntersectionFilter1 (geometry : Geometry F) (ray : Ray F) (u v t : F) (Ng : Vec3fa F)
    (geomID primID : Int) : Ray F :=
  geometry.intersectionFilter1 geometry.userPtr (updateHit1 ray u v t Ng geomID primID)

/-- The state of the ray right after `geometry->occlusionFilter1` returned. -/
def afterOcclusionFilter1 (geometry : Geometry F) (ray : Ray F) (u v t : F) (Ng : Vec3fa F)
    (geomID primID : Int) : Ray F :=
  geometry.occlusionFilter1 geometry.userPtr (updateHit1 ray u v t Ng geomID primID)

/-- Function `runIntersectionFilter1` (filter.h lines 51-78); returns the result and the ray. -/
def runIntersectionFilter1 (geometry : Geometry F) (ray : Ray F) (u v t : F) (Ng : Vec3fa F)
    (geomID primID : Int) : Bool × Ray F :=
  let ray_tfar := ray.tfar
  let ray_Ng := ray.Ng
  let ray_uv_ids := ray.load_uv_ids
  let ray := afterIntersectionFilter1 geometry ray u v t Ng geomID primID
  if ray.geomID = -1 then
    let ray := { ray with tfar := ray_tfar }
    let ray := { ray with Ng := ray_Ng }
    let ray := ray.store_uv_ids ray_uv_ids
    (false, ray)
  else
    (true, ray)

/-- Function `runOcclusionFilter1` (filter.h lines 80-105); returns the result and the ray. -/
def runOcclusionFilter1 (geometry : Geometry F) (ray : Ray F) (u v t : F) (Ng : Vec3fa F)
    (geomID primID : Int) : Bool × Ray F :=
  let ray_tfar := ray.tfar
  let ray_geomID := ray.geomID
  let ray := afterOcclusionFilter1 geometry ray u v t Ng geomID primID
  if ray.geomID = -1 then
    let ray := { ray with tfar := ray_tfar }
    let ray := { ray with geomID := ray_geomID }
    (false, ray)
  else
    (true, ray)

/-! ## Whole batch (filter.h lines 107-170, 239-300, 370-431) -/

/-- The masked stores of the candidate into the active lanes (filter.h lines 111-118 and
149-156). -/
def updateHit (valid : vbool W) (ray : RayK W F) (u v t : vfloat W F) (Ng : Vec3vf W F)
    (geomID primID : Int) : RayK W F :=
  let ray := { ray with u := store valid ray.u u }
  let ray := { ray with v := store valid ray.v v }
  let ray := { ray with tfar := store valid ray.tfar t }
  let ray := { ray with geomID := store valid ray.geomID (broadcast geomID) }
  let ray := { ray with primID := store valid ray.primID (broadcast primID) }
  let ray := { ray with Ng := { ray.Ng with x := store valid ray.Ng.x Ng.x } }
  let ray := { ray with Ng := { ray.Ng with y := store valid ray.Ng.y Ng.y } }
  let ray := { ray with Ng := { ray.Ng with z := store valid ray.Ng.z Ng.z } }
  ray

/-- The callback invocation shared by all batch and single-lane variants (filter.h lines
121-124): with the ISPC flag set the pointer is called with the mask by value, otherwise it
is called with a pointer to the copy `valid_temp`, whose contents are dropped afterwards. -/
def invokeFilter (ispc : Bool) (filterN : FilterFuncK W F) (userPtr : Nat) (ray : RayK W F)
    (valid : vbool W) : RayK W F :=
  if ispc = true then
    filterN.asISPC userPtr ray valid
  else
    let valid_temp := valid
    (filterN.asRTC valid_temp userPtr ray).2

/-- The ray batch right after the intersection filter callback returned. -/
def afterIntersectionFilter (valid : vbool W) (geometry : Geometry F) (ray : RayK W F)
    (u v t : vfloat W F) (Ng : Vec3vf W F) (geomID primID : Int) : RayK W F :=
  invokeFilter (geometry.ispcIntersectionFilterN W) (geometry.intersectionFilterN W)
    geometry.userPtr (updateHit valid ray u v t Ng geomID primID) valid

/-- The ray batch right after the occlusion filter callback returned. -/
def afterOcclusionFilter (valid : vbool W) (geometry : Geometry F) (ray : RayK W F)
    (u v t : vfloat W F) (Ng : Vec3vf W F) (geomID primID : Int) : RayK W F :=
  invokeFilter (geometry.ispcOcclusionFilterN W) (geometry.occlusionFilterN W)
    geometry.userPtr (updateHit valid ray u v t Ng geomID primID) valid

/-- The mask `valid_failed = valid & (ray.geomID == vintN(-1))`. -/
def validFailed (valid : vbool W) (ray : RayK W F) : vbool W :=
  vbool_and valid (vint_eq ray.geomID (broadcast (-1)))

/-- The mask `valid_passed = valid & (ray.geomID != vintN(-1))`. -/
def validPassed (valid : vbool W) (ray : RayK W F) : vbool W :=
  vbool_and valid (vint_ne ray.geomID (broadcast (-1)))

/-- Batch `runIntersectionFilter(valid, geometry, ray, ...)` (filter.h lines 107-141 for width
4, 239-272 for width 8, 370-403 for width 16); returns the passed mask and the ray batch. -/
def runIntersectionFilter (valid : vbool W) (geometry : Geometry F) (ray : RayK W F)
    (u v t : vfloat W F) (Ng : Vec3vf W F) (geomID primID : Int) : vbool W × RayK W F :=
  let ray_u := ray.u
  let ray_v := ray.v
  let ray_tfar := ray.tfar
  let ray_geomID := ray.geomID
  let ray_primID := ray.primID
  let ray_Ng_x := ray.Ng.x
  let ray_Ng_y := ray.Ng.y
  let ray_Ng_z := ray.Ng.z
  let ray := afterIntersectionFilter valid geometry ray u v t Ng geomID primID
  let valid_failed := validFailed valid ray
  let valid_passed := validPassed valid ray
  if any valid_failed = true then
    let ray := { ray with u := store valid_failed ray.u ray_u }
    let ray := { ray with v := store valid_failed ray.v ray_v }
    let ray := { ray with tfar := store valid_failed ray.tfar ray_tfar }
    let ray := { ray with geomID := store valid_failed ray.geomID ray_geomID }
    let ray := { ray with primID := store valid_failed ray.primID ray_primID }
    let ray := { ray with Ng := { ray.Ng with x := store valid_failed ray.Ng.x ray_Ng_x } }
    let ray := { ray with Ng := { ray.Ng with y := store valid_failed ray.Ng.y ray_Ng_y } }
    let ray := { ray with Ng := { ray.Ng with z := store valid_failed ray.Ng.z ray_Ng_z } }
    (valid_passed, ray)
  else
    (valid_passed, ray)

/-- Batch `runOcclusionFilter(valid, geometry, ray, ...)` (filter.h lines 143-170 for width 4,
274-300 for width 8, 405-431 for width 16); returns the passed mask and the ray batch. -/
def runOcclusionFilter (valid : vbool W) (geometry : Geometry F) (ray : RayK W F)
    (u v t : vfloat W F) (Ng : Vec3vf W F) (geomID primID : Int) : vbool W × RayK W F :=
  let ray_tfar := ray.tfar
  let ray_geomID := ray.geomID
  let ray := afterOcclusionFilter valid geometry ray u v t Ng geomID primID
  let valid_failed := validFailed valid ray
  let valid_passed := validPassed valid ray
  let ray := { ray with tfar := store valid_failed ray.tfar ray_tfar }
  let ray := { ray with geomID := store valid_failed ray.geomID ray_geomID }
  (valid_passed, ray)

/-! ## One lane of a batch (filter.h lines 172-236, 302-364, 433-495) -/

/-- The scalar writes of the candidate into lane `k` (filter.h lines 176-183 and 213-220). -/
def updateHitLane (ray : RayK W F) (k : Fin W) (u v t : F) (Ng : Vec3fa F)
    (geomID primID : Int) : RayK W F :=
  let ray := { ray with u := setLane ray.u k u }
  let ray := { ray with v := setLane ray.v k v }
  let ray := { ray with tfar := setLane ray.tfar k t }
  let ray := { ray with geomID := setLane ray.geomID k geomID }
  let ray := { ray with primID := setLane ray.primID k primID }
  let ray := { ray with Ng := { ray.Ng with x := setLane ray.Ng.x k Ng.x } }
  let ray := { ray with Ng := { ray.Ng with y := setLane ray.Ng.y k Ng.y } }
  let ray := { ray with Ng := { ray.Ng with z := setLane ray.Ng.z k Ng.z } }
  ray

/-- The ray batch right after the intersection filter callback of the single-lane variant
returned; the callback is handed the mask `vboolN(1 << k)`. -/
def afterIntersectionFilterLane (geometry : Geometry F) (ray : RayK W F) (k : Fin W)
    (u v t : F) (Ng : Vec3fa F) (geomID primID : Int) : RayK W F :=
  let valid := laneMask k
  invokeFilter (geometry.ispcIntersectionFilterN W) (geometry.intersectionFilterN W)
    geometry.userPtr (updateHitLane ray k u v t Ng geomID primID) valid

/-- The ray batch right after the occlusion filter callback of the single-lane variant
returned. -/
def afterOcclusionFilterLane (geometry : Geometry F) (ray : RayK W F) (k : Fin W)
    (u v t : F) (Ng : Vec3fa F) (geomID primID : Int) : RayK W F :=
  let valid := laneMask k
  invokeFilter (geometry.ispcOcclusionFilterN W) (geometry.occlusionFilterN W)
    geometry.userPtr (updateHitLane ray k u v t Ng geomID primID) valid

/-- Single-lane `runIntersectionFilter(geometry, ray, k, ...)` (filter.h lines 172-205 for
width 4, 302-334 for width 8, 433-465 for width 16). The lane index is a `Fin W`: the source
indexes the registers with `k` and is undefined for `k >= W`. -/
def runIntersectionFilterLane (geometry : Geometry F) (ray : RayK W F) (k : Fin W)
    (u v t : F) (Ng : Vec3fa F) (geomID primID : Int) : Bool × RayK W F :=
  let ray_u := ray.u
  let ray_v := ray.v
  let ray_tfar := ray.tfar
  let ray_geomID := ray.geomID
  let ray_primID := ray.primID
  let ray_Ng_x := ray.Ng.x
  let ray_Ng_y := ray.Ng.y
  let ray_Ng_z := ray.Ng.z
  let ray := afterIntersectionFilterLane geometry ray k u v t Ng geomID primID
  let passed := decide (ray.geomID k ≠ -1)
  if passed = false then
    let ray := { ray with u := ray_u }
    let ray := { ray with v := ray_v }
    let ray := { ray with tfar := ray_tfar }
    let ray := { ray with geomID := ray_geomID }
    let ray := { ray with primID := ray_primID }
    let ray := { ray with Ng := { ray.Ng with x := ray_Ng_x } }
    let ray := { ray with Ng := { ray.Ng with y := ray_Ng_y } }
    let ray := { ray with Ng := { ray.Ng with z := ray_Ng_z } }
    (passed, ray)
  else
    (passed, ray)

/-- Single-lane `runOcclusionFilter(geometry, ray, k, ...)` (filter.h lines 207-236 for width
4, 336-364 for width 8, 467-495 for width 16). -/
def runOcclusionFilterLane (geometry : Geometry F) (ray : RayK W F) (k : Fin W)
    (u v t : F) (Ng : Vec3fa F) (geomID primID : Int) : Bool × RayK W F :=
  let ray_tfar := ray.tfar
  let ray_geomID := ray.geomID
  let ray := afterOcclusionFilterLane geometry ray k u v t Ng geomID primID
  let passed := decide (ray.geomID k ≠ -1)
  if passed = false then
    let ray := { ray with tfar := ray_tfar }
    let ray := { ray with geomID := ray_geomID }
    (passed, ray)
  else
    (passed, ray)

/-! ## Auxiliary definitions for stating the properties -/

/-- The candidate normal of the single-lane variant broadcast to all lanes. -/
def broadcastVec3 (Ng : Vec3fa F) : Vec3vf W F :=
  { x := broadcast Ng.x, y := broadcast Ng.y, z := broadcast Ng.z }

/-- The geometry whose legacy-convention batch callbacks do to the ray what those of
`geometry` do, but leave `maskWrite W valid_temp userPtr ray` in the mask copy they are handed.
Any two legacy callbacks with the same effect on the ray are related in this way. -/
def withMaskWrite (geometry : Geometry F)
    (maskWrite : (W : Nat) → vbool W → Nat → RayK W F → vbool W) : Geometry F :=
  { geometry with
    intersectionFilterN := fun W =>
      { asISPC := (geometry.intersectionFilterN W).asISPC
        asRTC := fun m p r => (maskWrite W m p r, ((geometry.intersectionFilterN W).asRTC m p r).2) }
    occlusionFilterN := fun W =>
      { asISPC := (geometry.occlusionFilterN W).asISPC
        asRTC := fun m p r => (maskWrite W m p r, ((geometry.occlusionFilterN W).asRTC m p r).2) } }

/-! ## Concrete callbacks and rays on which the properties are evaluated -/

/-- The lane mask holding the lanes whose number satisfies `p`. -/
def lanes (p : Nat → Bool) : vbool W :=
  fun i => p i.val

/-- A batch callback that writes `-1` into `geomID` on the lanes of `R` that are in the mask it
is handed, and does nothing else, under both calling conventions. -/
def rejectLanes (R : Nat → Bool) : FilterFuncK W F :=
  { asISPC := fun _ ray valid =>
      { ray with geomID := store (vbool_and valid (lanes R)) ray.geomID (broadcast (-1)) }
    asRTC := fun valid _ ray =>
      (valid, { ray with geomID := store (vbool_and valid (lanes R)) ray.geomID (broadcast (-1)) }) }

/-- A batch callback that writes `-1` into `geomID` on the lanes of `R` whether or not they are
active, and the value `a` into `u` on the lanes of `S`. -/
def scribble (R S : Nat → Bool) (a : F) : FilterFuncK W F :=
  { asISPC := fun _ ray _ =>
      { ray with geomID := store (lanes R) ray.geomID (broadcast (-1)),
                 u := store (lanes S) ray.u (broadcast a) }
    asRTC := fun valid _ ray =>
      (valid, { ray with geomID := store (lanes R) ray.geomID (broadcast (-1)),
                         u := store (lanes S) ray.u (broadcast a) }) }

/-- A scalar callback that rejects the hit when `reject` is set and writes nothing else. -/
def scalarFilter (reject : Bool) : Nat → Ray F → Ray F :=
  fun _ ray => if reject = true then { ray with geomID := -1 } else ray

/-- A geometry with the scalar callbacks `scalarFilter reject`, the given batch callback for
both events at every width, and the calling convention flag `ispc`. -/
def exampleGeometry (reject : Bool) (filterN : (W : Nat) → FilterFuncK W Int) (ispc : Bool) :
    Geometry Int :=
  { userPtr := 0
    intersectionFilter1 := scalarFilter reject
    occlusionFilter1 := scalarFilter reject
    intersectionFilterN := filterN
    occlusionFilterN := filterN
    ispcIntersectionFilterN := fun _ => ispc
    ispcOcclusionFilterN := fun _ => ispc }

/-- A ray with origin 0, direction (0,0,1), `tfar = 10`, normal (1,2,3), `u = 20`, `v = 30`,
`geomID = 7` and `primID = 8`. -/
def exampleRay : Ray Int :=
  { org := ⟨0, 0, 0⟩, dir := ⟨0, 0, 1⟩, tfar := 10, Ng := ⟨1, 2, 3⟩, u := 20, v := 30,
    geomID := 7, primID := 8 }

/-- A ray batch whose lane `i` has `tfar = 10 + i`, normal `(40 + i, 50 + i, 60 + i)`,
`u = 20 + i`, `v = 30 + i`, `geomID = 7` and `primID = 8`. -/
def exampleRayK : RayK W Int :=
  { org := ⟨fun _ => 0, fun _ => 0, fun _ => 0⟩
    dir := ⟨fun _ => 0, fun _ => 0, fun _ => 1⟩
    tfar := fun i => 10 + i.val
    Ng := ⟨fun i => 40 + i.val, fun i => 50 + i.val, fun i => 60 + i.val⟩
    u := fun i => 20 + i.val
    v := fun i => 30 + i.val
    geomID := fun _ => 7
    primID := fun _ => 8 }

/-- The normal `(4, 5, 6)` on every lane, the candidate normal of the examples. -/
def exampleNg : Vec3vf W Int :=
  { x := fun _ => 4, y := fun _ => 5, z := fun _ => 6 }

/-- A batch callback that writes nothing, under both calling conventions. -/
def writeNothing : FilterFuncK W F :=
  { asISPC := fun _ ray _ => ray
    asRTC := fun valid _ ray => (valid, ray) }

/-- A geometry whose callbacks, scalar and batch, write nothing. -/
def acceptAll (ispc : Bool) : Geometry Int :=
  exampleGeometry false (fun _ => writeNothing) ispc

/-- The active mask `{0, 2}` of the width-4 scenario. -/
def exampleValid : vbool 4 :=
  lanes fun i => i == 0 || i == 2

/-- A width-generic geometry whose batch callbacks reject lane 0 when it is active, called
under the ISPC convention. -/
def rejectLane0 : Geometry Int :=
  exampleGeometry false (fun _ => rejectLanes fun i => i == 0) true

/-- The same callbacks as `rejectLane0`, called under the legacy convention. -/
def rejectLane0Legacy : Geometry Int :=
  exampleGeometry false (fun _ => rejectLanes fun i => i == 0) false

/-! ## Grid intersector for subdivision patches (grid_soa_intersector1.h)

The tessellated grid lives in the data pool of the tessellation cache. Memory is a function
from byte addresses to 32-bit words; a `const float*` is a byte address, and pointer arithmetic
on it advances by `sizeof(float) = 4` bytes per element. The gathers only move words, so they
are stated for words of any type `α`. Floating-point values are rationals. `decodeUV` and the
uv remap are the exact-arithmetic reading of the code, in which no operation rounds;
`decodeUV_binary32` is the reading in which every operation rounds to single precision, as the
machine does. -/

/-- Pointer arithmetic `p + k` on a `const float*`: `k` elements of four bytes. -/
def ptrAdd (p k : Nat) : Nat :=
  p + 4 * k

/-- Unaligned load `loadu4f(p)` of four consecutive floats. -/
def loadu4f (mem : Nat → α) (p : Nat) : Fin 4 → α :=
  fun i => mem (ptrAdd p i.val)

/-- The 4-wide `unpacklo(a,b)`: `(a0, b0, a1, b1)`. -/
def unpacklo (a b : Fin 4 → α) : Fin 4 → α :=
  ![a 0, b 0, a 1, b 1]

/-- The 4-wide `shuffle<i0,i1,i2,i3>(a)`: `(a[i0], a[i1], a[i2], a[i3])`. -/
def shuffle (i0 i1 i2 i3 : Fin 4) (a : Fin 4 → α) : Fin 4 → α :=
  ![a i0, a i1, a i2, a i3]

/-- The constructor `float8(a,b)`: `a` in lanes 0-3, `b` in lanes 4-7. -/
def float8 (a b : Fin 4 → α) : Fin 8 → α :=
  ![a 0, a 1, a 2, a 3, b 0, b 1, b 2, b 3]

/-- The 8-wide `unpacklo(a,b)`, which works on each 128-bit half separately:
`(a0, b0, a1, b1, a4, b4, a5, b5)`. -/
def unpacklo8 (a b : Fin 8 → α) : Fin 8 → α :=
  ![a 0, b 0, a 1, b 1, a 4, b 4, a 5, b 5]

/-- The 8-wide `shuffle<i0,i1,i2,i3>(a)`, which applies the same selection inside each 128-bit
half: `(a[i0], a[i1], a[i2], a[i3], a[4+i0], a[4+i1], a[4+i2], a[4+i3])`. -/
def shuffle8 (i0 i1 i2 i3 : Fin 4) (a : Fin 8 → α) : Fin 8 → α :=
  ![a (Fin.castLE (by decide) i0), a (Fin.castLE (by decide) i1),
    a (Fin.castLE (by decide) i2), a (Fin.castLE (by decide) i3),
    a (Fin.natAdd 4 i0), a (Fin.natAdd 4 i1), a (Fin.natAdd 4 i2), a (Fin.natAdd 4 i3)]

/-- Reinterpretation `cast(uv)` of a float register as an integer register: the 32-bit pattern
of each lane. -/
def cast (uv : Fin W → Nat) : Fin W → Nat :=
  fun i => uv i % 2 ^ 32

/-- Lane-wise `a & mask` of an integer register with a broadcast constant. -/
def vint_and (a : Fin W → Nat) (mask : Nat) : Fin W → Nat :=
  fun i => a i &&& mask

/-- Logical right shift `srl(a,n)` of the 32-bit lanes: zeros enter from the left. -/
def srl (a : Fin W → Nat) (n : Nat) : Fin W → Nat :=
  fun i => (a i % 2 ^ 32) >>> n

/-- The value of a 32-bit pattern read as a signed `int`. -/
def toInt32 (w : Nat) : Int :=
  if w % 2 ^ 32 < 2 ^ 31 then (w % 2 ^ 32 : Nat) else (w % 2 ^ 32 : Nat) - 2 ^ 32

/-- Conversion `(float4)i` / `(float8)i` of a signed integer register to floats, in exact
arithmetic. -/
def vint_to_float (a : Fin W → Nat) : Fin W → ℚ :=
  fun i => (toInt32 (a i) : ℚ)

/-- Rounding of a rational to the nearest integer, a tie going to the even neighbour. -/
def roundHalfEven (n : ℚ) : Int :=
  if n - ⌊n⌋ < 1 / 2 then ⌊n⌋
  else if 1 / 2 < n - ⌊n⌋ then ⌊n⌋ + 1
  else if ⌊n⌋ % 2 = 0 then ⌊n⌋
  else ⌊n⌋ + 1

/-- Rounding of a non-negative rational `x` to a significand of 24 bits: with
`2 ^ e ≤ x < 2 ^ (e + 1)` the result is the multiple of `2 ^ (e - 23)` nearest to `x`, a tie
going to the even multiple; zero stays zero. -/
def roundSignificand (x : ℚ) : ℚ :=
  roundHalfEven (x / 2 ^ (Int.log 2 x - 23)) * 2 ^ (Int.log 2 x - 23)

/-- The value of type `float` that the machine returns for an operation whose exact result is
`x`: IEEE 754 single precision (24-bit significand) in the default rounding mode, to nearest
with ties to even. The exponent is not bounded, so the function is single-precision rounding on
zero and on the normal range `2 ^ (-126) ≤ |x| < 2 ^ 128`; the decode only rounds zero and
values between `2 ^ (-16)` and `65535`. -/
def roundFloat32 (x : ℚ) : ℚ :=
  if 0 ≤ x then roundSignificand x else -roundSignificand (-x)

/-- Conversion `(float4)i` / `(float8)i` of a signed integer register to floats, in single
precision. -/
def vint_to_float32 (a : Fin W → Nat) : Fin W → ℚ :=
  fun i => roundFloat32 (toInt32 (a i) : ℚ)

/-- Modelled from the spec: the pair `Vec2<vfloat>` of registers, indexed `[0]`, `[1]`. -/
structure Vec2v (W : Nat) (F : Type) where
  x : vfloat W F
  y : vfloat W F

namespace GridSOAIntersector1

/-- Function `Gather2x3::gather` (grid_soa_intersector1.h lines 55-62). The three components of
the result hold vertex 0, vertex 1 and vertex 2 of the four triangles (`Vec3vf.x` is index
`[0]`, `y` is `[1]`, `z` is `[2]`). -/
def Gather2x3.gather (mem : Nat → α) (grid : Nat) (line_offset : Nat) : Vec3vf 4 α :=
  let r0 := loadu4f mem (ptrAdd grid (0 * line_offset))
  let r1 := loadu4f mem (ptrAdd grid (1 * line_offset))
  { x := unpacklo r0 r1
    y := shuffle 1 1 2 2 r0
    z := shuffle 0 1 1 2 r1 }

/-- Function `decodeUV(const float4&)` (grid_soa_intersector1.h lines 65-72) in exact
arithmetic; the register is given by the bit patterns of its lanes. -/
def decodeUV (uv : Fin 4 → Nat) : Vec2v 4 ℚ :=
  let iu := vint_and (cast uv) 0xffff
  let iv := srl (cast uv) 16
  let u := fun i => vint_to_float iu i * (1 / 0xFFFF)
  let v := fun i => vint_to_float iv i * (1 / 0xFFFF)
  { x := u, y := v }

/-- Function `Gather3x3::gather` (grid_soa_intersector1.h lines 82-92). -/
def Gather3x3.gather (mem : Nat → α) (grid : Nat) (line_offset : Nat) : Vec3vf 8 α :=
  let ra := loadu4f mem (ptrAdd grid (0 * line_offset))
  let rb := loadu4f mem (ptrAdd grid (1 * line_offset))
  let rc := loadu4f mem (ptrAdd grid (2 * line_offset))
  let r0 := float8 ra rb
  let r1 := float8 rb rc
  { x := unpacklo8 r0 r1
    y := shuffle8 1 1 2 2 r0
    z := shuffle8 0 1 1 2 r1 }

/-- Function `decodeUV(const float8&)` (grid_soa_intersector1.h lines 95-103) in exact
arithmetic. -/
def decodeUV8 (uv : Fin 8 → Nat) : Vec2v 8 ℚ :=
  let i_uv := cast uv
  let i_u := vint_and i_uv 0xffff
  let i_v := srl i_uv 16
  let u := fun i => vint_to_float i_u i * (1 / 0xFFFF)
  let v := fun i => vint_to_float i_v i * (1 / 0xFFFF)
  { x := u, y := v }

/-- Function `decodeUV(const float4&)` (grid_soa_intersector1.h lines 65-72) in single
precision: the conversion of `iu` and `iv` to `float`, the conversion of the `int` constant
`0xFFFF` to `float`, the quotient `1.0f/0xFFFF` and the two products each round. -/
def decodeUV_binary32 (uv : Fin 4 → Nat) : Vec2v 4 ℚ :=
  let iu := vint_and (cast uv) 0xffff
  let iv := srl (cast uv) 16
  let u := fun i =>
    roundFloat32 (vint_to_float32 iu i * roundFloat32 (1 / roundFloat32 0xFFFF))
  let v := fun i =>
    roundFloat32 (vint_to_float32 iv i * roundFloat32 (1 / roundFloat32 0xFFFF))
  { x := u, y := v }

/-- Function `decodeUV(const float8&)` (grid_soa_intersector1.h lines 95-103) in single
precision. -/
def decodeUV8_binary32 (uv : Fin 8 → Nat) : Vec2v 8 ℚ :=
  let i_uv := cast uv
  let i_u := vint_and i_uv 0xffff
  let i_v := srl i_uv 16
  let u := fun i =>
    roundFloat32 (vint_to_float32 i_u i * roundFloat32 (1 / roundFloat32 0xFFFF))
  let v := fun i =>
    roundFloat32 (vint_to_float32 i_v i * roundFloat32 (1 / roundFloat32 0xFFFF))
  { x := u, y := v }

/-- Modelled from the spec: the cached patch record `SubdivPatch1Cached`, of which the
intersector reads the geometry and primitive ids, the horizontal grid resolution and the size of
one grid plane in SIMD blocks. -/
structure SubdivPatch1Cached where
  geom : Nat
  prim : Nat
  grid_u_res : Nat
  grid_size_simd_blocks : Nat
deriving DecidableEq

/-- Modelled from the spec: the process-wide tessellation cache singleton
`SharedLazyTessellationCache::sharedLazyTessellationCache`, as far as the intersector sees it:
the base pointer of the data pool and the lock bookkeeping (the lock count and the number of
`lock` and `unlock` calls made so far). -/
structure SharedLazyTessellationCache where
  dataPtr : Nat
  lockCount : Int
  lockCalls : Nat
  unlockCalls : Nat
deriving DecidableEq

/-- Modelled from the spec: `getDataPtr()`, the base pointer of the data pool. -/
def SharedLazyTessellationCache.getDataPtr (cache : SharedLazyTessellationCache) : Nat :=
  cache.dataPtr

/-- Modelled from the spec: `lock()` takes one lock on the cache. -/
def SharedLazyTessellationCache.lock (cache : SharedLazyTessellationCache) :
    SharedLazyTessellationCache :=
  { cache with lockCount := cache.lockCount + 1, lockCalls := cache.lockCalls + 1 }

/-- Modelled from the spec: `unlock()` releases one lock on the cache. -/
def SharedLazyTessellationCache.unlock (cache : SharedLazyTessellationCache) :
    SharedLazyTessellationCache :=
  { cache with lockCount := cache.lockCount - 1, unlockCalls := cache.unlockCalls + 1 }

/-- Class `Precalculations` (grid_soa_intersector1.h lines 33-47): the pointer `patch`, which is
null or points to a patch. -/
structure Precalculations where
  patch : Option SubdivPatch1Cached
deriving DecidableEq

/-- The constructor `Precalculations(Ray& ray, const void* ptr)` (lines 36-37); it is handed
the state of the cache singleton, which it does not touch. -/
def Precalculations.construct (_ray : Ray F) (_ptr : Nat)
    (cache : SharedLazyTessellationCache) : Precalculations × SharedLazyTessellationCache :=
  ({ patch := none }, cache)

/-- The destructor `~Precalculations()` (lines 39-43). -/
def Precalculations.destruct (pre : Precalculations) (cache : SharedLazyTessellationCache) :
    SharedLazyTessellationCache :=
  if pre.patch.isSome = true then
    cache.unlock
  else
    cache

/-- Modelled from the spec: the step of the traversal code, which is not part of this source,
that binds a precalculation object to a patch on first use and takes the lock on the cache. -/
def Precalculations.bindAndLock (pre : Precalculations) (patch : SubdivPatch1Cached)
    (cache : SharedLazyTessellationCache) : Precalculations × SharedLazyTessellationCache :=
  ({ pre with patch := some patch }, cache.lock)

/-- The uv hook handed to the triangle test: it is given the triangle-local `(u, v)` of every
lane and yields the values it leaves in them. -/
abbrev UVHook (W : Nat) := vfloat W ℚ × vfloat W ℚ → vfloat W ℚ × vfloat W ℚ

/-- Modelled from the spec: the type of the width-parameterized routine
`triangle_intersect_pluecker<vbool>` of the primitive-test subsystem: from the ray, the three
vertex registers, the geometry and primitive ids, the scene and the uv hook to the ray it
leaves. The routine itself is a parameter of the intersector. -/
abbrev TriangleIntersect (F : Type) :=
  (W : Nat) → Ray F → Vec3vf W Nat → Vec3vf W Nat → Vec3vf W Nat → Nat → Nat → Nat → UVHook W →
    Ray F

/-- Modelled from the spec: the type of `triangle_occluded_pluecker<vbool>`, which also returns
whether the ray is occluded. -/
abbrev TriangleOccluded (F : Type) :=
  (W : Nat) → Ray F → Vec3vf W Nat → Vec3vf W Nat → Vec3vf W Nat → Nat → Nat → Nat → UVHook W →
    Bool × Ray F

/-- The template parameter `Loader`: the SIMD width of `Loader::vfloat`, the static function
`Loader::gather`, and the overload of `decodeUV` that the template body selects for
`Loader::vfloat`. -/
structure Loader where
  size : Nat
  gather : (Nat → Nat) → Nat → Nat → Vec3vf size Nat
  decodeUV : (Fin size → Nat) → Vec2v size ℚ

/-- The loader `Gather2x3`. -/
def Gather2x3.loader : Loader :=
  { size := 4, gather := Gather2x3.gather, decodeUV := decodeUV }

/-- The loader `Gather3x3`. -/
def Gather3x3.loader : Loader :=
  { size := 8, gather := Gather3x3.gather, decodeUV := decodeUV8 }

/-- The uv lambda of `intersect<Loader>` (grid_soa_intersector1.h lines 127-134). -/
def intersectHook (L : Loader) (mem : Nat → Nat) (grid_uv : Nat) (line_offset : Nat) :
    UVHook L.size :=
  fun uv_in =>
    let u := uv_in.1
    let v := uv_in.2
    let tri_v012_uv := L.gather mem grid_uv line_offset
    let uv0 := L.decodeUV tri_v012_uv.x
    let uv1 := L.decodeUV tri_v012_uv.y
    let uv2 := L.decodeUV tri_v012_uv.z
    let uv : Vec2v L.size ℚ :=
      { x := fun i => u i * uv1.x i + v i * uv2.x i + (1 - u i - v i) * uv0.x i
        y := fun i => u i * uv1.y i + v i * uv2.y i + (1 - u i - v i) * uv0.y i }
    (uv.x, uv.y)

/-- The uv lambda of `occluded<Loader>` (grid_soa_intersector1.h lines 157-164). -/
def occludedHook (L : Loader) (mem : Nat → Nat) (grid_uv : Nat) (line_offset : Nat) :
    UVHook L.size :=
  fun uv_in =>
    let u := uv_in.1
    let v := uv_in.2
    let tri_v012_uv := L.gather mem grid_uv line_offset
    let uv0 := L.decodeUV tri_v012_uv.x
    let uv1 := L.decodeUV tri_v012_uv.y
    let uv2 := L.decodeUV tri_v012_uv.z
    let uv : Vec2v L.size ℚ :=
      { x := fun i => u i * uv1.x i + v i * uv2.x i + (1 - u i - v i) * uv0.x i
        y := fun i => u i * uv1.y i + v i * uv2.y i + (1 - u i - v i) * uv0.y i }
    (uv.x, uv.y)

/-- The template `intersect<Loader>` (grid_soa_intersector1.h lines 107-135); it returns the ray
it leaves, and nothing when `pre.patch` is null. -/
def intersectLoader (L : Loader) (triangle_intersect_pluecker : TriangleIntersect F)
    (mem : Nat → Nat) (ray : Ray F) (grid_x grid_y grid_z grid_uv : Nat) (line_offset : Nat)
    (pre : Precalculations) (scene : Nat) : Option (Ray F) :=
  let tri_v012_x := L.gather mem grid_x line_offset
  let tri_v012_y := L.gather mem grid_y line_offset
  let tri_v012_z := L.gather mem grid_z line_offset
  let v0 : Vec3vf L.size Nat := { x := tri_v012_x.x, y := tri_v012_y.x, z := tri_v012_z.x }
  let v1 : Vec3vf L.size Nat := { x := tri_v012_x.y, y := tri_v012_y.y, z := tri_v012_z.y }
  let v2 : Vec3vf L.size Nat := { x := tri_v012_x.z, y := tri_v012_y.z, z := tri_v012_z.z }
  match pre.patch with
  | none => none
  | some patch =>
    some (triangle_intersect_pluecker L.size ray v0 v1 v2 patch.geom patch.prim scene
      (intersectHook L mem grid_uv line_offset))

/-- The template `occluded<Loader>` (grid_soa_intersector1.h lines 137-165); it returns the
result and the ray it leaves, and nothing when `pre.patch` is null. -/
def occludedLoader (L : Loader) (triangle_occluded_pluecker : TriangleOccluded F)
    (mem : Nat → Nat) (ray : Ray F) (grid_x grid_y grid_z grid_uv : Nat) (line_offset : Nat)
    (pre : Precalculations) (scene : Nat) : Option (Bool × Ray F) :=
  let tri_v012_x := L.gather mem grid_x line_offset
  let tri_v012_y := L.gather mem grid_y line_offset
  let tri_v012_z := L.gather mem grid_z line_offset
  let v0 : Vec3vf L.size Nat := { x := tri_v012_x.x, y := tri_v012_y.x, z := tri_v012_z.x }
  let v1 : Vec3vf L.size Nat := { x := tri_v012_x.y, y := tri_v012_y.y, z := tri_v012_z.y }
  let v2 : Vec3vf L.size Nat := { x := tri_v012_x.z, y := tri_v012_y.z, z := tri_v012_z.z }
  match pre.patch with
  | none => none
  | some patch =>
    some (triangle_occluded_pluecker L.size ray v0 v1 v2 patch.geom patch.prim scene
      (occludedHook L mem grid_uv line_offset))

/-- The plane pointers and strides that an entry point computes before it calls the template. -/
structure GridPlanes where
  dim_offset : Nat
  line_offset : Nat
  grid_x : Nat
  grid_y : Nat
  grid_z : Nat
  grid_uv : Nat
deriving DecidableEq

/-- The address computation of `intersect` (grid_soa_intersector1.h lines 170-176). The
arithmetic on `size_t` is taken modulo `2 ^ 64`; `vfloat_size` is the constant `vfloat::size`,
which is declared outside this source. -/
def intersectPlanes (vfloat_size : Nat) (cache : SharedLazyTessellationCache)
    (patch : SubdivPatch1Cached) (prim : Nat) : GridPlanes :=
  let dim_offset := (patch.grid_size_simd_blocks * vfloat_size) % 2 ^ 64
  let line_offset := patch.grid_u_res % 2 ^ 64
  let offset_bytes := ((prim % 2 ^ 64 + 2 ^ 64 - cache.getDataPtr % 2 ^ 64) % 2 ^ 64) >>> 2
  let grid_x := (offset_bytes + cache.getDataPtr % 2 ^ 64) % 2 ^ 64
  let grid_y := ptrAdd grid_x ((1 * dim_offset) % 2 ^ 64)
  let grid_z := ptrAdd grid_x ((2 * dim_offset) % 2 ^ 64)
  let grid_uv := ptrAdd grid_x ((3 * dim_offset) % 2 ^ 64)
  { dim_offset := dim_offset, line_offset := line_offset, grid_x := grid_x, grid_y := grid_y,
    grid_z := grid_z, grid_uv := grid_uv }

/-- The address computation of `occluded` (grid_soa_intersector1.h lines 189-195). -/
def occludedPlanes (vfloat_size : Nat) (cache : SharedLazyTessellationCache)
    (patch : SubdivPatch1Cached) (prim : Nat) : GridPlanes :=
  let dim_offset := (patch.grid_size_simd_blocks * vfloat_size) % 2 ^ 64
  let line_offset := patch.grid_u_res % 2 ^ 64
  let offset_bytes := ((prim % 2 ^ 64 + 2 ^ 64 - cache.getDataPtr % 2 ^ 64) % 2 ^ 64) >>> 2
  let grid_x := (offset_bytes + cache.getDataPtr % 2 ^ 64) % 2 ^ 64
  let grid_y := ptrAdd grid_x ((1 * dim_offset) % 2 ^ 64)
  let grid_z := ptrAdd grid_x ((2 * dim_offset) % 2 ^ 64)
  let grid_uv := ptrAdd grid_x ((3 * dim_offset) % 2 ^ 64)
  { dim_offset := dim_offset, line_offset := line_offset, grid_x := grid_x, grid_y := grid_y,
    grid_z := grid_z, grid_uv := grid_uv }

/-- Entry point `intersect(pre, ray, prim, ty, scene, lazy_node)` (grid_soa_intersector1.h lines
168-184). `AVX` is the compile-time switch `__AVX__`; the function returns the ray it leaves,
and nothing when `pre.patch` is null. -/
def intersect (AVX : Bool) (vfloat_size : Nat) (cache : SharedLazyTessellationCache)
    (triangle_intersect_pluecker : TriangleIntersect F) (mem : Nat → Nat)
    (pre : Precalculations) (ray : Ray F) (prim : Nat) (_ty : Nat) (scene : Nat)
    (_lazy_node : Nat) : Option (Ray F) :=
  match pre.patch with
  | none => none
  | some patch =>
    let g := intersectPlanes vfloat_size cache patch prim
    if AVX = true then
      intersectLoader Gather3x3.loader triangle_intersect_pluecker mem ray g.grid_x g.grid_y
        g.grid_z g.grid_uv g.line_offset pre scene
    else
      match intersectLoader Gather2x3.loader triangle_intersect_pluecker mem ray g.grid_x
          g.grid_y g.grid_z g.grid_uv g.line_offset pre scene with
      | none => none
      | some ray =>
        intersectLoader Gather2x3.loader triangle_intersect_pluecker mem ray
          (ptrAdd g.grid_x g.line_offset) (ptrAdd g.grid_y g.line_offset)
          (ptrAdd g.grid_z g.line_offset) (ptrAdd g.grid_uv g.line_offset) g.line_offset pre
          scene

/-- Entry point `occluded(pre, ray, prim, ty, scene, lazy_node)` (grid_soa_intersector1.h lines
187-204); it returns the result and the ray it leaves, and nothing when `pre.patch` is null. -/
def occluded (AVX : Bool) (vfloat_size : Nat) (cache : SharedLazyTessellationCache)
    (triangle_occluded_pluecker : TriangleOccluded F) (mem : Nat → Nat)
    (pre : Precalculations) (ray : Ray F) (prim : Nat) (_ty : Nat) (scene : Nat)
    (_lazy_node : Nat) : Option (Bool × Ray F) :=
  match pre.patch with
  | none => none
  | some patch =>
    let g := occludedPlanes vfloat_size cache patch prim
    if AVX = true then
      occludedLoader Gather3x3.loader triangle_occluded_pluecker mem ray g.grid_x g.grid_y
        g.grid_z g.grid_uv g.line_offset pre scene
    else
      match occludedLoader Gather2x3.loader triangle_occluded_pluecker mem ray g.grid_x
          g.grid_y g.grid_z g.grid_uv g.line_offset pre scene with
      | none => none
      | some (true, ray) => some (true, ray)
      | some (false, ray) =>
        match occludedLoader Gather2x3.loader triangle_occluded_pluecker mem ray
            (ptrAdd g.grid_x g.line_offset) (ptrAdd g.grid_y g.line_offset)
            (ptrAdd g.grid_z g.line_offset) (ptrAdd g.grid_uv g.line_offset) g.line_offset pre
            scene with
        | none => none
        | some (true, ray) => some (true, ray)
        | some (false, ray) => some (false, ray)

/-! ## Reference definitions for stating the properties of the grid intersector -/

/-- Modelled from the spec: the quantisation step of the reference packing, the 16-bit integer
nearest to `65535 * u`. -/
def quantise (u : ℚ) : Nat :=
  ⌊u * 65535 + 1 / 2⌋.toNat

/-- Modelled from the spec: the reference packing `encodeUV(u,v)`, which is not part of this
source: `u` and `v` are quantised to 16-bit integers `iu`, `iv`, and `iu` is stored in bits
0..15 and `iv` in bits 16..31 of one 32-bit word. -/
def encodeUV (u v : ℚ) : Nat :=
  quantise u % 2 ^ 16 + 2 ^ 16 * (quantise v % 2 ^ 16)

/-- Component `k` of a `Vec3<vfloat>`: `[0]`, `[1]`, `[2]` are `x`, `y`, `z`. -/
def component (v : Vec3vf W α) (k : Fin 3) : Fin W → α :=
  ![v.x, v.y, v.z] k

/-- Lanes 0-3 of an 8-wide register. -/
def lowHalf (a : Fin 8 → α) : Fin 4 → α :=
  fun i => a (Fin.castLE (by decide) i)

/-- Lanes 4-7 of an 8-wide register. -/
def highHalf (a : Fin 8 → α) : Fin 4 → α :=
  fun i => a (Fin.natAdd 4 i)

/-- The register `v0`, `v1` or `v2` (for `k = 0, 1, 2`) that the templates `intersect<Loader>`
and `occluded<Loader>` build from the gathers of the three coordinate planes and hand to the
triangle test (grid_soa_intersector1.h lines 121-123 and 151-153): vertex `k` of the triangle
of every lane. -/
def vertexRegister (L : Loader) (mem : Nat → Nat) (grid_x grid_y grid_z line_offset : Nat)
    (k : Fin 3) : Vec3vf L.size Nat :=
  { x := component (L.gather mem grid_x line_offset) k
    y := component (L.gather mem grid_y line_offset) k
    z := component (L.gather mem grid_z line_offset) k }

/-- The pair `uv0`, `uv1` or `uv2` (for `k = 0, 1, 2`) that the uv lambda of the templates
decodes from the gather of the uv plane (grid_soa_intersector1.h lines 127-130 and 157-160): the
uv of vertex `k` of the triangle of every lane. -/
def vertexUV (L : Loader) (mem : Nat → Nat) (grid_uv line_offset : Nat) (k : Fin 3) :
    Vec2v L.size ℚ :=
  L.decodeUV (component (L.gather mem grid_uv line_offset) k)

/-- The planes of the second pass of the narrow path: the four plane pointers advanced by
`line_offset`, that is by one grid row (grid_soa_intersector1.h lines 182 and 201). -/
def GridPlanes.nextRow (g : GridPlanes) : GridPlanes :=
  { g with
    grid_x := ptrAdd g.grid_x g.line_offset
    grid_y := ptrAdd g.grid_y g.line_offset
    grid_z := ptrAdd g.grid_z g.line_offset
    grid_uv := ptrAdd g.grid_uv g.line_offset }

/-- The call of the triangle test that `intersect<Loader>` makes for the planes `g` of a patch
(grid_soa_intersector1.h lines 125-134): the test is handed the ray, the registers `v0`, `v1`,
`v2`, the ids of the patch, the scene and the uv lambda. -/
def intersectCall (L : Loader) (triangle_intersect_pluecker : TriangleIntersect F)
    (mem : Nat → Nat) (ray : Ray F) (g : GridPlanes) (patch : SubdivPatch1Cached) (scene : Nat) :
    Ray F :=
  triangle_intersect_pluecker L.size ray
    (vertexRegister L mem g.grid_x g.grid_y g.grid_z g.line_offset 0)
    (vertexRegister L mem g.grid_x g.grid_y g.grid_z g.line_offset 1)
    (vertexRegister L mem g.grid_x g.grid_y g.grid_z g.line_offset 2)
    patch.geom patch.prim scene (intersectHook L mem g.grid_uv g.line_offset)

/-- The call of the triangle test that `occluded<Loader>` makes for the planes `g` of a patch
(grid_soa_intersector1.h lines 155-164). -/
def occludedCall (L : Loader) (triangle_occluded_pluecker : TriangleOccluded F)
    (mem : Nat → Nat) (ray : Ray F) (g : GridPlanes) (patch : SubdivPatch1Cached) (scene : Nat) :
    Bool × Ray F :=
  triangle_occluded_pluecker L.size ray
    (vertexRegister L mem g.grid_x g.grid_y g.grid_z g.line_offset 0)
    (vertexRegister L mem g.grid_x g.grid_y g.grid_z g.line_offset 1)
    (vertexRegister L mem g.grid_x g.grid_y g.grid_z g.line_offset 2)
    patch.geom patch.prim scene (occludedHook L mem g.grid_uv g.line_offset)

/-- The address of the grid sample `r(row, column)` of the plane that starts at `grid`. -/
def sampleAddr (grid line_offset : Nat) (rc : Nat × Nat) : Nat :=
  ptrAdd grid (rc.1 * line_offset + rc.2)

/-- Modelled from the spec: the triangles of the 2x3 strip, by lane and vertex, as (row,
column) of their corners: `(r00,r01,r10)`, `(r10,r01,r11)`, `(r01,r02,r11)`, `(r11,r02,r12)`. -/
def stripTriangle (lane : Fin 4) (k : Fin 3) : Nat × Nat :=
  ![![(0, 0), (0, 1), (1, 0)],
    ![(1, 0), (0, 1), (1, 1)],
    ![(0, 1), (0, 2), (1, 1)],
    ![(1, 1), (0, 2), (1, 2)]] lane k

/-- The set of corners of the triangle in a lane. -/
def stripCorners (lane : Fin 4) : Finset (Nat × Nat) :=
  Finset.univ.image (stripTriangle lane)

/-- The four corners of the grid cell between columns `c` and `c + 1` of rows 0 and 1. -/
def gridCell (c : Nat) : Finset (Nat × Nat) :=
  {(0, c), (0, c + 1), (1, c), (1, c + 1)}

/-- Twice the signed area of the triangle `(a, b, c)` with the sample `r(i,j)` placed at the
integer point `(i, j)`: the cross product `(b - a) x (c - a)`. -/
def signedArea2 (a b c : Nat × Nat) : Int :=
  ((b.1 : Int) - a.1) * ((c.2 : Int) - a.2) - ((b.2 : Int) - a.2) * ((c.1 : Int) - a.1)

/-- The life of one precalculation object: it is constructed, it is bound to a patch and
locked at most once (`bind` holds the patch, if any), and it is destroyed. The result is the
state of the cache afterwards. -/
def lifecycle (ray : Ray F) (ptr : Nat) (bind : Option SubdivPatch1Cached)
    (cache : SharedLazyTessellationCache) : SharedLazyTessellationCache :=
  let constructed := Precalculations.construct ray ptr cache
  let bound :=
    match bind with
    | none => constructed
    | some patch => constructed.1.bindAndLock patch constructed.2
  bound.1.destruct bound.2

/-! ## Concrete grids and triangle tests on which the properties are evaluated -/

/-- A patch with ids `geom = 3`, `prim = 9`, three samples per grid row and planes of three SIMD
blocks. -/
def examplePatch : SubdivPatch1Cached :=
  { geom := 3, prim := 9, grid_u_res := 3, grid_size_simd_blocks := 3 }

/-- A cache whose data pool starts at address 1000, with no lock taken. -/
def exampleCache : SharedLazyTessellationCache :=
  { dataPtr := 1000, lockCount := 0, lockCalls := 0, unlockCalls := 0 }

/-- A memory that is zero except for the word 1 at address 1024, which is the sample `r20` of
the plane that starts at address 1000 with three samples per row. -/
def exampleMem : Nat → Nat :=
  fun a => if a = 1024 then 1 else 0

/-- A memory that holds the word 1 at every address. -/
def onesMem : Nat → Nat :=
  fun _ => 1

/-- A memory holding the packed uv words `(0,0)`, `(1,0)`, `(0,1)` in the samples `r00`, `r01`,
`r10` of the plane that starts at address 0 with three samples per row. -/
def exampleUVMem : Nat → Nat :=
  fun a => if a = 4 then 0x0000FFFF else if a = 12 then 0xFFFF0000 else 0

/-- A triangle test that commits a hit at distance 5 with the ids it is handed when some lane
of the x coordinates of vertex 0 holds the word 1 and the ray reaches farther than 5, and does
nothing otherwise. -/
def markerIntersect : TriangleIntersect Int :=
  fun W ray v0 _ _ geomID primID _ _ =>
    if (List.finRange W).any (fun i => v0.x i == 1) = true ∧ 5 < ray.tfar then
      { ray with tfar := 5, geomID := geomID, primID := primID }
    else
      ray

/-- An occlusion test that counts its calls in `primID` and reports a hit, setting
`geomID = 0`, when some lane of the x coordinates of vertex 0 holds the word 1. -/
def markerOccluded : TriangleOccluded Int :=
  fun W ray v0 _ _ _ _ _ _ =>
    if (List.finRange W).any (fun i => v0.x i == 1) = true then
      (true, { ray with geomID := 0, primID := ray.primID + 1 })
    else
      (false, { ray with primID := ray.primID + 1 })

/-- An occlusion test that counts in `primID` the lanes it is handed, one for each triangle,
and reports a hit when some lane of the x coordinates of vertex 0 holds the word 1. -/
def laneCountingOccluded : TriangleOccluded Int :=
  fun W ray v0 _ _ _ _ _ _ =>
    ((List.finRange W).any (fun i => v0.x i == 1), { ray with primID := ray.primID + W })

/-- The triangles that the 8-wide gather reads from the 3x3 neighbourhood, by lane and vertex,
as (row, column) of their corners: lanes 0-3 are the triangles of the strip between rows 0 and
1, lanes 4-7 the same triangles one row further down. -/
def gridTriangle (lane : Fin 8) (k : Fin 3) : Nat × Nat :=
  ![![(0, 0), (0, 1), (1, 0)],
    ![(1, 0), (0, 1), (1, 1)],
    ![(0, 1), (0, 2), (1, 1)],
    ![(1, 1), (0, 2), (1, 2)],
    ![(1, 0), (1, 1), (2, 0)],
    ![(2, 0), (1, 1), (2, 1)],
    ![(1, 1), (1, 2), (2, 1)],
    ![(2, 1), (1, 2), (2, 2)]] lane k

/-- A grid plane at address 0 with four floats per row whose sample at byte address `a` holds
the word `a`. -/
def addressMem : Nat → Nat :=
  fun a => a

/-- The memory `addressMem` with the fourth float of each of the rows 0, 1 and 2 (byte
addresses 12, 28 and 44) overwritten by the word 777. -/
def overreadMem : Nat → Nat :=
  fun a => if a = 12 ∨ a = 28 ∨ a = 44 then 777 else a

end GridSOAIntersector1

end isa

end embree

namespace embree

variable {F : Type} {W : Nat} {α : Type}

/-! ## Lemmas on the SIMD primitives -/

theorem any_eq_true_iff (mask : vbool W) : any mask = true ↔ ∃ i, mask i = true := by
  simp [any, List.any_eq_true]

theorem any_eq_false_iff (mask : vbool W) : any mask = false ↔ ∀ i, mask i = false := by
  rw [← Bool.not_eq_true, any_eq_true_iff]
  simp

theorem store_of_true {mask : vbool W} {i : Fin W} (h : mask i = true) (dst value : Fin W → α) :
    store mask dst value i = value i := by
  simp [store, h]

theorem store_of_false {mask : vbool W} {i : Fin W} (h : mask i = false)
    (dst value : Fin W → α) : store mask dst value i = dst i := by
  simp [store, h]

theorem store_empty {mask : vbool W} (h : ∀ i, mask i = false) (dst value : Fin W → α) :
    store mask dst value = dst := by
  funext i
  exact store_of_false (h i) dst value

theorem setLane_eq_store (reg : Fin W → α) (k : Fin W) (a : α) :
    setLane reg k a = store (laneMask k) reg (broadcast a) := by
  funext i
  simp [setLane, store, laneMask, broadcast]

namespace isa

theorem validFailed_apply (valid : vbool W) (ray : RayK W F) (i : Fin W) :
    validFailed valid ray i = (valid i && decide (ray.geomID i = -1)) := by
  simp [validFailed, vbool_and, vint_eq, broadcast]

theorem validPassed_apply (valid : vbool W) (ray : RayK W F) (i : Fin W) :
    validPassed valid ray i = (valid i && decide (ray.geomID i ≠ -1)) := by
  simp [validPassed, vbool_and, vint_ne, broadcast]

theorem validFailed_eq_true_iff (valid : vbool W) (ray : RayK W F) (i : Fin W) :
    validFailed valid ray i = true ↔ valid i = true ∧ ray.geomID i = -1 := by
  simp [validFailed_apply]

theorem validFailed_eq_false_iff (valid : vbool W) (ray : RayK W F) (i : Fin W) :
    validFailed valid ray i = false ↔ (valid i = true → ray.geomID i ≠ -1) := by
  simp [validFailed_apply]

/-! ## What the batch intersection filter leaves in a lane -/

theorem runIntersectionFilter_fst (valid : vbool W) (geometry : Geometry F) (ray : RayK W F)
    (u v t : vfloat W F) (Ng : Vec3vf W F) (geomID primID : Int) :
    (runIntersectionFilter valid geometry ray u v t Ng geomID primID).1 =
      validPassed valid (afterIntersectionFilter valid geometry ray u v t Ng geomID primID) := by
  simp only [runIntersectionFilter]
  split <;> rfl

theorem runIntersectionFilter_hit_failed (valid : vbool W) (geometry : Geometry F)
    (ray : RayK W F) (u v t : vfloat W F) (Ng : Vec3vf W F) (geomID primID : Int) (i : Fin W)
    (hfail : validFailed valid
      (afterIntersectionFilter valid geometry ray u v t Ng geomID primID) i = true) :
    (runIntersectionFilter valid geometry ray u v t Ng geomID primID).2.hit i = ray.hit i := by
  have hany : any (validFailed valid
      (afterIntersectionFilter valid geometry ray u v t Ng geomID primID)) = true :=
    (any_eq_true_iff _).2 ⟨i, hfail⟩
  simp only [runIntersectionFilter, hany, if_true]
  simp [RayK.hit, store_of_true hfail]

theorem runIntersectionFilter_hit_kept (valid : vbool W) (geometry : Geometry F)
    (ray : RayK W F) (u v t : vfloat W F) (Ng : Vec3vf W F) (geomID primID : Int) (i : Fin W)
    (hkept : validFailed valid
      (afterIntersectionFilter valid geometry ray u v t Ng geomID primID) i = false) :
    (runIntersectionFilter valid geometry ray u v t Ng geomID primID).2.hit i =
      (afterIntersectionFilter valid geometry ray u v t Ng geomID primID).hit i := by
  simp only [runIntersectionFilter]
  split
  · simp [RayK.hit, store_of_false hkept]
  · rfl

theorem runIntersectionFilter_org_dir (valid : vbool W) (geometry : Geometry F)
    (ray : RayK W F) (u v t : vfloat W F) (Ng : Vec3vf W F) (geomID primID : Int) :
    (runIntersectionFilter valid geometry ray u v t Ng geomID primID).2.org =
      (afterIntersectionFilter valid geometry ray u v t Ng geomID primID).org ∧
    (runIntersectionFilter valid geometry ray u v t Ng geomID primID).2.dir =
      (afterIntersectionFilter valid geometry ray u v t Ng geomID primID).dir := by
  simp only [runIntersectionFilter]
  split <;> exact ⟨rfl, rfl⟩

theorem updateHit_hit_of_valid (valid : vbool W) (ray : RayK W F) (u v t : vfloat W F)
    (Ng : Vec3vf W F) (geomID primID : Int) (i : Fin W) (h : valid i = true) :
    (updateHit valid ray u v t Ng geomID primID).hit i = candidate u v t Ng geomID primID i := by
  simp [updateHit, RayK.hit, candidate, store_of_true h, broadcast]

theorem updateHit_hit_of_not_valid (valid : vbool W) (ray : RayK W F) (u v t : vfloat W F)
    (Ng : Vec3vf W F) (geomID primID : Int) (i : Fin W) (h : valid i = false) :
    (updateHit valid ray u v t Ng geomID primID).hit i = ray.hit i := by
  simp [updateHit, RayK.hit, store_of_false h]

theorem hit_geomID (ray : RayK W F) (i : Fin W) : (ray.hit i).geomID = ray.geomID i := rfl

/-! ## Batch intersection rollback -/

/-- C1: for every width `W` (in particular 4, 8 and 16), ray batch, active mask, candidate and
callback of either calling convention, every lane that is in `valid` and whose `geomID` is `-1`
right after the callback has `u`, `v`, `tfar`, `geomID`, `primID`, `Ng.x`, `Ng.y` and `Ng.z`
equal to their pre-call values once the batch `runIntersectionFilter` has returned. -/
theorem runIntersectionFilter_rollback (valid : vbool W) (geometry : Geometry F)
    (ray : RayK W F) (u v t : vfloat W F) (Ng : Vec3vf W F) (geomID primID : Int) (i : Fin W)
    (hvalid : valid i = true)
    (hrejected : (afterIntersectionFilter valid geometry ray u v t Ng geomID primID).geomID i = -1) :
    (runIntersectionFilter valid geometry ray u v t Ng geomID primID).2.u i = ray.u i ∧
    (runIntersectionFilter valid geometry ray u v t Ng geomID primID).2.v i = ray.v i ∧
    (runIntersectionFilter valid geometry ray u v t Ng geomID primID).2.tfar i = ray.tfar i ∧
    (runIntersectionFilter valid geometry ray u v t Ng geomID primID).2.geomID i = ray.geomID i ∧
    (runIntersectionFilter valid geometry ray u v t Ng geomID primID).2.primID i = ray.primID i ∧
    (runIntersectionFilter valid geometry ray u v t Ng geomID primID).2.Ng.x i = ray.Ng.x i ∧
    (runIntersectionFilter valid geometry ray u v t Ng geomID primID).2.Ng.y i = ray.Ng.y i ∧
    (runIntersectionFilter valid geometry ray u v t Ng geomID primID).2.Ng.z i = ray.Ng.z i := by
  have hfail : validFailed valid
      (afterIntersectionFilter valid geometry ray u v t Ng geomID primID) i = true :=
    (validFailed_eq_true_iff _ _ _).2 ⟨hvalid, hrejected⟩
  have hany : any (validFailed valid
      (afterIntersectionFilter valid geometry ray u v t Ng geomID primID)) = true :=
    (any_eq_true_iff _).2 ⟨i, hfail⟩
  simp only [runIntersectionFilter, hany, if_true]
  simp [store_of_true hfail]

/-- C1 witness: width 4, mask `{0, 2}`, a callback that rejects lane 0: lane 0 is active, holds
`geomID = -1` after the callback, and ends with its pre-call hit fields. -/
theorem runIntersectionFilter_rollback_witness :
    exampleValid 0 = true ∧
    (afterIntersectionFilter exampleValid rejectLane0 exampleRayK (broadcast 1) (broadcast 2)
      (broadcast 3) exampleNg 5 6).geomID 0 = -1 ∧
    (runIntersectionFilter exampleValid rejectLane0 exampleRayK (broadcast 1) (broadcast 2)
      (broadcast 3) exampleNg 5 6).2.u 0 = 20 ∧
    (runIntersectionFilter exampleValid rejectLane0 exampleRayK (broadcast 1) (broadcast 2)
      (broadcast 3) exampleNg 5 6).2.geomID 0 = 7 :=
  ⟨by decide, by decide,
    (runIntersectionFilter_rollback exampleValid rejectLane0 exampleRayK (broadcast 1)
      (broadcast 2) (broadcast 3) exampleNg 5 6 0 (by decide) (by decide)).1,
    (runIntersectionFilter_rollback exampleValid rejectLane0 exampleRayK (broadcast 1)
      (broadcast 2) (broadcast 3) exampleNg 5 6 0 (by decide) (by decide)).2.2.2.1⟩

/-! ## Batch returned mask -/

/-- C2: for every input mask and callback, the mask returned by the batch
`runIntersectionFilter` and by the batch `runOcclusionFilter` holds exactly the lanes of `valid`
whose `geomID` differs from `-1` after the callback; it has no lane outside `valid`, no lane in
common with the failed set `validFailed`, its union with the failed set is `valid`, and it is the
same whatever a legacy-convention callback leaves in the mask copy it is handed. -/
theorem batch_returned_mask (valid : vbool W) (geometry : Geometry F) (ray : RayK W F)
    (u v t : vfloat W F) (Ng : Vec3vf W F) (geomID primID : Int)
    (maskWrite : (W : Nat) → vbool W → Nat → RayK W F → vbool W) :
    ((runIntersectionFilter valid geometry ray u v t Ng geomID primID).1 = fun i =>
      valid i &&
        decide ((afterIntersectionFilter valid geometry ray u v t Ng geomID primID).geomID i ≠ -1)) ∧
    (∀ i, ((runIntersectionFilter valid geometry ray u v t Ng geomID primID).1 i &&
      !valid i) = false) ∧
    (∀ i, ((runIntersectionFilter valid geometry ray u v t Ng geomID primID).1 i &&
      validFailed valid
        (afterIntersectionFilter valid geometry ray u v t Ng geomID primID) i) = false) ∧
    (∀ i, ((runIntersectionFilter valid geometry ray u v t Ng geomID primID).1 i ||
      validFailed valid
        (afterIntersectionFilter valid geometry ray u v t Ng geomID primID) i) = valid i) ∧
    ((runIntersectionFilter valid (withMaskWrite geometry maskWrite) ray u v t Ng geomID primID).1
      = (runIntersectionFilter valid geometry ray u v t Ng geomID primID).1) ∧
    ((runOcclusionFilter valid geometry ray u v t Ng geomID primID).1 = fun i =>
      valid i &&
        decide ((afterOcclusionFilter valid geometry ray u v t Ng geomID primID).geomID i ≠ -1)) ∧
    (∀ i, ((runOcclusionFilter valid geometry ray u v t Ng geomID primID).1 i &&
      !valid i) = false) ∧
    (∀ i, ((runOcclusionFilter valid geometry ray u v t Ng geomID primID).1 i &&
      validFailed valid
        (afterOcclusionFilter valid geometry ray u v t Ng geomID primID) i) = false) ∧
    (∀ i, ((runOcclusionFilter valid geometry ray u v t Ng geomID primID).1 i ||
      validFailed valid
        (afterOcclusionFilter valid geometry ray u v t Ng geomID primID) i) = valid i) ∧
    ((runOcclusionFilter valid (withMaskWrite geometry maskWrite) ray u v t Ng geomID primID).1
      = (runOcclusionFilter valid geometry ray u v t Ng geomID primID).1) := by
  have hI : (runIntersectionFilter valid geometry ray u v t Ng geomID primID).1 =
      validPassed valid (afterIntersectionFilter valid geometry ray u v t Ng geomID primID) := by
    simp only [runIntersectionFilter]
    split <;> rfl
  have hO : (runOcclusionFilter valid geometry ray u v t Ng geomID primID).1 =
      validPassed valid (afterOcclusionFilter valid geometry ray u v t Ng geomID primID) := rfl
  have hIw : (runIntersectionFilter valid (withMaskWrite geometry maskWrite) ray u v t Ng geomID
      primID).1 = validPassed valid
        (afterIntersectionFilter valid geometry ray u v t Ng geomID primID) := by
    simp only [runIntersectionFilter]
    split <;> rfl
  refine ⟨?_, ?_, ?_, ?_, ?_, ?_, ?_, ?_, ?_, ?_⟩
  · rw [hI]; funext i; exact validPassed_apply _ _ i
  · intro i; rw [hI, validPassed_apply]; cases valid i <;> simp
  · intro i; rw [hI, validPassed_apply, validFailed_apply]; cases valid i <;> simp
  · intro i; rw [hI, validPassed_apply, validFailed_apply]
    cases valid i <;> simp
  · rw [hIw, hI]
  · rw [hO]; funext i; exact validPassed_apply _ _ i
  · intro i; rw [hO, validPassed_apply]; cases valid i <;> simp
  · intro i; rw [hO, validPassed_apply, validFailed_apply]; cases valid i <;> simp
  · intro i; rw [hO, validPassed_apply, validFailed_apply]
    cases valid i <;> simp
  · rfl

/-! ## Batch commit and frame -/

/-- C3 counterexample: width 4, mask `{0, 2}`, `R = {0}`, a callback that only writes `-1` into
`geomID` on the active lanes of `R`, and a candidate whose `geomID` is `-1`: lane 2 is in
`valid` and not in `R`, yet it is not in the returned mask and keeps its pre-call `u = 22`,
`tfar = 12` and `geomID = 7` instead of the candidate `u = 1`, `t = 3`, `geomID = -1`. -/
theorem commit_frame_counterexample :
    (afterIntersectionFilter exampleValid rejectLane0 exampleRayK (broadcast 1) (broadcast 2)
        (broadcast 3) exampleNg (-1) 6 =
      { updateHit exampleValid exampleRayK (broadcast 1) (broadcast 2) (broadcast 3) exampleNg
          (-1) 6 with
        geomID := store (vbool_and exampleValid (lanes fun i => i == 0))
          (updateHit exampleValid exampleRayK (broadcast 1) (broadcast 2) (broadcast 3) exampleNg
            (-1) 6).geomID (broadcast (-1)) }) ∧
    exampleValid 2 = true ∧
    (lanes (fun i => i == 0) : vbool 4) 2 = false ∧
    (runIntersectionFilter exampleValid rejectLane0 exampleRayK (broadcast 1) (broadcast 2)
      (broadcast 3) exampleNg (-1) 6).1 2 = false ∧
    (runIntersectionFilter exampleValid rejectLane0 exampleRayK (broadcast 1) (broadcast 2)
      (broadcast 3) exampleNg (-1) 6).2.u 2 = 22 ∧
    (runIntersectionFilter exampleValid rejectLane0 exampleRayK (broadcast 1) (broadcast 2)
      (broadcast 3) exampleNg (-1) 6).2.tfar 2 = 12 ∧
    (runIntersectionFilter exampleValid rejectLane0 exampleRayK (broadcast 1) (broadcast 2)
      (broadcast 3) exampleNg (-1) 6).2.geomID 2 = 7 :=
  ⟨rfl, by decide, by decide, by decide, by decide, by decide, by decide⟩

/-- C3 (amended): for every width-4 batch, mask `valid`, set `R` of lanes and candidate whose
`geomID` is not `-1`, if the callback does nothing except write `-1` into `geomID` on the lanes
of `R` that are in `valid`, then after the batch `runIntersectionFilter` (a) every lane in
`valid` and not in `R` holds exactly the candidate in its six hit fields, (b) every lane in `R`
or outside `valid` holds its pre-call hit fields, (c) origin and direction, the fields that are
not hit fields, are unchanged on all lanes, and (d) the returned mask is `valid` without `R`. -/
theorem commit_frame (valid R : vbool 4) (geometry : Geometry F) (ray : RayK 4 F)
    (u v t : vfloat 4 F) (Ng : Vec3vf 4 F) (geomID primID : Int)
    (hgeomID : geomID ≠ -1)
    (hcallback : afterIntersectionFilter valid geometry ray u v t Ng geomID primID =
      { updateHit valid ray u v t Ng geomID primID with
        geomID := store (vbool_and valid R) (updateHit valid ray u v t Ng geomID primID).geomID
          (broadcast (-1)) }) :
    (∀ i, valid i = true → R i = false →
      (runIntersectionFilter valid geometry ray u v t Ng geomID primID).2.hit i =
        candidate u v t Ng geomID primID i) ∧
    (∀ i, R i = true ∨ valid i = false →
      (runIntersectionFilter valid geometry ray u v t Ng geomID primID).2.hit i = ray.hit i) ∧
    (runIntersectionFilter valid geometry ray u v t Ng geomID primID).2.org = ray.org ∧
    (runIntersectionFilter valid geometry ray u v t Ng geomID primID).2.dir = ray.dir ∧
    ((runIntersectionFilter valid geometry ray u v t Ng geomID primID).1 = fun i =>
      valid i && !R i) := by
  -- the hit fields of a lane on which the callback did not write
  have hsame : ∀ i, (valid i && R i) = false →
      (afterIntersectionFilter valid geometry ray u v t Ng geomID primID).hit i =
        (updateHit valid ray u v t Ng geomID primID).hit i := by
    intro i hi
    rw [hcallback]
    simp [RayK.hit, store, vbool_and, hi]
  have hwritten : ∀ i, valid i = true → R i = true →
      (afterIntersectionFilter valid geometry ray u v t Ng geomID primID).geomID i = -1 := by
    intro i hv hR
    rw [hcallback]
    simp [store, vbool_and, hv, hR, broadcast]
  have hgeom : ∀ i, valid i = true → R i = false →
      (afterIntersectionFilter valid geometry ray u v t Ng geomID primID).geomID i = geomID := by
    intro i hv hR
    rw [← hit_geomID, hsame i (by simp [hR]), updateHit_hit_of_valid _ _ _ _ _ _ _ _ i hv]
    rfl
  refine ⟨?_, ?_, ?_, ?_, ?_⟩
  · intro i hv hR
    have hkept : validFailed valid
        (afterIntersectionFilter valid geometry ray u v t Ng geomID primID) i = false := by
      rw [validFailed_eq_false_iff, hgeom i hv hR]
      exact fun _ => hgeomID
    rw [runIntersectionFilter_hit_kept _ _ _ _ _ _ _ _ _ i hkept, hsame i (by simp [hR]),
      updateHit_hit_of_valid _ _ _ _ _ _ _ _ i hv]
  · intro i hi
    cases hv : valid i with
    | false =>
      have hkept : validFailed valid
          (afterIntersectionFilter valid geometry ray u v t Ng geomID primID) i = false := by
        rw [validFailed_eq_false_iff]
        intro h
        rw [hv] at h
        exact absurd h (by decide)
      rw [runIntersectionFilter_hit_kept _ _ _ _ _ _ _ _ _ i hkept, hsame i (by simp [hv]),
        updateHit_hit_of_not_valid _ _ _ _ _ _ _ _ i hv]
    | true =>
      have hR : R i = true := by
        rcases hi with h | h
        · exact h
        · rw [hv] at h
          exact absurd h (by decide)
      exact runIntersectionFilter_hit_failed _ _ _ _ _ _ _ _ _ i
        ((validFailed_eq_true_iff _ _ _).2 ⟨hv, hwritten i hv hR⟩)
  · rw [(runIntersectionFilter_org_dir _ _ _ _ _ _ _ _ _).1, hcallback]
    rfl
  · rw [(runIntersectionFilter_org_dir _ _ _ _ _ _ _ _ _).2, hcallback]
    rfl
  · rw [runIntersectionFilter_fst]
    funext i
    rw [validPassed_apply]
    cases hv : valid i with
    | false => simp
    | true =>
      cases hR : R i with
      | false => simp [hgeom i hv hR, hgeomID]
      | true => simp [hwritten i hv hR]

/-- C3 witness: the scenario of the specification. Width 4, mask `{0, 2}`, the callback rejects
lane 0 and accepts lane 2: lane 0 is unchanged, lane 2 holds the candidate, lanes 1 and 3 are
unchanged, and the returned mask is `{2}`. -/
theorem commit_frame_witness :
    (5 : Int) ≠ -1 ∧
    (runIntersectionFilter exampleValid rejectLane0Legacy exampleRayK (broadcast 1) (broadcast 2)
      (broadcast 3) exampleNg 5 6).2.hit 0 = (exampleRayK : RayK 4 Int).hit 0 ∧
    (runIntersectionFilter exampleValid rejectLane0Legacy exampleRayK (broadcast 1) (broadcast 2)
      (broadcast 3) exampleNg 5 6).2.hit 1 = (exampleRayK : RayK 4 Int).hit 1 ∧
    (runIntersectionFilter exampleValid rejectLane0Legacy exampleRayK (broadcast 1) (broadcast 2)
      (broadcast 3) exampleNg 5 6).2.hit 2 =
        candidate (broadcast 1) (broadcast 2) (broadcast 3) exampleNg 5 6 (2 : Fin 4) ∧
    (runIntersectionFilter exampleValid rejectLane0Legacy exampleRayK (broadcast 1) (broadcast 2)
      (broadcast 3) exampleNg 5 6).2.hit 3 = (exampleRayK : RayK 4 Int).hit 3 ∧
    (runIntersectionFilter exampleValid rejectLane0Legacy exampleRayK (broadcast 1) (broadcast 2)
      (broadcast 3) exampleNg 5 6).1 = fun i => exampleValid i && !lanes (fun i => i == 0) i :=
  ⟨by decide,
    (commit_frame exampleValid (lanes fun i => i == 0) rejectLane0Legacy exampleRayK (broadcast 1)
      (broadcast 2) (broadcast 3) exampleNg 5 6 (by decide) rfl).2.1 0 (Or.inl (by decide)),
    (commit_frame exampleValid (lanes fun i => i == 0) rejectLane0Legacy exampleRayK (broadcast 1)
      (broadcast 2) (broadcast 3) exampleNg 5 6 (by decide) rfl).2.1 1 (Or.inr (by decide)),
    (commit_frame exampleValid (lanes fun i => i == 0) rejectLane0Legacy exampleRayK (broadcast 1)
      (broadcast 2) (broadcast 3) exampleNg 5 6 (by decide) rfl).1 2 (by decide) (by decide),
    (commit_frame exampleValid (lanes fun i => i == 0) rejectLane0Legacy exampleRayK (broadcast 1)
      (broadcast 2) (broadcast 3) exampleNg 5 6 (by decide) rfl).2.1 3 (Or.inr (by decide)),
    (commit_frame exampleValid (lanes fun i => i == 0) rejectLane0Legacy exampleRayK (broadcast 1)
      (broadcast 2) (broadcast 3) exampleNg 5 6 (by decide) rfl).2.2.2.2⟩

/-! ## Single ray -/

/-- C4: for every ray, candidate and scalar callback, if `ray.geomID` is `-1` after the callback
then `runIntersectionFilter1` returns false and the ray's `tfar`, `Ng`, `u`, `v`, `geomID` and
`primID` all equal their pre-call values; `geomID` and `primID` come back through the 16-byte
store of `ray_uv_ids`. -/
theorem runIntersectionFilter1_rollback (geometry : Geometry F) (ray : Ray F) (u v t : F)
    (Ng : Vec3fa F) (geomID primID : Int)
    (hrejected : (afterIntersectionFilter1 geometry ray u v t Ng geomID primID).geomID = -1) :
    (runIntersectionFilter1 geometry ray u v t Ng geomID primID).1 = false ∧
    (runIntersectionFilter1 geometry ray u v t Ng geomID primID).2.tfar = ray.tfar ∧
    (runIntersectionFilter1 geometry ray u v t Ng geomID primID).2.Ng = ray.Ng ∧
    (runIntersectionFilter1 geometry ray u v t Ng geomID primID).2.u = ray.u ∧
    (runIntersectionFilter1 geometry ray u v t Ng geomID primID).2.v = ray.v ∧
    (runIntersectionFilter1 geometry ray u v t Ng geomID primID).2.geomID = ray.geomID ∧
    (runIntersectionFilter1 geometry ray u v t Ng geomID primID).2.primID = ray.primID := by
  simp [runIntersectionFilter1, hrejected, Ray.store_uv_ids, Ray.load_uv_ids]

/-- C4 witness: a rejecting scalar callback on the example ray; the call returns false and the
ray has its pre-call `tfar = 10`, `u = 20`, `geomID = 7` and `primID = 8`. -/
theorem runIntersectionFilter1_rollback_witness :
    (afterIntersectionFilter1 (exampleGeometry true (fun _ => rejectLanes fun _ => false) true)
      exampleRay 1 2 3 ⟨4, 5, 6⟩ 5 6).geomID = -1 ∧
    (runIntersectionFilter1 (exampleGeometry true (fun _ => rejectLanes fun _ => false) true)
      exampleRay 1 2 3 ⟨4, 5, 6⟩ 5 6).1 = false ∧
    (runIntersectionFilter1 (exampleGeometry true (fun _ => rejectLanes fun _ => false) true)
      exampleRay 1 2 3 ⟨4, 5, 6⟩ 5 6).2.tfar = 10 ∧
    (runIntersectionFilter1 (exampleGeometry true (fun _ => rejectLanes fun _ => false) true)
      exampleRay 1 2 3 ⟨4, 5, 6⟩ 5 6).2.geomID = 7 ∧
    (runIntersectionFilter1 (exampleGeometry true (fun _ => rejectLanes fun _ => false) true)
      exampleRay 1 2 3 ⟨4, 5, 6⟩ 5 6).2.primID = 8 :=
  ⟨by decide,
    (runIntersectionFilter1_rollback (exampleGeometry true (fun _ => rejectLanes fun _ => false)
      true) exampleRay 1 2 3 ⟨4, 5, 6⟩ 5 6 (by decide)).1,
    (runIntersectionFilter1_rollback (exampleGeometry true (fun _ => rejectLanes fun _ => false)
      true) exampleRay 1 2 3 ⟨4, 5, 6⟩ 5 6 (by decide)).2.1,
    (runIntersectionFilter1_rollback (exampleGeometry true (fun _ => rejectLanes fun _ => false)
      true) exampleRay 1 2 3 ⟨4, 5, 6⟩ 5 6 (by decide)).2.2.2.2.2.1,
    (runIntersectionFilter1_rollback (exampleGeometry true (fun _ => rejectLanes fun _ => false)
      true) exampleRay 1 2 3 ⟨4, 5, 6⟩ 5 6 (by decide)).2.2.2.2.2.2⟩

/-- C5: for every ray, candidate and scalar callback, `runIntersectionFilter1` returns true
exactly when `ray.geomID` differs from `-1` after the callback; when it returns true the ray is
the callback's output on the ray whose `u`, `v`, `tfar`, `Ng`, `geomID`, `primID` were
overwritten with the candidate, all other fields being those of the input ray; so when the
callback returns the ray it was handed and the call returns true, the six hit fields are the
candidate and origin and direction are unchanged. -/
theorem runIntersectionFilter1_accept (geometry : Geometry F) (ray : Ray F) (u v t : F)
    (Ng : Vec3fa F) (geomID primID : Int) :
    ((runIntersectionFilter1 geometry ray u v t Ng geomID primID).1 = true ↔
      (afterIntersectionFilter1 geometry ray u v t Ng geomID primID).geomID ≠ -1) ∧
    ((runIntersectionFilter1 geometry ray u v t Ng geomID primID).1 = true →
      (runIntersectionFilter1 geometry ray u v t Ng geomID primID).2 =
        geometry.intersectionFilter1 geometry.userPtr
          { org := ray.org, dir := ray.dir, tfar := t, Ng := Ng, u := u, v := v,
            geomID := geomID, primID := primID }) ∧
    ((runIntersectionFilter1 geometry ray u v t Ng geomID primID).1 = true →
      (∀ r, geometry.intersectionFilter1 geometry.userPtr r = r) →
      (runIntersectionFilter1 geometry ray u v t Ng geomID primID).2 =
        { org := ray.org, dir := ray.dir, tfar := t, Ng := Ng, u := u, v := v,
          geomID := geomID, primID := primID }) := by
  have hafter : afterIntersectionFilter1 geometry ray u v t Ng geomID primID =
      geometry.intersectionFilter1 geometry.userPtr
        { org := ray.org, dir := ray.dir, tfar := t, Ng := Ng, u := u, v := v,
          geomID := geomID, primID := primID } := rfl
  have hsnd : (runIntersectionFilter1 geometry ray u v t Ng geomID primID).1 = true →
      (runIntersectionFilter1 geometry ray u v t Ng geomID primID).2 =
        afterIntersectionFilter1 geometry ray u v t Ng geomID primID := by
    simp only [runIntersectionFilter1]
    split
    · intro h
      exact absurd h Bool.false_ne_true
    · intro _
      rfl
  refine ⟨?_, ?_, ?_⟩
  · simp only [runIntersectionFilter1]
    split <;> simp_all
  · intro h
    rw [hsnd h, hafter]
  · intro h hid
    rw [hsnd h, hafter, hid]

/-- C5 witness: an accepting scalar callback that writes nothing, on the example ray: the
call returns true and the ray holds the candidate in its six hit fields next to the original
origin and direction. -/
theorem runIntersectionFilter1_accept_witness :
    (runIntersectionFilter1 (exampleGeometry false (fun _ => rejectLanes fun _ => false) true)
      exampleRay 1 2 3 ⟨4, 5, 6⟩ 5 6).1 = true ∧
    (runIntersectionFilter1 (exampleGeometry false (fun _ => rejectLanes fun _ => false) true)
      exampleRay 1 2 3 ⟨4, 5, 6⟩ 5 6).2 =
      { org := ⟨0, 0, 0⟩, dir := ⟨0, 0, 1⟩, tfar := 3, Ng := ⟨4, 5, 6⟩, u := 1, v := 2,
        geomID := 5, primID := 6 } :=
  ⟨by decide,
    (runIntersectionFilter1_accept (exampleGeometry false (fun _ => rejectLanes fun _ => false)
      true) exampleRay 1 2 3 ⟨4, 5, 6⟩ 5 6).2.2 (by decide) (fun _ => rfl)⟩


theorem store_eq_value {mask : vbool W} {dst value : Fin W → α}
    (h : ∀ j, mask j = false → dst j = value j) : store mask dst value = value := by
  funext j
  cases hm : mask j with
  | false => rw [store_of_false hm, h j hm]
  | true => rw [store_of_true hm]

theorem hit_eq_iff (a b : RayK W F) (i j : Fin W) :
    a.hit i = b.hit j ↔ a.u i = b.u j ∧ a.v i = b.v j ∧ a.tfar i = b.tfar j ∧
      a.Ng.x i = b.Ng.x j ∧ a.Ng.y i = b.Ng.y j ∧ a.Ng.z i = b.Ng.z j ∧
      a.geomID i = b.geomID j ∧ a.primID i = b.primID j := by
  simp only [RayK.hit, Hit.mk.injEq, Vec3fa.mk.injEq]
  tauto

theorem updateHitLane_eq_updateHit (ray : RayK W F) (k : Fin W) (u v t : F) (Ng : Vec3fa F)
    (geomID primID : Int) :
    updateHitLane ray k u v t Ng geomID primID =
      updateHit (laneMask k) ray (broadcast u) (broadcast v) (broadcast t) (broadcastVec3 Ng)
        geomID primID := by
  simp [updateHitLane, updateHit, setLane_eq_store, broadcastVec3]

theorem afterIntersectionFilterLane_eq (geometry : Geometry F) (ray : RayK W F) (k : Fin W)
    (u v t : F) (Ng : Vec3fa F) (geomID primID : Int) :
    afterIntersectionFilter (laneMask k) geometry ray (broadcast u) (broadcast v) (broadcast t)
        (broadcastVec3 Ng) geomID primID =
      afterIntersectionFilterLane geometry ray k u v t Ng geomID primID := by
  simp only [afterIntersectionFilterLane, afterIntersectionFilter, updateHitLane_eq_updateHit]

theorem afterOcclusionFilterLane_eq (geometry : Geometry F) (ray : RayK W F) (k : Fin W)
    (u v t : F) (Ng : Vec3fa F) (geomID primID : Int) :
    afterOcclusionFilter (laneMask k) geometry ray (broadcast u) (broadcast v) (broadcast t)
        (broadcastVec3 Ng) geomID primID =
      afterOcclusionFilterLane geometry ray k u v t Ng geomID primID := by
  simp only [afterOcclusionFilterLane, afterOcclusionFilter, updateHitLane_eq_updateHit]

theorem validFailed_laneMask_self (k : Fin W) (ray : RayK W F) :
    validFailed (laneMask k) ray k = decide (ray.geomID k = -1) := by
  simp [validFailed_apply, laneMask]

theorem validFailed_laneMask_of_ne (k : Fin W) (ray : RayK W F) (j : Fin W) (h : j ≠ k) :
    validFailed (laneMask k) ray j = false := by
  simp [validFailed_apply, laneMask, h]

theorem validPassed_laneMask_eq_iff (k : Fin W) (ray : RayK W F) :
    validPassed (laneMask k) ray = laneMask k ↔ ray.geomID k ≠ -1 := by
  constructor
  · intro h
    have hk := congrFun h k
    simpa [validPassed_apply, laneMask] using hk
  · intro h
    funext j
    by_cases hj : j = k
    · subst hj
      simp [validPassed_apply, laneMask, h]
    · simp [validPassed_apply, laneMask, hj]

/-! ## One lane of a batch against the batch variant with a one-bit mask -/

theorem runIntersectionFilterLane_of_accepted (geometry : Geometry F) (ray : RayK W F)
    (k : Fin W) (u v t : F) (Ng : Vec3fa F) (geomID primID : Int)
    (h : (afterIntersectionFilterLane geometry ray k u v t Ng geomID primID).geomID k ≠ -1) :
    runIntersectionFilterLane geometry ray k u v t Ng geomID primID =
      (true, afterIntersectionFilterLane geometry ray k u v t Ng geomID primID) := by
  simp [runIntersectionFilterLane, h]

theorem runIntersectionFilterLane_of_rejected (geometry : Geometry F) (ray : RayK W F)
    (k : Fin W) (u v t : F) (Ng : Vec3fa F) (geomID primID : Int)
    (h : (afterIntersectionFilterLane geometry ray k u v t Ng geomID primID).geomID k = -1) :
    runIntersectionFilterLane geometry ray k u v t Ng geomID primID =
      (false, { afterIntersectionFilterLane geometry ray k u v t Ng geomID primID with
        u := ray.u, v := ray.v, tfar := ray.tfar, geomID := ray.geomID, primID := ray.primID,
        Ng := ray.Ng }) := by
  simp [runIntersectionFilterLane, h]

theorem runOcclusionFilterLane_of_accepted (geometry : Geometry F) (ray : RayK W F)
    (k : Fin W) (u v t : F) (Ng : Vec3fa F) (geomID primID : Int)
    (h : (afterOcclusionFilterLane geometry ray k u v t Ng geomID primID).geomID k ≠ -1) :
    runOcclusionFilterLane geometry ray k u v t Ng geomID primID =
      (true, afterOcclusionFilterLane geometry ray k u v t Ng geomID primID) := by
  simp [runOcclusionFilterLane, h]

theorem runOcclusionFilterLane_of_rejected (geometry : Geometry F) (ray : RayK W F)
    (k : Fin W) (u v t : F) (Ng : Vec3fa F) (geomID primID : Int)
    (h : (afterOcclusionFilterLane geometry ray k u v t Ng geomID primID).geomID k = -1) :
    runOcclusionFilterLane geometry ray k u v t Ng geomID primID =
      (false, { afterOcclusionFilterLane geometry ray k u v t Ng geomID primID with
        tfar := ray.tfar, geomID := ray.geomID }) := by
  simp [runOcclusionFilterLane, h]

theorem runIntersectionFilter_of_none_failed (valid : vbool W) (geometry : Geometry F)
    (ray : RayK W F) (u v t : vfloat W F) (Ng : Vec3vf W F) (geomID primID : Int)
    (h : ∀ i, validFailed valid
      (afterIntersectionFilter valid geometry ray u v t Ng geomID primID) i = false) :
    (runIntersectionFilter valid geometry ray u v t Ng geomID primID).2 =
      afterIntersectionFilter valid geometry ray u v t Ng geomID primID := by
  have hany := (any_eq_false_iff _).2 h
  simp [runIntersectionFilter, hany]

theorem runIntersectionFilter_of_some_failed (valid : vbool W) (geometry : Geometry F)
    (ray : RayK W F) (u v t : vfloat W F) (Ng : Vec3vf W F) (geomID primID : Int) (i : Fin W)
    (h : validFailed valid
      (afterIntersectionFilter valid geometry ray u v t Ng geomID primID) i = true) :
    (runIntersectionFilter valid geometry ray u v t Ng geomID primID).2 =
      { afterIntersectionFilter valid geometry ray u v t Ng geomID primID with
        u := store (validFailed valid
            (afterIntersectionFilter valid geometry ray u v t Ng geomID primID))
          (afterIntersectionFilter valid geometry ray u v t Ng geomID primID).u ray.u,
        v := store (validFailed valid
            (afterIntersectionFilter valid geometry ray u v t Ng geomID primID))
          (afterIntersectionFilter valid geometry ray u v t Ng geomID primID).v ray.v,
        tfar := store (validFailed valid
            (afterIntersectionFilter valid geometry ray u v t Ng geomID primID))
          (afterIntersectionFilter valid geometry ray u v t Ng geomID primID).tfar ray.tfar,
        geomID := store (validFailed valid
            (afterIntersectionFilter valid geometry ray u v t Ng geomID primID))
          (afterIntersectionFilter valid geometry ray u v t Ng geomID primID).geomID ray.geomID,
        primID := store (validFailed valid
            (afterIntersectionFilter valid geometry ray u v t Ng geomID primID))
          (afterIntersectionFilter valid geometry ray u v t Ng geomID primID).primID ray.primID,
        Ng :=
          { x := store (validFailed valid
                (afterIntersectionFilter valid geometry ray u v t Ng geomID primID))
              (afterIntersectionFilter valid geometry ray u v t Ng geomID primID).Ng.x ray.Ng.x,
            y := store (validFailed valid
                (afterIntersectionFilter valid geometry ray u v t Ng geomID primID))
              (afterIntersectionFilter valid geometry ray u v t Ng geomID primID).Ng.y ray.Ng.y,
            z := store (validFailed valid
                (afterIntersectionFilter valid geometry ray u v t Ng geomID primID))
              (afterIntersectionFilter valid geometry ray u v t Ng geomID primID).Ng.z ray.Ng.z } } := by
  have hany := (any_eq_true_iff _).2 ⟨i, h⟩
  simp [runIntersectionFilter, hany]

theorem runOcclusionFilter_snd (valid : vbool W) (geometry : Geometry F)
    (ray : RayK W F) (u v t : vfloat W F) (Ng : Vec3vf W F) (geomID primID : Int) :
    (runOcclusionFilter valid geometry ray u v t Ng geomID primID).2 =
      { afterOcclusionFilter valid geometry ray u v t Ng geomID primID with
        tfar := store (validFailed valid
            (afterOcclusionFilter valid geometry ray u v t Ng geomID primID))
          (afterOcclusionFilter valid geometry ray u v t Ng geomID primID).tfar ray.tfar,
        geomID := store (validFailed valid
            (afterOcclusionFilter valid geometry ray u v t Ng geomID primID))
          (afterOcclusionFilter valid geometry ray u v t Ng geomID primID).geomID ray.geomID } :=
  rfl

/-- C6 counterexample: width 4, lane `k = 0`, a callback that rejects lane 0 and writes 99 into
`u` of lane 1. The single-lane variant restores the whole batch, so lane 1 ends with its
pre-call `u = 21`; the batch variant with mask `{0}` restores lane 0 only, so lane 1 ends with
`u = 99`: the two final states differ. -/
theorem single_lane_counterexample :
    (runIntersectionFilterLane
      (exampleGeometry false (fun _ => scribble (fun i => i == 0) (fun i => i == 1) 99) true)
      (exampleRayK : RayK 4 Int) 0 1 2 3 ⟨4, 5, 6⟩ 5 6).2.u 1 = 21 ∧
    (runIntersectionFilter (laneMask 0)
      (exampleGeometry false (fun _ => scribble (fun i => i == 0) (fun i => i == 1) 99) true)
      (exampleRayK : RayK 4 Int) (broadcast 1) (broadcast 2) (broadcast 3)
      (broadcastVec3 ⟨4, 5, 6⟩) 5 6).2.u 1 = 99 ∧
    (runIntersectionFilterLane
      (exampleGeometry false (fun _ => scribble (fun i => i == 0) (fun i => i == 1) 99) true)
      (exampleRayK : RayK 4 Int) 0 1 2 3 ⟨4, 5, 6⟩ 5 6).2 ≠
    (runIntersectionFilter (laneMask 0)
      (exampleGeometry false (fun _ => scribble (fun i => i == 0) (fun i => i == 1) 99) true)
      (exampleRayK : RayK 4 Int) (broadcast 1) (broadcast 2) (broadcast 3)
      (broadcastVec3 ⟨4, 5, 6⟩) 5 6).2 :=
  ⟨by decide, by decide, fun h => absurd (congrArg (fun r => r.u 1) h) (by decide)⟩

/-- C6 (amended): for each width `W`, lane `k < W`, ray batch, scalar candidate and callback,
the single-lane `runIntersectionFilter` leaves the ray batch in the same state as the batch
`runIntersectionFilter` with mask `{k}` and the candidate broadcast to all lanes exactly when the
callback accepts lane `k` or has left the six hit fields of every other lane at their pre-call
values; the same holds for the two `runOcclusionFilter` variants with `tfar` and `geomID` in
place of the six hit fields; and for every callback each single-lane variant returns true
exactly when its batch variant returns the mask `{k}`. -/
theorem single_lane_vs_batch (geometry : Geometry F) (ray : RayK W F) (k : Fin W) (u v t : F)
    (Ng : Vec3fa F) (geomID primID : Int) :
    ((runIntersectionFilterLane geometry ray k u v t Ng geomID primID).2 =
        (runIntersectionFilter (laneMask k) geometry ray (broadcast u) (broadcast v)
          (broadcast t) (broadcastVec3 Ng) geomID primID).2 ↔
      ((afterIntersectionFilterLane geometry ray k u v t Ng geomID primID).geomID k ≠ -1 ∨
        ∀ j, j ≠ k →
          (afterIntersectionFilterLane geometry ray k u v t Ng geomID primID).hit j =
            ray.hit j)) ∧
    ((runIntersectionFilterLane geometry ray k u v t Ng geomID primID).1 = true ↔
      (runIntersectionFilter (laneMask k) geometry ray (broadcast u) (broadcast v)
        (broadcast t) (broadcastVec3 Ng) geomID primID).1 = laneMask k) ∧
    ((runOcclusionFilterLane geometry ray k u v t Ng geomID primID).2 =
        (runOcclusionFilter (laneMask k) geometry ray (broadcast u) (broadcast v)
          (broadcast t) (broadcastVec3 Ng) geomID primID).2 ↔
      ((afterOcclusionFilterLane geometry ray k u v t Ng geomID primID).geomID k ≠ -1 ∨
        ∀ j, j ≠ k →
          (afterOcclusionFilterLane geometry ray k u v t Ng geomID primID).tfar j =
            ray.tfar j ∧
          (afterOcclusionFilterLane geometry ray k u v t Ng geomID primID).geomID j =
            ray.geomID j)) ∧
    ((runOcclusionFilterLane geometry ray k u v t Ng geomID primID).1 = true ↔
      (runOcclusionFilter (laneMask k) geometry ray (broadcast u) (broadcast v)
        (broadcast t) (broadcastVec3 Ng) geomID primID).1 = laneMask k) := by
  have hI := afterIntersectionFilterLane_eq geometry ray k u v t Ng geomID primID
  have hO := afterOcclusionFilterLane_eq geometry ray k u v t Ng geomID primID
  refine ⟨?_, ?_, ?_, ?_⟩
  · by_cases h : (afterIntersectionFilterLane geometry ray k u v t Ng geomID primID).geomID k = -1
    · have hf : validFailed (laneMask k) (afterIntersectionFilter (laneMask k) geometry ray
          (broadcast u) (broadcast v) (broadcast t) (broadcastVec3 Ng) geomID primID) k = true := by
        rw [hI, validFailed_laneMask_self]
        simp [h]
      rw [runIntersectionFilterLane_of_rejected _ _ _ _ _ _ _ _ _ h,
        runIntersectionFilter_of_some_failed _ _ _ _ _ _ _ _ _ k hf, hI]
      constructor
      · intro heq
        right
        intro j hj
        have hfj := validFailed_laneMask_of_ne k
          (afterIntersectionFilterLane geometry ray k u v t Ng geomID primID) j hj
        have hlane := congrArg (fun r => RayK.hit r j) heq
        simp only [RayK.hit, store_of_false hfj] at hlane
        exact hlane.symm
      · rintro (hacc | hothers)
        · exact absurd h hacc
        · have hall : ∀ j, validFailed (laneMask k)
              (afterIntersectionFilterLane geometry ray k u v t Ng geomID primID) j = false →
              (afterIntersectionFilterLane geometry ray k u v t Ng geomID primID).hit j =
                ray.hit j := by
            intro j hj
            apply hothers
            intro hjk
            subst hjk
            rw [hI] at hf
            rw [hf] at hj
            exact absurd hj (by decide)
          rw [store_eq_value fun j hj => ((hit_eq_iff _ _ _ _).1 (hall j hj)).1,
            store_eq_value fun j hj => ((hit_eq_iff _ _ _ _).1 (hall j hj)).2.1,
            store_eq_value fun j hj => ((hit_eq_iff _ _ _ _).1 (hall j hj)).2.2.1,
            store_eq_value fun j hj => ((hit_eq_iff _ _ _ _).1 (hall j hj)).2.2.2.1,
            store_eq_value fun j hj => ((hit_eq_iff _ _ _ _).1 (hall j hj)).2.2.2.2.1,
            store_eq_value fun j hj => ((hit_eq_iff _ _ _ _).1 (hall j hj)).2.2.2.2.2.1,
            store_eq_value fun j hj => ((hit_eq_iff _ _ _ _).1 (hall j hj)).2.2.2.2.2.2.1,
            store_eq_value fun j hj => ((hit_eq_iff _ _ _ _).1 (hall j hj)).2.2.2.2.2.2.2]
    · have hnone : ∀ i, validFailed (laneMask k) (afterIntersectionFilter (laneMask k) geometry
          ray (broadcast u) (broadcast v) (broadcast t) (broadcastVec3 Ng) geomID primID) i =
            false := by
        intro i
        rw [hI]
        by_cases hik : i = k
        · subst hik
          rw [validFailed_laneMask_self]
          simp [h]
        · exact validFailed_laneMask_of_ne k _ i hik
      rw [runIntersectionFilterLane_of_accepted _ _ _ _ _ _ _ _ _ h,
        runIntersectionFilter_of_none_failed _ _ _ _ _ _ _ _ _ hnone, hI]
      exact ⟨fun _ => Or.inl h, fun _ => rfl⟩
  · rw [runIntersectionFilter_fst, hI, validPassed_laneMask_eq_iff]
    by_cases h : (afterIntersectionFilterLane geometry ray k u v t Ng geomID primID).geomID k = -1
    · rw [runIntersectionFilterLane_of_rejected _ _ _ _ _ _ _ _ _ h]
      simp [h]
    · rw [runIntersectionFilterLane_of_accepted _ _ _ _ _ _ _ _ _ h]
      simp [h]
  · rw [runOcclusionFilter_snd, hO]
    by_cases h : (afterOcclusionFilterLane geometry ray k u v t Ng geomID primID).geomID k = -1
    · have hf : validFailed (laneMask k)
          (afterOcclusionFilterLane geometry ray k u v t Ng geomID primID) k = true := by
        rw [validFailed_laneMask_self]
        simp [h]
      rw [runOcclusionFilterLane_of_rejected _ _ _ _ _ _ _ _ _ h]
      constructor
      · intro heq
        right
        intro j hj
        have hfj := validFailed_laneMask_of_ne k
          (afterOcclusionFilterLane geometry ray k u v t Ng geomID primID) j hj
        have h1 := congrArg (fun r => r.tfar j) heq
        have h2 := congrArg (fun r => r.geomID j) heq
        simp only [store_of_false hfj] at h1 h2
        exact ⟨h1.symm, h2.symm⟩
      · rintro (hacc | hothers)
        · exact absurd h hacc
        · have hne : ∀ j, validFailed (laneMask k)
              (afterOcclusionFilterLane geometry ray k u v t Ng geomID primID) j = false →
              j ≠ k := by
            intro j hj hjk
            subst hjk
            rw [hf] at hj
            exact absurd hj (by decide)
          rw [store_eq_value fun j hj => (hothers j (hne j hj)).1,
            store_eq_value fun j hj => (hothers j (hne j hj)).2]
    · have hnone : ∀ i, validFailed (laneMask k)
          (afterOcclusionFilterLane geometry ray k u v t Ng geomID primID) i = false := by
        intro i
        by_cases hik : i = k
        · subst hik
          rw [validFailed_laneMask_self]
          simp [h]
        · exact validFailed_laneMask_of_ne k _ i hik
      rw [runOcclusionFilterLane_of_accepted _ _ _ _ _ _ _ _ _ h, store_empty hnone,
        store_empty hnone]
      exact ⟨fun _ => Or.inl h, fun _ => rfl⟩
  · have hfst : (runOcclusionFilter (laneMask k) geometry ray (broadcast u) (broadcast v)
        (broadcast t) (broadcastVec3 Ng) geomID primID).1 = validPassed (laneMask k)
          (afterOcclusionFilter (laneMask k) geometry ray (broadcast u) (broadcast v)
            (broadcast t) (broadcastVec3 Ng) geomID primID) := rfl
    rw [hfst, hO, validPassed_laneMask_eq_iff]
    by_cases h : (afterOcclusionFilterLane geometry ray k u v t Ng geomID primID).geomID k = -1
    · rw [runOcclusionFilterLane_of_rejected _ _ _ _ _ _ _ _ _ h]
      simp [h]
    · rw [runOcclusionFilterLane_of_accepted _ _ _ _ _ _ _ _ _ h]
      simp [h]

/-- C6 witness: width 4, lane 0, a callback that rejects lane 0 and writes nothing else: the
other lanes are at their pre-call values after the callback, the single-lane variant and the
batch variant with mask `{0}` leave the same state, and the single-lane variant returns
false. -/
theorem single_lane_vs_batch_witness :
    (∀ j : Fin 4, j ≠ 0 →
      (afterIntersectionFilterLane rejectLane0 exampleRayK 0 1 2 3 ⟨4, 5, 6⟩ 5 6).hit j =
        (exampleRayK : RayK 4 Int).hit j) ∧
    (runIntersectionFilterLane rejectLane0 (exampleRayK : RayK 4 Int) 0 1 2 3 ⟨4, 5, 6⟩ 5 6).2 =
      (runIntersectionFilter (laneMask 0) rejectLane0 exampleRayK (broadcast 1) (broadcast 2)
        (broadcast 3) (broadcastVec3 ⟨4, 5, 6⟩) 5 6).2 ∧
    (runIntersectionFilterLane rejectLane0 (exampleRayK : RayK 4 Int) 0 1 2 3 ⟨4, 5, 6⟩ 5 6).1 =
      false :=
  ⟨by decide,
    (single_lane_vs_batch rejectLane0 (exampleRayK : RayK 4 Int) 0 1 2 3 ⟨4, 5, 6⟩ 5 6).1.2
      (Or.inr (by decide)),
    by decide⟩

/-! ## Occlusion variants -/

theorem invokeFilter_of_writes_nothing (ispc : Bool) (filterN : FilterFuncK W F) (userPtr : Nat)
    (ray : RayK W F) (valid : vbool W)
    (h : ∀ p r m, filterN.asISPC p r m = r ∧ (filterN.asRTC m p r).2 = r) :
    invokeFilter ispc filterN userPtr ray valid = ray := by
  cases ispc
  · simp [invokeFilter, (h userPtr ray valid).2]
  · simp [invokeFilter, (h userPtr ray valid).1]

/-- C7 counterexample: `runOcclusionFilter1` on the example ray with a callback that writes
nothing and the candidate `u = 1`, `v = 2`, `Ng = (4, 5, 6)`: the call accepts, and afterwards
the ray holds the candidate `u`, `v` and `Ng`, not its pre-call `u = 20`, `v = 30`,
`Ng = (1, 2, 3)`. -/
theorem occlusion_writes_counterexample :
    (∀ r, (acceptAll true).occlusionFilter1 (acceptAll true).userPtr r = r) ∧
    exampleRay.u = 20 ∧ exampleRay.v = 30 ∧ exampleRay.Ng = ⟨1, 2, 3⟩ ∧
    (runOcclusionFilter1 (acceptAll true) exampleRay 1 2 3 ⟨4, 5, 6⟩ 5 6).1 = true ∧
    (runOcclusionFilter1 (acceptAll true) exampleRay 1 2 3 ⟨4, 5, 6⟩ 5 6).2.u = 1 ∧
    (runOcclusionFilter1 (acceptAll true) exampleRay 1 2 3 ⟨4, 5, 6⟩ 5 6).2.v = 2 ∧
    (runOcclusionFilter1 (acceptAll true) exampleRay 1 2 3 ⟨4, 5, 6⟩ 5 6).2.Ng = ⟨4, 5, 6⟩ :=
  ⟨fun _ => rfl, by decide, by decide, by decide, by decide, by decide, by decide, by decide⟩

/-- C7 (amended): the occlusion variants do write `u`, `v`, the normal and `primID`, and never
restore them. For every ray (or ray batch and mask, or ray batch and lane `k`), every candidate
and a callback that writes nothing, after `runOcclusionFilter1` / `runOcclusionFilter` the
ray's `u`, `v`, `Ng` and `primID` equal the candidate on every active lane (the single ray, the
lanes of `valid`, the lane `k`) and their pre-call values on every other lane, on acceptance as
well as on rejection; origin and direction are unchanged. -/
theorem occlusion_writes (geometry : Geometry F) (ray1 : Ray F) (u v t : F) (Ng : Vec3fa F)
    (valid : vbool W) (ray : RayK W F) (uK vK tK : vfloat W F) (NgK : Vec3vf W F) (k : Fin W)
    (geomID primID : Int)
    (hscalar : ∀ p r, geometry.occlusionFilter1 p r = r)
    (hbatch : ∀ p r m, (geometry.occlusionFilterN W).asISPC p r m = r ∧
      ((geometry.occlusionFilterN W).asRTC m p r).2 = r) :
    ((runOcclusionFilter1 geometry ray1 u v t Ng geomID primID).2.u = u ∧
      (runOcclusionFilter1 geometry ray1 u v t Ng geomID primID).2.v = v ∧
      (runOcclusionFilter1 geometry ray1 u v t Ng geomID primID).2.Ng = Ng ∧
      (runOcclusionFilter1 geometry ray1 u v t Ng geomID primID).2.primID = primID ∧
      (runOcclusionFilter1 geometry ray1 u v t Ng geomID primID).2.org = ray1.org ∧
      (runOcclusionFilter1 geometry ray1 u v t Ng geomID primID).2.dir = ray1.dir) ∧
    ((runOcclusionFilter valid geometry ray uK vK tK NgK geomID primID).2.u =
        store valid ray.u uK ∧
      (runOcclusionFilter valid geometry ray uK vK tK NgK geomID primID).2.v =
        store valid ray.v vK ∧
      (runOcclusionFilter valid geometry ray uK vK tK NgK geomID primID).2.Ng.x =
        store valid ray.Ng.x NgK.x ∧
      (runOcclusionFilter valid geometry ray uK vK tK NgK geomID primID).2.Ng.y =
        store valid ray.Ng.y NgK.y ∧
      (runOcclusionFilter valid geometry ray uK vK tK NgK geomID primID).2.Ng.z =
        store valid ray.Ng.z NgK.z ∧
      (runOcclusionFilter valid geometry ray uK vK tK NgK geomID primID).2.primID =
        store valid ray.primID (broadcast primID) ∧
      (runOcclusionFilter valid geometry ray uK vK tK NgK geomID primID).2.org = ray.org ∧
      (runOcclusionFilter valid geometry ray uK vK tK NgK geomID primID).2.dir = ray.dir) ∧
    ((runOcclusionFilterLane geometry ray k u v t Ng geomID primID).2.u = setLane ray.u k u ∧
      (runOcclusionFilterLane geometry ray k u v t Ng geomID primID).2.v = setLane ray.v k v ∧
      (runOcclusionFilterLane geometry ray k u v t Ng geomID primID).2.Ng.x =
        setLane ray.Ng.x k Ng.x ∧
      (runOcclusionFilterLane geometry ray k u v t Ng geomID primID).2.Ng.y =
        setLane ray.Ng.y k Ng.y ∧
      (runOcclusionFilterLane geometry ray k u v t Ng geomID primID).2.Ng.z =
        setLane ray.Ng.z k Ng.z ∧
      (runOcclusionFilterLane geometry ray k u v t Ng geomID primID).2.primID =
        setLane ray.primID k primID ∧
      (runOcclusionFilterLane geometry ray k u v t Ng geomID primID).2.org = ray.org ∧
      (runOcclusionFilterLane geometry ray k u v t Ng geomID primID).2.dir = ray.dir) := by
  have h1 : afterOcclusionFilter1 geometry ray1 u v t Ng geomID primID =
      updateHit1 ray1 u v t Ng geomID primID := hscalar _ _
  have hK : afterOcclusionFilter valid geometry ray uK vK tK NgK geomID primID =
      updateHit valid ray uK vK tK NgK geomID primID :=
    invokeFilter_of_writes_nothing _ _ _ _ _ hbatch
  have hL : afterOcclusionFilterLane geometry ray k u v t Ng geomID primID =
      updateHitLane ray k u v t Ng geomID primID :=
    invokeFilter_of_writes_nothing _ _ _ _ _ hbatch
  refine ⟨?_, ?_, ?_⟩
  · simp only [runOcclusionFilter1, h1]
    split <;> simp [updateHit1]
  · rw [runOcclusionFilter_snd, hK]
    simp [updateHit]
  · simp only [runOcclusionFilterLane, hL]
    split <;> simp [updateHitLane]

/-- C7 witness: width 4, mask `{0, 2}`, a callback that writes nothing, under the legacy
convention: after the batch `runOcclusionFilter` lane 2 holds the candidate `u = 1` and lane 1
its pre-call `u = 21`; after `runOcclusionFilter1` the single ray holds the candidate `u = 1`. -/
theorem occlusion_writes_witness :
    (runOcclusionFilter1 (acceptAll false) exampleRay 1 2 3 ⟨4, 5, 6⟩ 5 6).2.u = 1 ∧
    (runOcclusionFilter exampleValid (acceptAll false) exampleRayK (broadcast 1) (broadcast 2)
      (broadcast 3) exampleNg 5 6).2.u = store exampleValid exampleRayK.u (broadcast 1) ∧
    store exampleValid (exampleRayK : RayK 4 Int).u (broadcast 1) 2 = 1 ∧
    store exampleValid (exampleRayK : RayK 4 Int).u (broadcast 1) 1 = 21 :=
  ⟨(occlusion_writes (acceptAll false) exampleRay 1 2 3 ⟨4, 5, 6⟩ exampleValid exampleRayK
      (broadcast 1) (broadcast 2) (broadcast 3) exampleNg 0 5 6 (fun _ _ => rfl)
      (fun _ _ _ => ⟨rfl, rfl⟩)).1.1,
    (occlusion_writes (acceptAll false) exampleRay 1 2 3 ⟨4, 5, 6⟩ exampleValid exampleRayK
      (broadcast 1) (broadcast 2) (broadcast 3) exampleNg 0 5 6 (fun _ _ => rfl)
      (fun _ _ _ => ⟨rfl, rfl⟩)).2.1.1,
    by decide, by decide⟩

/-- C8: occlusion rollback restores only `tfar` and `geomID`. For every ray, candidate and
callback, when `geomID` is `-1` after the scalar callback, `runOcclusionFilter1` returns false,
`tfar` and `geomID` equal their pre-call values and `u`, `v`, `primID`, `Ng` are as the callback
left them; for every batch, mask and callback, on every lane that is active and has
`geomID = -1` after the callback, the batch `runOcclusionFilter` leaves `tfar` and `geomID` at
their pre-call values and lane `i` is not in the returned mask, while `u`, `v`, `primID` and `Ng`
are on all lanes as the callback left them. The callback is entered with the candidate in the
hit fields of the ray and of every active lane, so a callback that writes only `geomID` leaves
the candidate, not the pre-call values, in `u`, `v`, `primID` and `Ng`. -/
theorem occlusion_rollback (geometry : Geometry F) (ray1 : Ray F) (u v t : F) (Ng : Vec3fa F)
    (valid : vbool W) (ray : RayK W F) (uK vK tK : vfloat W F) (NgK : Vec3vf W F) (i : Fin W)
    (geomID primID : Int)
    (hrejected1 : (afterOcclusionFilter1 geometry ray1 u v t Ng geomID primID).geomID = -1)
    (hvalid : valid i = true)
    (hrejected : (afterOcclusionFilter valid geometry ray uK vK tK NgK geomID primID).geomID i
      = -1) :
    ((runOcclusionFilter1 geometry ray1 u v t Ng geomID primID).1 = false ∧
      (runOcclusionFilter1 geometry ray1 u v t Ng geomID primID).2.tfar = ray1.tfar ∧
      (runOcclusionFilter1 geometry ray1 u v t Ng geomID primID).2.geomID = ray1.geomID ∧
      (runOcclusionFilter1 geometry ray1 u v t Ng geomID primID).2.u =
        (afterOcclusionFilter1 geometry ray1 u v t Ng geomID primID).u ∧
      (runOcclusionFilter1 geometry ray1 u v t Ng geomID primID).2.v =
        (afterOcclusionFilter1 geometry ray1 u v t Ng geomID primID).v ∧
      (runOcclusionFilter1 geometry ray1 u v t Ng geomID primID).2.primID =
        (afterOcclusionFilter1 geometry ray1 u v t Ng geomID primID).primID ∧
      (runOcclusionFilter1 geometry ray1 u v t Ng geomID primID).2.Ng =
        (afterOcclusionFilter1 geometry ray1 u v t Ng geomID primID).Ng ∧
      (updateHit1 ray1 u v t Ng geomID primID).hit =
        { u := u, v := v, tfar := t, Ng := Ng, geomID := geomID, primID := primID }) ∧
    ((runOcclusionFilter valid geometry ray uK vK tK NgK geomID primID).1 i = false ∧
      (runOcclusionFilter valid geometry ray uK vK tK NgK geomID primID).2.tfar i = ray.tfar i ∧
      (runOcclusionFilter valid geometry ray uK vK tK NgK geomID primID).2.geomID i =
        ray.geomID i ∧
      (runOcclusionFilter valid geometry ray uK vK tK NgK geomID primID).2.u =
        (afterOcclusionFilter valid geometry ray uK vK tK NgK geomID primID).u ∧
      (runOcclusionFilter valid geometry ray uK vK tK NgK geomID primID).2.v =
        (afterOcclusionFilter valid geometry ray uK vK tK NgK geomID primID).v ∧
      (runOcclusionFilter valid geometry ray uK vK tK NgK geomID primID).2.primID =
        (afterOcclusionFilter valid geometry ray uK vK tK NgK geomID primID).primID ∧
      (runOcclusionFilter valid geometry ray uK vK tK NgK geomID primID).2.Ng =
        (afterOcclusionFilter valid geometry ray uK vK tK NgK geomID primID).Ng ∧
      (updateHit valid ray uK vK tK NgK geomID primID).hit i =
        candidate uK vK tK NgK geomID primID i) := by
  have hfail : validFailed valid
      (afterOcclusionFilter valid geometry ray uK vK tK NgK geomID primID) i = true :=
    (validFailed_eq_true_iff _ _ _).2 ⟨hvalid, hrejected⟩
  refine ⟨?_, ?_⟩
  · simp [runOcclusionFilter1, hrejected1, updateHit1, Ray.hit]
  · refine ⟨?_, ?_, ?_, rfl, rfl, rfl, rfl, updateHit_hit_of_valid _ _ _ _ _ _ _ _ i hvalid⟩
    · show validPassed valid _ i = false
      rw [validPassed_apply]
      simp [hrejected]
    · rw [runOcclusionFilter_snd]
      exact store_of_true hfail _ _
    · rw [runOcclusionFilter_snd]
      exact store_of_true hfail _ _

/-- C8 witness: a rejecting scalar callback on the example ray, and width 4 with mask `{0, 2}`
and a callback that writes only `geomID = -1` on lane 0: the rejected ray and the rejected lane
have their pre-call `tfar` and `geomID`, but the candidate `u = 1` instead of the pre-call
`u = 20`. -/
theorem occlusion_rollback_witness :
    (afterOcclusionFilter1 (exampleGeometry true (fun _ => rejectLanes fun i => i == 0) true)
      exampleRay 1 2 3 ⟨4, 5, 6⟩ 5 6).geomID = -1 ∧
    exampleValid 0 = true ∧
    (afterOcclusionFilter exampleValid
      (exampleGeometry true (fun _ => rejectLanes fun i => i == 0) true) exampleRayK
      (broadcast 1) (broadcast 2) (broadcast 3) exampleNg 5 6).geomID 0 = -1 ∧
    (runOcclusionFilter1 (exampleGeometry true (fun _ => rejectLanes fun i => i == 0) true)
      exampleRay 1 2 3 ⟨4, 5, 6⟩ 5 6).2.tfar = exampleRay.tfar ∧
    (runOcclusionFilter1 (exampleGeometry true (fun _ => rejectLanes fun i => i == 0) true)
      exampleRay 1 2 3 ⟨4, 5, 6⟩ 5 6).2.u = 1 ∧
    (runOcclusionFilter exampleValid
      (exampleGeometry true (fun _ => rejectLanes fun i => i == 0) true) exampleRayK
      (broadcast 1) (broadcast 2) (broadcast 3) exampleNg 5 6).2.tfar 0 =
        (exampleRayK : RayK 4 Int).tfar 0 ∧
    (runOcclusionFilter exampleValid
      (exampleGeometry true (fun _ => rejectLanes fun i => i == 0) true) exampleRayK
      (broadcast 1) (broadcast 2) (broadcast 3) exampleNg 5 6).2.geomID 0 = 7 ∧
    (runOcclusionFilter exampleValid
      (exampleGeometry true (fun _ => rejectLanes fun i => i == 0) true) exampleRayK
      (broadcast 1) (broadcast 2) (broadcast 3) exampleNg 5 6).2.u 0 = 1 ∧
    (exampleRayK : RayK 4 Int).u 0 = 20 :=
  ⟨by decide, by decide, by decide,
    (occlusion_rollback (exampleGeometry true (fun _ => rejectLanes fun i => i == 0) true)
      exampleRay 1 2 3 ⟨4, 5, 6⟩ exampleValid exampleRayK (broadcast 1) (broadcast 2)
      (broadcast 3) exampleNg 0 5 6 (by decide) (by decide) (by decide)).1.2.1,
    by decide,
    (occlusion_rollback (exampleGeometry true (fun _ => rejectLanes fun i => i == 0) true)
      exampleRay 1 2 3 ⟨4, 5, 6⟩ exampleValid exampleRayK (broadcast 1) (broadcast 2)
      (broadcast 3) exampleNg 0 5 6 (by decide) (by decide) (by decide)).2.2.1,
    (occlusion_rollback (exampleGeometry true (fun _ => rejectLanes fun i => i == 0) true)
      exampleRay 1 2 3 ⟨4, 5, 6⟩ exampleValid exampleRayK (broadcast 1) (broadcast 2)
      (broadcast 3) exampleNg 0 5 6 (by decide) (by decide) (by decide)).2.2.2.1,
    by decide, by decide⟩

/-! ## A callback that never touches `geomID` -/

theorem invokeFilter_geomID (ispc : Bool) (filterN : FilterFuncK W F) (userPtr : Nat)
    (ray : RayK W F) (valid : vbool W)
    (h : ∀ p r m, (filterN.asISPC p r m).geomID = r.geomID ∧
      (filterN.asRTC m p r).2.geomID = r.geomID) :
    (invokeFilter ispc filterN userPtr ray valid).geomID = ray.geomID := by
  cases ispc
  · simp [invokeFilter, (h userPtr ray valid).2]
  · simp [invokeFilter, (h userPtr ray valid).1]

/-- C9: for every ray, ray batch, mask, lane and candidate whose `geomID` is not `-1`, if the
callbacks leave `geomID` as they found it, then `runIntersectionFilter1` and
`runOcclusionFilter1` return true, the single-lane variants return true, the batch variants
return the whole input mask `valid`, and no rollback happens: every variant leaves the ray
exactly as the callback left it, the failed mask of the batch variants is empty, and the test
`any(valid_failed)` that guards the rollback stores of the batch intersection variant is
false. -/
theorem untouched_geomID_accepts (geometry : Geometry F) (ray1 : Ray F) (u v t : F)
    (Ng : Vec3fa F) (valid : vbool W) (ray : RayK W F) (uK vK tK : vfloat W F)
    (NgK : Vec3vf W F) (k : Fin W) (geomID primID : Int)
    (hgeomID : geomID ≠ -1)
    (hI1 : ∀ p r, (geometry.intersectionFilter1 p r).geomID = r.geomID)
    (hO1 : ∀ p r, (geometry.occlusionFilter1 p r).geomID = r.geomID)
    (hIN : ∀ p r m, ((geometry.intersectionFilterN W).asISPC p r m).geomID = r.geomID ∧
      ((geometry.intersectionFilterN W).asRTC m p r).2.geomID = r.geomID)
    (hON : ∀ p r m, ((geometry.occlusionFilterN W).asISPC p r m).geomID = r.geomID ∧
      ((geometry.occlusionFilterN W).asRTC m p r).2.geomID = r.geomID) :
    runIntersectionFilter1 geometry ray1 u v t Ng geomID primID =
      (true, afterIntersectionFilter1 geometry ray1 u v t Ng geomID primID) ∧
    runOcclusionFilter1 geometry ray1 u v t Ng geomID primID =
      (true, afterOcclusionFilter1 geometry ray1 u v t Ng geomID primID) ∧
    runIntersectionFilterLane geometry ray k u v t Ng geomID primID =
      (true, afterIntersectionFilterLane geometry ray k u v t Ng geomID primID) ∧
    runOcclusionFilterLane geometry ray k u v t Ng geomID primID =
      (true, afterOcclusionFilterLane geometry ray k u v t Ng geomID primID) ∧
    runIntersectionFilter valid geometry ray uK vK tK NgK geomID primID =
      (valid, afterIntersectionFilter valid geometry ray uK vK tK NgK geomID primID) ∧
    any (validFailed valid
      (afterIntersectionFilter valid geometry ray uK vK tK NgK geomID primID)) = false ∧
    runOcclusionFilter valid geometry ray uK vK tK NgK geomID primID =
      (valid, afterOcclusionFilter valid geometry ray uK vK tK NgK geomID primID) ∧
    (∀ i, validFailed valid
      (afterOcclusionFilter valid geometry ray uK vK tK NgK geomID primID) i = false) := by
  have h1I : (afterIntersectionFilter1 geometry ray1 u v t Ng geomID primID).geomID ≠ -1 := by
    simp only [afterIntersectionFilter1, hI1]
    exact hgeomID
  have h1O : (afterOcclusionFilter1 geometry ray1 u v t Ng geomID primID).geomID ≠ -1 := by
    simp only [afterOcclusionFilter1, hO1]
    exact hgeomID
  have hLI : (afterIntersectionFilterLane geometry ray k u v t Ng geomID primID).geomID k
      ≠ -1 := by
    simp only [afterIntersectionFilterLane, invokeFilter_geomID _ _ _ _ _ hIN]
    simpa [updateHitLane, setLane] using hgeomID
  have hLO : (afterOcclusionFilterLane geometry ray k u v t Ng geomID primID).geomID k
      ≠ -1 := by
    simp only [afterOcclusionFilterLane, invokeFilter_geomID _ _ _ _ _ hON]
    simpa [updateHitLane, setLane] using hgeomID
  have hKI : ∀ i, valid i = true →
      (afterIntersectionFilter valid geometry ray uK vK tK NgK geomID primID).geomID i
        ≠ -1 := by
    intro i hi
    simp only [afterIntersectionFilter, invokeFilter_geomID _ _ _ _ _ hIN]
    simpa [updateHit, store, hi, broadcast] using hgeomID
  have hKO : ∀ i, valid i = true →
      (afterOcclusionFilter valid geometry ray uK vK tK NgK geomID primID).geomID i
        ≠ -1 := by
    intro i hi
    simp only [afterOcclusionFilter, invokeFilter_geomID _ _ _ _ _ hON]
    simpa [updateHit, store, hi, broadcast] using hgeomID
  have hfI : ∀ i, validFailed valid
      (afterIntersectionFilter valid geometry ray uK vK tK NgK geomID primID) i = false :=
    fun i => (validFailed_eq_false_iff _ _ _).2 (hKI i)
  have hfO : ∀ i, validFailed valid
      (afterOcclusionFilter valid geometry ray uK vK tK NgK geomID primID) i = false :=
    fun i => (validFailed_eq_false_iff _ _ _).2 (hKO i)
  have hpI : validPassed valid
      (afterIntersectionFilter valid geometry ray uK vK tK NgK geomID primID) = valid := by
    funext i
    rw [validPassed_apply]
    cases hi : valid i with
    | false => simp
    | true => simp [hKI i hi]
  have hpO : validPassed valid
      (afterOcclusionFilter valid geometry ray uK vK tK NgK geomID primID) = valid := by
    funext i
    rw [validPassed_apply]
    cases hi : valid i with
    | false => simp
    | true => simp [hKO i hi]
  refine ⟨?_, ?_, runIntersectionFilterLane_of_accepted _ _ _ _ _ _ _ _ _ hLI,
    runOcclusionFilterLane_of_accepted _ _ _ _ _ _ _ _ _ hLO, ?_, (any_eq_false_iff _).2 hfI,
    ?_, hfO⟩
  · simp [runIntersectionFilter1, h1I]
  · simp [runOcclusionFilter1, h1O]
  · apply Prod.ext
    · rw [runIntersectionFilter_fst, hpI]
    · exact runIntersectionFilter_of_none_failed _ _ _ _ _ _ _ _ _ hfI
  · apply Prod.ext
    · exact hpO
    · rw [runOcclusionFilter_snd, store_empty hfO, store_empty hfO]

/-- C9 witness: callbacks that write nothing, the candidate `geomID = 5`, width 4 and mask
`{0, 2}`: the scalar intersection variant returns true and the batch intersection variant
returns the mask `{0, 2}` it was given. -/
theorem untouched_geomID_accepts_witness :
    (5 : Int) ≠ -1 ∧
    (runIntersectionFilter1 (acceptAll false) exampleRay 1 2 3 ⟨4, 5, 6⟩ 5 6).1 = true ∧
    (runIntersectionFilter exampleValid (acceptAll false) exampleRayK (broadcast 1)
      (broadcast 2) (broadcast 3) exampleNg 5 6).1 = exampleValid :=
  ⟨by decide,
    congrArg Prod.fst (untouched_geomID_accepts (acceptAll false) exampleRay 1 2 3 ⟨4, 5, 6⟩
      exampleValid exampleRayK (broadcast 1) (broadcast 2) (broadcast 3) exampleNg 0 5 6
      (by decide) (fun _ _ => rfl) (fun _ _ => rfl) (fun _ _ _ => ⟨rfl, rfl⟩)
      (fun _ _ _ => ⟨rfl, rfl⟩)).1,
    congrArg Prod.fst (untouched_geomID_accepts (acceptAll false) exampleRay 1 2 3 ⟨4, 5, 6⟩
      exampleValid exampleRayK (broadcast 1) (broadcast 2) (broadcast 3) exampleNg 0 5 6
      (by decide) (fun _ _ => rfl) (fun _ _ => rfl) (fun _ _ _ => ⟨rfl, rfl⟩)
      (fun _ _ _ => ⟨rfl, rfl⟩)).2.2.2.2.1⟩

/-! ## The invalid sentinel -/

/-- C10 counterexample: width 4, mask `{0}`, every lane with `geomID = 7` before the call, and
a callback that writes `-1` into `geomID` of lane 1, which is outside the mask: after the batch
`runIntersectionFilter` lane 1 holds `geomID = -1` although it held 7 before the call. -/
theorem sentinel_leak_counterexample :
    (laneMask 0 : vbool 4) 1 = false ∧
    (exampleRayK : RayK 4 Int).geomID 1 = 7 ∧
    (runIntersectionFilter (laneMask 0)
      (exampleGeometry false (fun _ => scribble (fun i => i == 1) (fun _ => false) 0) true)
      (exampleRayK : RayK 4 Int) (broadcast 1) (broadcast 2) (broadcast 3) exampleNg 5 6).2.geomID
        1 = -1 :=
  ⟨by decide, by decide, by decide⟩

/-- C10 (amended): for every ray batch, mask, candidate and callback, after the batch
`runIntersectionFilter` returns, every lane inside the active mask whose `geomID` is `-1`
already had `geomID = -1` before the call, so a `-1` that the callback writes on an active lane
is not left behind; on a lane outside the active mask `geomID` is what the callback left
there. -/
theorem sentinel_confined (valid : vbool W) (geometry : Geometry F) (ray : RayK W F)
    (u v t : vfloat W F) (Ng : Vec3vf W F) (geomID primID : Int) (i : Fin W) :
    (valid i = true →
      (runIntersectionFilter valid geometry ray u v t Ng geomID primID).2.geomID i = -1 →
      ray.geomID i = -1) ∧
    (valid i = false →
      (runIntersectionFilter valid geometry ray u v t Ng geomID primID).2.geomID i =
        (afterIntersectionFilter valid geometry ray u v t Ng geomID primID).geomID i) := by
  constructor
  · intro hvalid hout
    by_cases h : (afterIntersectionFilter valid geometry ray u v t Ng geomID primID).geomID i
        = -1
    · have hhit := runIntersectionFilter_hit_failed valid geometry ray u v t Ng geomID primID i
        ((validFailed_eq_true_iff _ _ _).2 ⟨hvalid, h⟩)
      rw [← hit_geomID, ← hhit, hit_geomID]
      exact hout
    · have hhit := runIntersectionFilter_hit_kept valid geometry ray u v t Ng geomID primID i
        ((validFailed_eq_false_iff _ _ _).2 fun _ => h)
      rw [← hit_geomID, hhit, hit_geomID] at hout
      exact absurd hout h
  · intro hvalid
    have hhit := runIntersectionFilter_hit_kept valid geometry ray u v t Ng geomID primID i
      ((validFailed_eq_false_iff _ _ _).2 fun hv => by rw [hvalid] at hv; exact absurd hv (by decide))
    rw [← hit_geomID, hhit, hit_geomID]

/-- C10 witness: width 4, mask `{0, 2}`, a batch without a previous hit (`geomID = -1` on every
lane) and a callback that rejects lane 0: lane 0 is active and ends with `geomID = -1`, which it
already held before the call; lane 1 is inactive and keeps what the callback left. -/
theorem sentinel_confined_witness :
    exampleValid 0 = true ∧
    (runIntersectionFilter exampleValid rejectLane0
      { (exampleRayK : RayK 4 Int) with geomID := broadcast (-1) } (broadcast 1) (broadcast 2)
      (broadcast 3) exampleNg 5 6).2.geomID 0 = -1 ∧
    ({ (exampleRayK : RayK 4 Int) with geomID := broadcast (-1) } : RayK 4 Int).geomID 0 = -1 :=
  ⟨by decide, by decide,
    (sentinel_confined exampleValid rejectLane0
      { (exampleRayK : RayK 4 Int) with geomID := broadcast (-1) } (broadcast 1) (broadcast 2)
      (broadcast 3) exampleNg 5 6 0).1 (by decide) (by decide)⟩

/-! ## Decoding of the packed uv words -/

theorem toInt32_of_lt (w : Nat) (h : w < 2 ^ 31) : toInt32 w = (w : Int) := by
  have h32 : w % 2 ^ 32 = w := Nat.mod_eq_of_lt (by omega)
  simp only [toInt32, h32]
  rw [if_pos h]

theorem low16 (w : Nat) : (w % 2 ^ 32) &&& 0xffff = w % 2 ^ 16 := by
  have h : (0xffff : Nat) = 2 ^ 16 - 1 := by norm_num
  rw [h, Nat.and_pow_two_sub_one_eq_mod]
  omega

theorem high16 (w : Nat) : ((w % 2 ^ 32) % 2 ^ 32) >>> 16 = w % 2 ^ 32 / 2 ^ 16 := by
  rw [Nat.mod_mod, Nat.shiftRight_eq_div_pow]

theorem high16_lt (w : Nat) : w % 2 ^ 32 / 2 ^ 16 < 2 ^ 16 := by
  omega

/-! ## Rounding to single precision -/

theorem roundHalfEven_intCast (m : Int) : roundHalfEven (m : ℚ) = m := by
  simp [roundHalfEven]

theorem roundHalfEven_cases (n : ℚ) : roundHalfEven n = ⌊n⌋ ∨
    (roundHalfEven n = ⌊n⌋ + 1 ∧ 1 / 2 ≤ n - ⌊n⌋) := by
  unfold roundHalfEven
  split_ifs with h1 h2 h3
  · exact Or.inl rfl
  · exact Or.inr ⟨rfl, le_of_lt h2⟩
  · exact Or.inl rfl
  · exact Or.inr ⟨rfl, not_lt.1 h1⟩

theorem roundHalfEven_sub_abs (n : ℚ) : |(roundHalfEven n : ℚ) - n| ≤ 1 / 2 := by
  have hfl : (⌊n⌋ : ℚ) ≤ n := Int.floor_le n
  have hlt : n < (⌊n⌋ : ℚ) + 1 := Int.lt_floor_add_one n
  unfold roundHalfEven
  split_ifs with h1 h2 h3
  · rw [abs_le]; constructor <;> linarith
  · rw [abs_le]; push_cast; constructor <;> linarith
  · have h4 : n - ⌊n⌋ = 1 / 2 := le_antisymm (not_lt.1 h2) (not_lt.1 h1)
    rw [abs_le]; constructor <;> linarith
  · have h4 : n - ⌊n⌋ = 1 / 2 := le_antisymm (not_lt.1 h2) (not_lt.1 h1)
    rw [abs_le]; push_cast; constructor <;> linarith

theorem roundHalfEven_nonneg (n : ℚ) (h : 0 ≤ n) : 0 ≤ roundHalfEven n := by
  have hfl : 0 ≤ ⌊n⌋ := Int.floor_nonneg.2 h
  rcases roundHalfEven_cases n with h1 | ⟨h1, _⟩ <;> omega

theorem roundHalfEven_le (n : ℚ) (M : Int) (h : n ≤ M) : roundHalfEven n ≤ M := by
  rcases roundHalfEven_cases n with h1 | ⟨h1, h2⟩
  · rw [h1]
    have : (⌊n⌋ : ℚ) ≤ M := le_trans (Int.floor_le n) h
    exact_mod_cast this
  · rw [h1]
    have hlt : (⌊n⌋ : ℚ) < M := by
      have := Int.floor_le n
      linarith
    have : ⌊n⌋ < M := by exact_mod_cast hlt
    omega

theorem int_log_two_bounds (x : ℚ) (hx : 0 < x) :
    (2 : ℚ) ^ Int.log 2 x ≤ x ∧ x < (2 : ℚ) ^ (Int.log 2 x + 1) := by
  have h1 := Int.zpow_log_le_self (b := 2) (r := x) (by norm_num) hx
  have h2 := Int.lt_zpow_succ_log_self (b := 2) (by norm_num) x
  simp only [Nat.cast_ofNat] at h1 h2
  exact ⟨h1, h2⟩

theorem int_log_two_eq_of_bounds (x : ℚ) (e : Int) (h1 : (2 : ℚ) ^ e ≤ x) (h2 : x < (2 : ℚ) ^ (e + 1)) :
    Int.log 2 x = e := by
  have hx : 0 < x := lt_of_lt_of_le (zpow_pos (by norm_num) e) h1
  obtain ⟨h3, h4⟩ := int_log_two_bounds x hx
  have ha : e < Int.log 2 x + 1 :=
    (zpow_lt_zpow_iff_right₀ (by norm_num : (1 : ℚ) < 2)).1 (lt_of_le_of_lt h1 h4)
  have hb : Int.log 2 x < e + 1 :=
    (zpow_lt_zpow_iff_right₀ (by norm_num : (1 : ℚ) < 2)).1 (lt_of_le_of_lt h3 h2)
  omega

theorem roundSignificand_sub_abs (x : ℚ) (hx : 0 < x) :
    |roundSignificand x - x| ≤ x / 2 ^ 24 := by
  obtain ⟨h1, _⟩ := int_log_two_bounds x hx
  have hq : (0 : ℚ) < 2 ^ (Int.log 2 x - 23) := zpow_pos (by norm_num) _
  have hqe : (2 : ℚ) ^ (Int.log 2 x - 23) = 2 ^ Int.log 2 x / 2 ^ 23 := by
    rw [zpow_sub₀ (by norm_num : (2 : ℚ) ≠ 0)]
    norm_num
  have hr := roundHalfEven_sub_abs (x / 2 ^ (Int.log 2 x - 23))
  have hxe : x = x / 2 ^ (Int.log 2 x - 23) * 2 ^ (Int.log 2 x - 23) :=
    (div_mul_cancel₀ x (ne_of_gt hq)).symm
  have hdiff : roundSignificand x - x =
      ((roundHalfEven (x / 2 ^ (Int.log 2 x - 23)) : ℚ) - x / 2 ^ (Int.log 2 x - 23)) *
        2 ^ (Int.log 2 x - 23) := by
    unfold roundSignificand
    rw [sub_mul, ← hxe]
  rw [hdiff, abs_mul, abs_of_pos hq]
  calc |(roundHalfEven (x / 2 ^ (Int.log 2 x - 23)) : ℚ) - x / 2 ^ (Int.log 2 x - 23)| *
        2 ^ (Int.log 2 x - 23)
      ≤ 1 / 2 * 2 ^ (Int.log 2 x - 23) := mul_le_mul_of_nonneg_right hr (le_of_lt hq)
    _ = 2 ^ Int.log 2 x / 2 ^ 24 := by rw [hqe]; ring
    _ ≤ x / 2 ^ 24 := div_le_div_of_nonneg_right h1 (by positivity)

theorem roundSignificand_nonneg (x : ℚ) (hx : 0 ≤ x) : 0 ≤ roundSignificand x := by
  have hq : (0 : ℚ) < 2 ^ (Int.log 2 x - 23) := zpow_pos (by norm_num) _
  unfold roundSignificand
  have := roundHalfEven_nonneg (x / 2 ^ (Int.log 2 x - 23)) (div_nonneg hx (le_of_lt hq))
  have h2 : (0 : ℚ) ≤ (roundHalfEven (x / 2 ^ (Int.log 2 x - 23)) : ℚ) := by exact_mod_cast this
  exact mul_nonneg h2 (le_of_lt hq)

theorem roundSignificand_exact (m : Nat) (z : Int) (hm : m < 2 ^ 24) :
    roundSignificand ((m : ℚ) * 2 ^ z) = (m : ℚ) * 2 ^ z := by
  rcases Nat.eq_zero_or_pos m with h0 | hpos
  · subst h0
    simp [roundSignificand, roundHalfEven]
  · have hz : (0 : ℚ) < 2 ^ z := zpow_pos (by norm_num) z
    have hx : (0 : ℚ) < (m : ℚ) * 2 ^ z := mul_pos (by exact_mod_cast hpos) hz
    obtain ⟨h1, _⟩ := int_log_two_bounds _ hx
    have hlt : (m : ℚ) * 2 ^ z < 2 ^ (24 + z) := by
      rw [zpow_add₀ (by norm_num : (2 : ℚ) ≠ 0)]
      have : (m : ℚ) < 2 ^ (24 : ℤ) := by
        have h24 : (2 : ℚ) ^ (24 : ℤ) = ((2 ^ 24 : Nat) : ℚ) := by norm_num
        rw [h24]
        exact_mod_cast hm
      exact mul_lt_mul_of_pos_right this hz
    have he : Int.log 2 ((m : ℚ) * 2 ^ z) < 24 + z :=
      (zpow_lt_zpow_iff_right₀ (by norm_num : (1 : ℚ) < 2)).1 (lt_of_le_of_lt h1 hlt)
    obtain ⟨k, hk⟩ := Int.eq_ofNat_of_zero_le
      (by omega : 0 ≤ z - (Int.log 2 ((m : ℚ) * 2 ^ z) - 23))
    have hq : (2 : ℚ) ^ (Int.log 2 ((m : ℚ) * 2 ^ z) - 23) ≠ 0 :=
      ne_of_gt (zpow_pos (by norm_num) _)
    have hn : (m : ℚ) * 2 ^ z / 2 ^ (Int.log 2 ((m : ℚ) * 2 ^ z) - 23) =
        (((m * 2 ^ k : Nat) : Int) : ℚ) := by
      rw [mul_div_assoc, ← zpow_sub₀ (by norm_num : (2 : ℚ) ≠ 0), hk]
      push_cast
      rw [zpow_natCast]
    unfold roundSignificand
    rw [hn, roundHalfEven_intCast, ← hn, div_mul_cancel₀ _ hq]

theorem roundSignificand_le_one (x : ℚ) (hx : 0 < x) (h1 : x ≤ 1) : roundSignificand x ≤ 1 := by
  obtain ⟨hlo, _⟩ := int_log_two_bounds x hx
  have he : Int.log 2 x ≤ 0 := by
    by_contra hc
    have h0 : (0 : ℤ) + 1 ≤ Int.log 2 x := by omega
    have := zpow_le_zpow_right₀ (by norm_num : (1 : ℚ) ≤ 2) h0
    have h2 : (2 : ℚ) ^ ((0 : ℤ) + 1) = 2 := by norm_num
    linarith
  obtain ⟨k, hk⟩ := Int.eq_ofNat_of_zero_le (by omega : 0 ≤ -(Int.log 2 x - 23))
  have hq : (0 : ℚ) < 2 ^ (Int.log 2 x - 23) := zpow_pos (by norm_num) _
  have hqk : (2 : ℚ) ^ (Int.log 2 x - 23) = ((2 : ℚ) ^ k)⁻¹ := by
    have : Int.log 2 x - 23 = -(k : ℤ) := by omega
    rw [this, zpow_neg, zpow_natCast]
  have hn : x / 2 ^ (Int.log 2 x - 23) ≤ (((2 ^ k : Nat) : Int) : ℚ) := by
    rw [hqk, div_inv_eq_mul]
    push_cast
    have hk0 : (0 : ℚ) ≤ 2 ^ k := by positivity
    calc x * 2 ^ k ≤ 1 * 2 ^ k := mul_le_mul_of_nonneg_right h1 hk0
      _ = 2 ^ k := one_mul _
  have hr := roundHalfEven_le _ _ hn
  have hr2 : (roundHalfEven (x / 2 ^ (Int.log 2 x - 23)) : ℚ) ≤ (((2 ^ k : Nat) : Int) : ℚ) := by
    exact_mod_cast hr
  unfold roundSignificand
  calc (roundHalfEven (x / 2 ^ (Int.log 2 x - 23)) : ℚ) * 2 ^ (Int.log 2 x - 23)
      ≤ (((2 ^ k : Nat) : Int) : ℚ) * 2 ^ (Int.log 2 x - 23) :=
        mul_le_mul_of_nonneg_right hr2 (le_of_lt hq)
    _ = 1 := by
        rw [hqk]
        push_cast
        exact mul_inv_cancel₀ (by positivity)

theorem roundFloat32_of_nonneg (x : ℚ) (h : 0 ≤ x) : roundFloat32 x = roundSignificand x := by
  unfold roundFloat32
  rw [if_pos h]

theorem roundHalfEven_eq_of_close (n : ℚ) (m : Int) (h : |n - m| < 1 / 2) :
    roundHalfEven n = m := by
  have h1 := roundHalfEven_sub_abs n
  rw [abs_lt] at h
  rw [abs_le] at h1
  have hlt : ((roundHalfEven n : Int) : ℚ) < (m : ℚ) + 1 := by linarith
  have hgt : (m : ℚ) - 1 < ((roundHalfEven n : Int) : ℚ) := by linarith
  have hlt2 : roundHalfEven n < m + 1 := by exact_mod_cast hlt
  have hgt2 : m - 1 < roundHalfEven n := by exact_mod_cast hgt
  omega

theorem roundFloat32_natCast (n : Nat) (h : n < 2 ^ 24) : roundFloat32 (n : ℚ) = n := by
  rw [roundFloat32_of_nonneg _ (by positivity)]
  have := roundSignificand_exact n 0 h
  simpa using this

theorem roundFloat32_inv_0xFFFF : roundFloat32 (1 / roundFloat32 0xFFFF) = 65537 / 2 ^ 32 := by
  have h1 : roundFloat32 0xFFFF = 65535 := by
    have := roundFloat32_natCast 65535 (by norm_num)
    simpa using this
  rw [h1, roundFloat32_of_nonneg _ (by norm_num)]
  have hlog : Int.log 2 (1 / 65535 : ℚ) = -16 := by
    apply int_log_two_eq_of_bounds <;> norm_num
  unfold roundSignificand
  rw [hlog]
  have hr : roundHalfEven (1 / 65535 / 2 ^ ((-16 : ℤ) - 23)) = 8388736 := by
    apply roundHalfEven_eq_of_close
    rw [abs_lt]
    constructor <;> norm_num
  rw [hr]
  norm_num

theorem roundFloat32_scaled_field (n : Nat) (h : n < 2 ^ 16) :
    |roundFloat32 ((n : ℚ) * (65537 / 2 ^ 32)) - (n : ℚ) / 65535| ≤ 1 / 2 ^ 23 ∧
    0 ≤ roundFloat32 ((n : ℚ) * (65537 / 2 ^ 32)) ∧
    roundFloat32 ((n : ℚ) * (65537 / 2 ^ 32)) ≤ 1 := by
  have hn : (n : ℚ) ≤ 65535 := by
    have : n ≤ 65535 := by omega
    exact_mod_cast this
  have hn0 : (0 : ℚ) ≤ n := by positivity
  have hp0 : (0 : ℚ) ≤ (n : ℚ) * (65537 / 2 ^ 32) := by positivity
  rw [roundFloat32_of_nonneg _ hp0]
  rcases Nat.eq_zero_or_pos n with h0 | hpos
  · subst h0
    have : roundSignificand ((0 : Nat) * (65537 / 2 ^ 32) : ℚ) = 0 := by
      simp [roundSignificand, roundHalfEven]
    rw [this]
    norm_num
  · have hn1 : (1 : ℚ) ≤ n := by exact_mod_cast hpos
    have hp : (0 : ℚ) < (n : ℚ) * (65537 / 2 ^ 32) := by positivity
    have hp1 : (n : ℚ) * (65537 / 2 ^ 32) ≤ 1 := by
      have : (n : ℚ) * (65537 / 2 ^ 32) ≤ 65535 * (65537 / 2 ^ 32) := by
        apply mul_le_mul_of_nonneg_right hn (by norm_num)
      have h2 : (65535 : ℚ) * (65537 / 2 ^ 32) ≤ 1 := by norm_num
      linarith
    have hr := roundSignificand_sub_abs _ hp
    refine ⟨?_, roundSignificand_nonneg _ hp0, roundSignificand_le_one _ hp hp1⟩
    have hd : (n : ℚ) * (65537 / 2 ^ 32) - (n : ℚ) / 65535 = -((n : ℚ) / (65535 * 2 ^ 32)) := by
      norm_num
      ring
    rw [abs_le] at hr ⊢
    have hb : (n : ℚ) / (65535 * 2 ^ 32) ≤ 1 / 2 ^ 32 := by
      rw [div_le_iff₀ (by norm_num)]
      norm_num
      linarith
    have hb0 : (0 : ℚ) ≤ (n : ℚ) / (65535 * 2 ^ 32) := by positivity
    have hq : (n : ℚ) * (65537 / 2 ^ 32) / 2 ^ 24 ≤ 1 / 2 ^ 24 := by
      apply div_le_div_of_nonneg_right hp1 (by positivity)
    constructor
    · have : (1 : ℚ) / 2 ^ 24 + 1 / 2 ^ 32 ≤ 1 / 2 ^ 23 := by norm_num
      linarith [hr.1]
    · have : (1 : ℚ) / 2 ^ 24 + 1 / 2 ^ 32 ≤ 1 / 2 ^ 23 := by norm_num
      linarith [hr.2]

theorem roundFloat32_half_field :
    roundFloat32 ((32768 : ℚ) * (65537 / 2 ^ 32)) = 65537 / 131072 := by
  rw [roundFloat32_of_nonneg _ (by norm_num)]
  have h := roundSignificand_exact 65537 (-17) (by norm_num)
  have e : ((65537 : Nat) : ℚ) * 2 ^ (-17 : ℤ) = (32768 : ℚ) * (65537 / 2 ^ 32) := by norm_num
  rw [e] at h
  rw [h]
  norm_num

theorem roundFloat32_full_field : roundFloat32 ((65535 : ℚ) * (65537 / 2 ^ 32)) = 1 := by
  rw [roundFloat32_of_nonneg _ (by norm_num)]
  have hlog : Int.log 2 ((65535 : ℚ) * (65537 / 2 ^ 32)) = -1 := by
    apply int_log_two_eq_of_bounds <;> norm_num
  unfold roundSignificand
  rw [hlog]
  have hr : roundHalfEven ((65535 : ℚ) * (65537 / 2 ^ 32) / 2 ^ ((-1 : ℤ) - 23)) = 16777216 := by
    apply roundHalfEven_eq_of_close
    rw [abs_lt]
    constructor <;> norm_num
  rw [hr]
  norm_num

namespace GridSOAIntersector1

theorem decodeUV_x (uv : Fin 4 → Nat) (i : Fin 4) :
    (decodeUV uv).x i = ((uv i % 2 ^ 16 : Nat) : ℚ) / 65535 := by
  simp only [decodeUV, vint_to_float, vint_and, cast, low16]
  rw [toInt32_of_lt _ (by omega), Int.cast_natCast, one_div, div_eq_mul_inv]

theorem decodeUV_y (uv : Fin 4 → Nat) (i : Fin 4) :
    (decodeUV uv).y i = ((uv i % 2 ^ 32 / 2 ^ 16 : Nat) : ℚ) / 65535 := by
  simp only [decodeUV, vint_to_float, srl, cast, high16]
  rw [toInt32_of_lt _ (by omega), Int.cast_natCast, one_div, div_eq_mul_inv]

theorem decodeUV8_x (uv : Fin 8 → Nat) (i : Fin 8) :
    (decodeUV8 uv).x i = ((uv i % 2 ^ 16 : Nat) : ℚ) / 65535 := by
  simp only [decodeUV8, vint_to_float, vint_and, cast, low16]
  rw [toInt32_of_lt _ (by omega), Int.cast_natCast, one_div, div_eq_mul_inv]

theorem decodeUV8_y (uv : Fin 8 → Nat) (i : Fin 8) :
    (decodeUV8 uv).y i = ((uv i % 2 ^ 32 / 2 ^ 16 : Nat) : ℚ) / 65535 := by
  simp only [decodeUV8, vint_to_float, srl, cast, high16]
  rw [toInt32_of_lt _ (by omega), Int.cast_natCast, one_div, div_eq_mul_inv]

theorem decodeUV_x_mem (uv : Fin 4 → Nat) (i : Fin 4) :
    0 ≤ (decodeUV uv).x i ∧ (decodeUV uv).x i ≤ 1 := by
  rw [decodeUV_x]
  have h : ((uv i % 2 ^ 16 : Nat) : ℚ) ≤ 65535 := by
    have : uv i % 2 ^ 16 ≤ 65535 := by omega
    exact_mod_cast this
  constructor
  · positivity
  · rw [div_le_one (by norm_num)]
    exact h

theorem decodeUV_y_mem (uv : Fin 4 → Nat) (i : Fin 4) :
    0 ≤ (decodeUV uv).y i ∧ (decodeUV uv).y i ≤ 1 := by
  rw [decodeUV_y]
  have h : ((uv i % 2 ^ 32 / 2 ^ 16 : Nat) : ℚ) ≤ 65535 := by
    have : uv i % 2 ^ 32 / 2 ^ 16 ≤ 65535 := by omega
    exact_mod_cast this
  constructor
  · positivity
  · rw [div_le_one (by norm_num)]
    exact h

theorem decodeUV8_x_mem (uv : Fin 8 → Nat) (i : Fin 8) :
    0 ≤ (decodeUV8 uv).x i ∧ (decodeUV8 uv).x i ≤ 1 := by
  rw [decodeUV8_x]
  have h : ((uv i % 2 ^ 16 : Nat) : ℚ) ≤ 65535 := by
    have : uv i % 2 ^ 16 ≤ 65535 := by omega
    exact_mod_cast this
  constructor
  · positivity
  · rw [div_le_one (by norm_num)]
    exact h

theorem decodeUV8_y_mem (uv : Fin 8 → Nat) (i : Fin 8) :
    0 ≤ (decodeUV8 uv).y i ∧ (decodeUV8 uv).y i ≤ 1 := by
  rw [decodeUV8_y]
  have h : ((uv i % 2 ^ 32 / 2 ^ 16 : Nat) : ℚ) ≤ 65535 := by
    have : uv i % 2 ^ 32 / 2 ^ 16 ≤ 65535 := by omega
    exact_mod_cast this
  constructor
  · positivity
  · rw [div_le_one (by norm_num)]
    exact h

theorem quantise_spec (u : ℚ) (h0 : 0 ≤ u) (h1 : u ≤ 1) :
    quantise u ≤ 65535 ∧ |(quantise u : ℚ) / 65535 - u| ≤ 1 / 65535 := by
  have hx0 : (0 : ℚ) ≤ u * 65535 + 1 / 2 := by positivity
  have hfloor0 : 0 ≤ ⌊u * 65535 + 1 / 2⌋ := Int.floor_nonneg.2 hx0
  have hcast : ((quantise u : Nat) : ℤ) = ⌊u * 65535 + 1 / 2⌋ := Int.toNat_of_nonneg hfloor0
  have hq : ((quantise u : Nat) : ℚ) = (⌊u * 65535 + 1 / 2⌋ : ℚ) := by
    rw [← hcast, Int.cast_natCast]
  have hle : (⌊u * 65535 + 1 / 2⌋ : ℚ) ≤ u * 65535 + 1 / 2 := Int.floor_le _
  have hlt : u * 65535 + 1 / 2 < (⌊u * 65535 + 1 / 2⌋ : ℚ) + 1 := Int.lt_floor_add_one _
  constructor
  · have hlt2 : ⌊u * 65535 + 1 / 2⌋ < 65536 := by
      rw [Int.floor_lt]
      push_cast
      linarith
    omega
  · rw [hq, abs_le]
    constructor
    · rw [le_sub_iff_add_le, le_div_iff₀ (by norm_num)]
      linarith
    · rw [sub_le_iff_le_add, div_le_iff₀ (by norm_num)]
      linarith

theorem encodeUV_low (u v : ℚ) (hu : quantise u ≤ 65535) :
    encodeUV u v % 2 ^ 16 = quantise u := by
  unfold encodeUV
  omega

theorem encodeUV_high (u v : ℚ) (hv : quantise v ≤ 65535) :
    encodeUV u v % 2 ^ 32 / 2 ^ 16 = quantise v := by
  unfold encodeUV
  omega

/-- C11: for all `u`, `v` in `[0,1]`, with `encodeUV` the reference packing (quantisation to the
nearest 16-bit integers `iu`, `iv`, which lie in `[0,65535]`, `iu` in bits 0..15 and `iv` in bits
16..31), a lane of `decodeUV` that holds the word `encodeUV u v` decodes to
`(iu / 65535, iv / 65535)`, which differs from `(u, v)` by at most `1 / 65535` in each
component; the same holds for the 8-wide `decodeUV`. The arithmetic is exact. -/
theorem decodeUV_encodeUV (u v : ℚ) (uv : Fin 4 → Nat) (i : Fin 4) (uv8 : Fin 8 → Nat)
    (j : Fin 8) (hu0 : 0 ≤ u) (hu1 : u ≤ 1) (hv0 : 0 ≤ v) (hv1 : v ≤ 1)
    (hword : uv i = encodeUV u v) (hword8 : uv8 j = encodeUV u v) :
    quantise u ≤ 65535 ∧ quantise v ≤ 65535 ∧
    (decodeUV uv).x i = (quantise u : ℚ) / 65535 ∧
    (decodeUV uv).y i = (quantise v : ℚ) / 65535 ∧
    |(decodeUV uv).x i - u| ≤ 1 / 65535 ∧
    |(decodeUV uv).y i - v| ≤ 1 / 65535 ∧
    (decodeUV8 uv8).x j = (quantise u : ℚ) / 65535 ∧
    (decodeUV8 uv8).y j = (quantise v : ℚ) / 65535 ∧
    |(decodeUV8 uv8).x j - u| ≤ 1 / 65535 ∧
    |(decodeUV8 uv8).y j - v| ≤ 1 / 65535 := by
  obtain ⟨hqu, hu⟩ := quantise_spec u hu0 hu1
  obtain ⟨hqv, hv⟩ := quantise_spec v hv0 hv1
  have hx : (decodeUV uv).x i = (quantise u : ℚ) / 65535 := by
    rw [decodeUV_x, hword, encodeUV_low u v hqu]
  have hy : (decodeUV uv).y i = (quantise v : ℚ) / 65535 := by
    rw [decodeUV_y, hword, encodeUV_high u v hqv]
  have hx8 : (decodeUV8 uv8).x j = (quantise u : ℚ) / 65535 := by
    rw [decodeUV8_x, hword8, encodeUV_low u v hqu]
  have hy8 : (decodeUV8 uv8).y j = (quantise v : ℚ) / 65535 := by
    rw [decodeUV8_y, hword8, encodeUV_high u v hqv]
  refine ⟨hqu, hqv, hx, hy, ?_, ?_, hx8, hy8, ?_, ?_⟩
  · rw [hx]; exact hu
  · rw [hy]; exact hv
  · rw [hx8]; exact hu
  · rw [hy8]; exact hv

/-- C11 witness: `u = 1/2`, `v = 1` are quantised to `iu = 32768`, `iv = 65535`; lane 0 of a
register holding `encodeUV (1/2) 1` decodes to `(32768 / 65535, 65535 / 65535)`, within
`1 / 65535` of `(1/2, 1)`. -/
theorem decodeUV_encodeUV_witness :
    (0 : ℚ) ≤ 1 / 2 ∧ (1 / 2 : ℚ) ≤ 1 ∧ (0 : ℚ) ≤ 1 ∧ (1 : ℚ) ≤ 1 ∧
    quantise (1 / 2) = 32768 ∧ quantise 1 = 65535 ∧
    (decodeUV fun _ => encodeUV (1 / 2) 1).x 0 = (quantise (1 / 2) : ℚ) / 65535 ∧
    (decodeUV fun _ => encodeUV (1 / 2) 1).y 0 = (quantise 1 : ℚ) / 65535 ∧
    |(decodeUV fun _ => encodeUV (1 / 2) 1).x 0 - 1 / 2| ≤ 1 / 65535 ∧
    |(decodeUV fun _ => encodeUV (1 / 2) 1).y 0 - 1| ≤ 1 / 65535 :=
  ⟨by norm_num, by norm_num, by norm_num, le_refl 1,
    by norm_num [quantise]; rfl, by norm_num [quantise]; rfl,
    (decodeUV_encodeUV (1 / 2) 1 (fun _ => encodeUV (1 / 2) 1) 0 (fun _ => encodeUV (1 / 2) 1) 0
      (by norm_num) (by norm_num) (by norm_num) (le_refl 1) rfl rfl).2.2.1,
    (decodeUV_encodeUV (1 / 2) 1 (fun _ => encodeUV (1 / 2) 1) 0 (fun _ => encodeUV (1 / 2) 1) 0
      (by norm_num) (by norm_num) (by norm_num) (le_refl 1) rfl rfl).2.2.2.1,
    (decodeUV_encodeUV (1 / 2) 1 (fun _ => encodeUV (1 / 2) 1) 0 (fun _ => encodeUV (1 / 2) 1) 0
      (by norm_num) (by norm_num) (by norm_num) (le_refl 1) rfl rfl).2.2.2.2.1,
    (decodeUV_encodeUV (1 / 2) 1 (fun _ => encodeUV (1 / 2) 1) 0 (fun _ => encodeUV (1 / 2) 1) 0
      (by norm_num) (by norm_num) (by norm_num) (le_refl 1) rfl rfl).2.2.2.2.2.1⟩

theorem decodeUV_binary32_x (uv : Fin 4 → Nat) (i : Fin 4) :
    (decodeUV_binary32 uv).x i =
      roundFloat32 (((uv i % 2 ^ 16 : Nat) : ℚ) * (65537 / 2 ^ 32)) := by
  simp only [decodeUV_binary32, vint_to_float32, vint_and, cast, low16]
  rw [toInt32_of_lt _ (by omega), Int.cast_natCast, roundFloat32_inv_0xFFFF,
    roundFloat32_natCast _ (by omega)]

theorem decodeUV_binary32_y (uv : Fin 4 → Nat) (i : Fin 4) :
    (decodeUV_binary32 uv).y i =
      roundFloat32 (((uv i % 2 ^ 32 / 2 ^ 16 : Nat) : ℚ) * (65537 / 2 ^ 32)) := by
  simp only [decodeUV_binary32, vint_to_float32, srl, cast, high16]
  rw [toInt32_of_lt _ (by omega), Int.cast_natCast, roundFloat32_inv_0xFFFF,
    roundFloat32_natCast _ (by omega)]

theorem decodeUV8_binary32_x (uv : Fin 8 → Nat) (i : Fin 8) :
    (decodeUV8_binary32 uv).x i =
      roundFloat32 (((uv i % 2 ^ 16 : Nat) : ℚ) * (65537 / 2 ^ 32)) := by
  simp only [decodeUV8_binary32, vint_to_float32, vint_and, cast, low16]
  rw [toInt32_of_lt _ (by omega), Int.cast_natCast, roundFloat32_inv_0xFFFF,
    roundFloat32_natCast _ (by omega)]

theorem decodeUV8_binary32_y (uv : Fin 8 → Nat) (i : Fin 8) :
    (decodeUV8_binary32 uv).y i =
      roundFloat32 (((uv i % 2 ^ 32 / 2 ^ 16 : Nat) : ℚ) * (65537 / 2 ^ 32)) := by
  simp only [decodeUV8_binary32, vint_to_float32, srl, cast, high16]
  rw [toInt32_of_lt _ (by omega), Int.cast_natCast, roundFloat32_inv_0xFFFF,
    roundFloat32_natCast _ (by omega)]

/-- C12 counterexample: the word `0xFFFF8000`, whose low field is `iu = 32768`. In single
precision the constant `1.0f/0xFFFF` is `65537 / 2^32`, and `decodeUV` returns
`u = 32768 * 65537 / 2^32 = 65537 / 131072`, which is not `32768 / 65535`. -/
theorem decodeUV_binary32_counterexample :
    (0xFFFF8000 : Nat) < 2 ^ 32 ∧
    0xFFFF8000 % 2 ^ 16 = 32768 ∧
    roundFloat32 (1 / roundFloat32 0xFFFF) = 65537 / 2 ^ 32 ∧
    (decodeUV_binary32 fun _ => 0xFFFF8000).x 0 = 65537 / 131072 ∧
    (decodeUV8_binary32 fun _ => 0xFFFF8000).x 0 = 65537 / 131072 ∧
    (decodeUV_binary32 fun _ => 0xFFFF8000).x 0 ≠ ((0xFFFF8000 % 2 ^ 16 : Nat) : ℚ) / 65535 := by
  have hx : (decodeUV_binary32 fun _ => 0xFFFF8000).x 0 = 65537 / 131072 := by
    rw [decodeUV_binary32_x]
    have e : ((0xFFFF8000 % 2 ^ 16 : Nat) : ℚ) = 32768 := by norm_num
    rw [e, roundFloat32_half_field]
  have hx8 : (decodeUV8_binary32 fun _ => 0xFFFF8000).x 0 = 65537 / 131072 := by
    rw [decodeUV8_binary32_x]
    have e : ((0xFFFF8000 % 2 ^ 16 : Nat) : ℚ) = 32768 := by norm_num
    rw [e, roundFloat32_half_field]
  refine ⟨by norm_num, by norm_num, roundFloat32_inv_0xFFFF, hx, hx8, ?_⟩
  rw [hx]
  norm_num

/-- C12 (amended): for every 32-bit word `w` in a lane, also one with the top bit set, with `w`
read as unsigned (the shift is logical), `iu = w mod 2^16` and `iv = floor(w / 2^16)`, `decodeUV`
returns `u = fl(iu * c)` and `v = fl(iv * c)`, where `fl` rounds to single precision and
`c = fl(1 / 65535) = 65537 / 2^32` is the constant `1.0f/0xFFFF`; `u` and `v` differ from
`iu / 65535` and `iv / 65535` by at most `2^-23` and lie in `[0,1]`; a lane of the 8-wide
`decodeUV` that holds the same word returns the same pair. -/
theorem decodeUV_binary32_spec (uv : Fin 4 → Nat) (i : Fin 4) (uv8 : Fin 8 → Nat) (j : Fin 8)
    (hword : uv i < 2 ^ 32) (hsame : uv8 j = uv i) :
    roundFloat32 (1 / roundFloat32 0xFFFF) = 65537 / 2 ^ 32 ∧
    (decodeUV_binary32 uv).x i = roundFloat32 (((uv i % 2 ^ 16 : Nat) : ℚ) * (65537 / 2 ^ 32)) ∧
    (decodeUV_binary32 uv).y i = roundFloat32 (((uv i / 2 ^ 16 : Nat) : ℚ) * (65537 / 2 ^ 32)) ∧
    |(decodeUV_binary32 uv).x i - ((uv i % 2 ^ 16 : Nat) : ℚ) / 65535| ≤ 1 / 2 ^ 23 ∧
    |(decodeUV_binary32 uv).y i - ((uv i / 2 ^ 16 : Nat) : ℚ) / 65535| ≤ 1 / 2 ^ 23 ∧
    0 ≤ (decodeUV_binary32 uv).x i ∧ (decodeUV_binary32 uv).x i ≤ 1 ∧
    0 ≤ (decodeUV_binary32 uv).y i ∧ (decodeUV_binary32 uv).y i ≤ 1 ∧
    (decodeUV8_binary32 uv8).x j = (decodeUV_binary32 uv).x i ∧
    (decodeUV8_binary32 uv8).y j = (decodeUV_binary32 uv).y i := by
  have hy : (decodeUV_binary32 uv).y i =
      roundFloat32 (((uv i / 2 ^ 16 : Nat) : ℚ) * (65537 / 2 ^ 32)) := by
    rw [decodeUV_binary32_y, Nat.mod_eq_of_lt hword]
  obtain ⟨hxa, hx0, hx1⟩ := roundFloat32_scaled_field (uv i % 2 ^ 16) (by omega)
  obtain ⟨hya, hy0, hy1⟩ := roundFloat32_scaled_field (uv i / 2 ^ 16) (by omega)
  rw [← decodeUV_binary32_x] at hxa hx0 hx1
  rw [← hy] at hya hy0 hy1
  refine ⟨roundFloat32_inv_0xFFFF, decodeUV_binary32_x uv i, hy, hxa, hya, hx0, hx1, hy0, hy1,
    ?_, ?_⟩
  · rw [decodeUV8_binary32_x, decodeUV_binary32_x, hsame]
  · rw [decodeUV8_binary32_y, decodeUV_binary32_y, hsame]

/-- C12 witness: the word `0xFFFF8000`, whose top bit is set, has the fields `iu = 32768` and
`iv = 65535`; in the 4-wide and in the 8-wide version it decodes to `u = 65537 / 131072`, which
is within `2^-23` of `32768 / 65535`, and to `v = 1`. -/
theorem decodeUV_binary32_spec_witness :
    (0xFFFF8000 : Nat) < 2 ^ 32 ∧
    (decodeUV_binary32 fun _ => 0xFFFF8000).x 0 = 65537 / 131072 ∧
    (decodeUV_binary32 fun _ => 0xFFFF8000).y 0 = 1 ∧
    |(decodeUV_binary32 fun _ => 0xFFFF8000).x 0 - ((0xFFFF8000 % 2 ^ 16 : Nat) : ℚ) / 65535| ≤
      1 / 2 ^ 23 ∧
    (decodeUV8_binary32 fun _ => 0xFFFF8000).x 7 = (decodeUV_binary32 fun _ => 0xFFFF8000).x 0 ∧
    (decodeUV8_binary32 fun _ => 0xFFFF8000).y 7 = (decodeUV_binary32 fun _ => 0xFFFF8000).y 0 := by
  have h := decodeUV_binary32_spec (fun _ => 0xFFFF8000) 0 (fun _ => 0xFFFF8000) 7
    (by norm_num) rfl
  refine ⟨by norm_num, ?_, ?_, h.2.2.2.1, h.2.2.2.2.2.2.2.2.2.1, h.2.2.2.2.2.2.2.2.2.2⟩
  · rw [h.2.1]
    have e : ((0xFFFF8000 % 2 ^ 16 : Nat) : ℚ) = 32768 := by norm_num
    rw [e, roundFloat32_half_field]
  · rw [h.2.2.1]
    have e : ((0xFFFF8000 / 2 ^ 16 : Nat) : ℚ) = 65535 := by norm_num
    rw [e, roundFloat32_full_field]

/-! ## The barycentric uv remap -/

theorem blend_mem (u v a b c : ℚ) (hu : 0 ≤ u) (hv : 0 ≤ v) (huv : u + v ≤ 1)
    (ha : 0 ≤ a ∧ a ≤ 1) (hb : 0 ≤ b ∧ b ≤ 1) (hc : 0 ≤ c ∧ c ≤ 1) :
    0 ≤ u * b + v * c + (1 - u - v) * a ∧ u * b + v * c + (1 - u - v) * a ≤ 1 := by
  have hw : 0 ≤ 1 - u - v := by linarith
  constructor
  · have h1 := mul_nonneg hu hb.1
    have h2 := mul_nonneg hv hc.1
    have h3 := mul_nonneg hw ha.1
    linarith
  · have h1 := mul_le_mul_of_nonneg_left hb.2 hu
    have h2 := mul_le_mul_of_nonneg_left hc.2 hv
    have h3 := mul_le_mul_of_nonneg_left ha.2 hw
    linarith

/-- C13: for each of the two loaders the source instantiates, the uv hook that `intersect` hands
to the triangle test replaces the triangle-local `(u, v)` of every lane by
`u * uv1 + v * uv2 + (1 - u - v) * uv0`, where `uv0`, `uv1`, `uv2` are the decoded uv words that
the gather on the uv plane yields for vertices 0, 1, 2 of the lane; hence `(0,0)` maps to `uv0`,
`(1,0)` to `uv1` and `(0,1)` to `uv2`; for `u ≥ 0`, `v ≥ 0`, `u + v ≤ 1` both output components
lie in `[0,1]`; and the hook of `occluded` is the same function. The arithmetic is exact. -/
theorem uv_remap (L : Loader) (mem : Nat → Nat) (grid_uv line_offset : Nat)
    (u v : vfloat L.size ℚ) (i : Fin L.size)
    (hloader : L = Gather2x3.loader ∨ L = Gather3x3.loader)
    (hu : 0 ≤ u i) (hv : 0 ≤ v i) (huv : u i + v i ≤ 1) :
    ((intersectHook L mem grid_uv line_offset (u, v)).1 i =
      u i * (L.decodeUV (L.gather mem grid_uv line_offset).y).x i +
        v i * (L.decodeUV (L.gather mem grid_uv line_offset).z).x i +
        (1 - u i - v i) * (L.decodeUV (L.gather mem grid_uv line_offset).x).x i) ∧
    ((intersectHook L mem grid_uv line_offset (u, v)).2 i =
      u i * (L.decodeUV (L.gather mem grid_uv line_offset).y).y i +
        v i * (L.decodeUV (L.gather mem grid_uv line_offset).z).y i +
        (1 - u i - v i) * (L.decodeUV (L.gather mem grid_uv line_offset).x).y i) ∧
    (intersectHook L mem grid_uv line_offset (fun _ => 0, fun _ => 0) =
      ((L.decodeUV (L.gather mem grid_uv line_offset).x).x,
        (L.decodeUV (L.gather mem grid_uv line_offset).x).y)) ∧
    (intersectHook L mem grid_uv line_offset (fun _ => 1, fun _ => 0) =
      ((L.decodeUV (L.gather mem grid_uv line_offset).y).x,
        (L.decodeUV (L.gather mem grid_uv line_offset).y).y)) ∧
    (intersectHook L mem grid_uv line_offset (fun _ => 0, fun _ => 1) =
      ((L.decodeUV (L.gather mem grid_uv line_offset).z).x,
        (L.decodeUV (L.gather mem grid_uv line_offset).z).y)) ∧
    (0 ≤ (intersectHook L mem grid_uv line_offset (u, v)).1 i ∧
      (intersectHook L mem grid_uv line_offset (u, v)).1 i ≤ 1) ∧
    (0 ≤ (intersectHook L mem grid_uv line_offset (u, v)).2 i ∧
      (intersectHook L mem grid_uv line_offset (u, v)).2 i ≤ 1) ∧
    occludedHook L mem grid_uv line_offset = intersectHook L mem grid_uv line_offset := by
  have hx : ∀ (w : Fin L.size → Nat) (k : Fin L.size),
      0 ≤ (L.decodeUV w).x k ∧ (L.decodeUV w).x k ≤ 1 := by
    rcases hloader with h | h
    · subst h
      exact fun w k => decodeUV_x_mem w k
    · subst h
      exact fun w k => decodeUV8_x_mem w k
  have hy : ∀ (w : Fin L.size → Nat) (k : Fin L.size),
      0 ≤ (L.decodeUV w).y k ∧ (L.decodeUV w).y k ≤ 1 := by
    rcases hloader with h | h
    · subst h
      exact fun w k => decodeUV_y_mem w k
    · subst h
      exact fun w k => decodeUV8_y_mem w k
  refine ⟨rfl, rfl, ?_, ?_, ?_, ?_, ?_, rfl⟩
  · simp [intersectHook]
  · simp [intersectHook]
  · simp [intersectHook]
  · exact blend_mem _ _ _ _ _ hu hv huv (hx _ i) (hx _ i) (hx _ i)
  · exact blend_mem _ _ _ _ _ hu hv huv (hy _ i) (hy _ i) (hy _ i)

/-- C13 witness: the 4-wide loader on a uv plane whose samples `r00`, `r01`, `r10` hold the
packed uv `(0,0)`, `(1,0)`, `(0,1)`. Lane 0 is the triangle `(r00, r01, r10)`; the triangle-local
`(1/4, 1/4)` is mapped to `(1/4, 1/4)`, which lies in `[0,1]`. -/
theorem uv_remap_witness :
    (Gather2x3.loader = Gather2x3.loader ∨ Gather2x3.loader = Gather3x3.loader) ∧
    (0 : ℚ) ≤ 1 / 4 ∧ (1 / 4 : ℚ) + 1 / 4 ≤ 1 ∧
    (intersectHook Gather2x3.loader exampleUVMem 0 3 (fun _ => 1 / 4, fun _ => 1 / 4)).1 (0 : Fin 4)
      = 1 / 4 ∧
    (intersectHook Gather2x3.loader exampleUVMem 0 3 (fun _ => 1 / 4, fun _ => 1 / 4)).2 (0 : Fin 4)
      = 1 / 4 ∧
    0 ≤ (intersectHook Gather2x3.loader exampleUVMem 0 3 (fun _ => 1 / 4, fun _ => 1 / 4)).1 (0 : Fin 4) ∧
    (intersectHook Gather2x3.loader exampleUVMem 0 3 (fun _ => 1 / 4, fun _ => 1 / 4)).1 (0 : Fin 4)
      ≤ 1 := by
  have h := uv_remap Gather2x3.loader exampleUVMem 0 3 (fun _ => 1 / 4) (fun _ => 1 / 4) (0 : Fin 4)
    (Or.inl rfl) (by norm_num) (by norm_num) (by norm_num)
  have hx0 : (decodeUV (Gather2x3.gather exampleUVMem 0 3).x).x 0 = 0 := by
    rw [decodeUV_x]
    have : (Gather2x3.gather exampleUVMem 0 3).x 0 = 0 := rfl
    rw [this]
    norm_num
  have hx1 : (decodeUV (Gather2x3.gather exampleUVMem 0 3).y).x 0 = 1 := by
    rw [decodeUV_x]
    have : (Gather2x3.gather exampleUVMem 0 3).y 0 = 0x0000FFFF := rfl
    rw [this]
    norm_num
  have hx2 : (decodeUV (Gather2x3.gather exampleUVMem 0 3).z).x 0 = 0 := by
    rw [decodeUV_x]
    have : (Gather2x3.gather exampleUVMem 0 3).z 0 = 0xFFFF0000 := rfl
    rw [this]
    norm_num
  have hy0 : (decodeUV (Gather2x3.gather exampleUVMem 0 3).x).y 0 = 0 := by
    rw [decodeUV_y]
    have : (Gather2x3.gather exampleUVMem 0 3).x 0 = 0 := rfl
    rw [this]
    norm_num
  have hy1 : (decodeUV (Gather2x3.gather exampleUVMem 0 3).y).y 0 = 0 := by
    rw [decodeUV_y]
    have : (Gather2x3.gather exampleUVMem 0 3).y 0 = 0x0000FFFF := rfl
    rw [this]
    norm_num
  have hy2 : (decodeUV (Gather2x3.gather exampleUVMem 0 3).z).y 0 = 1 := by
    rw [decodeUV_y]
    have : (Gather2x3.gather exampleUVMem 0 3).z 0 = 0xFFFF0000 := rfl
    rw [this]
    norm_num
  have hu : (intersectHook Gather2x3.loader exampleUVMem 0 3
      (fun _ => 1 / 4, fun _ => 1 / 4)).1 (0 : Fin 4) = 1 / 4 := by
    rw [h.1]
    show (1 / 4 : ℚ) * (decodeUV (Gather2x3.gather exampleUVMem 0 3).y).x 0 +
      1 / 4 * (decodeUV (Gather2x3.gather exampleUVMem 0 3).z).x 0 +
      (1 - 1 / 4 - 1 / 4) * (decodeUV (Gather2x3.gather exampleUVMem 0 3).x).x 0 = 1 / 4
    rw [hx0, hx1, hx2]
    norm_num
  have hv : (intersectHook Gather2x3.loader exampleUVMem 0 3
      (fun _ => 1 / 4, fun _ => 1 / 4)).2 (0 : Fin 4) = 1 / 4 := by
    rw [h.2.1]
    show (1 / 4 : ℚ) * (decodeUV (Gather2x3.gather exampleUVMem 0 3).y).y 0 +
      1 / 4 * (decodeUV (Gather2x3.gather exampleUVMem 0 3).z).y 0 +
      (1 - 1 / 4 - 1 / 4) * (decodeUV (Gather2x3.gather exampleUVMem 0 3).x).y 0 = 1 / 4
    rw [hy0, hy1, hy2]
    norm_num
  exact ⟨Or.inl rfl, by norm_num, by norm_num, hu, hv, h.2.2.2.2.2.1.1, h.2.2.2.2.2.1.2⟩

/-! ## The gathers -/

theorem ptrAdd_ptrAdd (p a b : Nat) : ptrAdd (ptrAdd p a) b = ptrAdd p (a + b) := by
  unfold ptrAdd
  omega

/-- C14: writing `rij` for the grid sample at row `i`, column `j`, `Gather2x3::gather` returns
`(v0, v1, v2)` whose four lanes are the triangles `(r00,r01,r10)`, `(r10,r01,r11)`,
`(r01,r02,r11)`, `(r11,r02,r12)`. Each triangle has three distinct corners; lanes 0 and 1
together use exactly the four corners of the cell between columns 0 and 1, and share exactly
the diagonal `r01`-`r10`; lanes 2 and 3 together use exactly the four corners of the cell between
columns 1 and 2, and share exactly the diagonal `r02`-`r11`; the two cells share exactly the edge
`r01`-`r11`. In each cell the two corners off the diagonal lie on opposite sides of it, and
every triangle has half the area of its cell, so the two triangles tile the cell with no gap
and no overlap. -/
theorem gather2x3_watertight (mem : Nat → α) (grid line_offset : Nat) :
    (∀ lane k, component (Gather2x3.gather mem grid line_offset) k lane =
      mem (sampleAddr grid line_offset (stripTriangle lane k))) ∧
    ((Gather2x3.gather mem grid line_offset).x =
      ![mem (sampleAddr grid line_offset (0, 0)), mem (sampleAddr grid line_offset (1, 0)),
        mem (sampleAddr grid line_offset (0, 1)), mem (sampleAddr grid line_offset (1, 1))]) ∧
    ((Gather2x3.gather mem grid line_offset).y =
      ![mem (sampleAddr grid line_offset (0, 1)), mem (sampleAddr grid line_offset (0, 1)),
        mem (sampleAddr grid line_offset (0, 2)), mem (sampleAddr grid line_offset (0, 2))]) ∧
    ((Gather2x3.gather mem grid line_offset).z =
      ![mem (sampleAddr grid line_offset (1, 0)), mem (sampleAddr grid line_offset (1, 1)),
        mem (sampleAddr grid line_offset (1, 1)), mem (sampleAddr grid line_offset (1, 2))]) ∧
    (∀ lane, (stripCorners lane).card = 3) ∧
    stripCorners 0 ∪ stripCorners 1 = gridCell 0 ∧
    stripCorners 0 ∩ stripCorners 1 = {(0, 1), (1, 0)} ∧
    stripCorners 2 ∪ stripCorners 3 = gridCell 1 ∧
    stripCorners 2 ∩ stripCorners 3 = {(0, 2), (1, 1)} ∧
    gridCell 0 ∩ gridCell 1 = {(0, 1), (1, 1)} ∧
    signedArea2 (0, 1) (1, 0) (0, 0) * signedArea2 (0, 1) (1, 0) (1, 1) < 0 ∧
    signedArea2 (0, 2) (1, 1) (0, 1) * signedArea2 (0, 2) (1, 1) (1, 2) < 0 ∧
    (∀ lane, |signedArea2 (stripTriangle lane 0) (stripTriangle lane 1)
      (stripTriangle lane 2)| = 1) := by
  refine ⟨?_, ?_, ?_, ?_, by decide, by decide, by decide, by decide, by decide, by decide,
    by decide, by decide, by decide⟩
  · intro lane k
    fin_cases lane <;> fin_cases k <;> rfl
  · funext j
    fin_cases j <;> rfl
  · funext j
    fin_cases j <;> rfl
  · funext j
    fin_cases j <;> rfl

theorem gather3x3_lowHalf (mem : Nat → α) (grid line_offset : Nat) (k : Fin 3) :
    lowHalf (component (Gather3x3.gather mem grid line_offset) k) =
      component (Gather2x3.gather mem grid line_offset) k := by
  funext i
  fin_cases k <;> fin_cases i <;> rfl

theorem gather3x3_highHalf (mem : Nat → α) (grid line_offset : Nat) (k : Fin 3) :
    highHalf (component (Gather3x3.gather mem grid line_offset) k) =
      component (Gather2x3.gather mem (ptrAdd grid line_offset) line_offset) k := by
  have hrow1 : ∀ c : Nat, ptrAdd (ptrAdd (ptrAdd grid line_offset) (0 * line_offset)) c =
      ptrAdd (ptrAdd grid (1 * line_offset)) c := by
    intro c
    simp only [ptrAdd]
    omega
  have hrow2 : ∀ c : Nat, ptrAdd (ptrAdd (ptrAdd grid line_offset) (1 * line_offset)) c =
      ptrAdd (ptrAdd grid (2 * line_offset)) c := by
    intro c
    simp only [ptrAdd]
    omega
  funext i
  fin_cases k <;> fin_cases i <;>
    first
      | exact congrArg mem (hrow1 _).symm
      | exact congrArg mem (hrow2 _).symm

theorem decodeUV8_lowHalf (uv : Fin 8 → Nat) :
    lowHalf (decodeUV8 uv).x = (decodeUV (lowHalf uv)).x ∧
    lowHalf (decodeUV8 uv).y = (decodeUV (lowHalf uv)).y := by
  constructor <;> funext i
  · simp only [lowHalf, decodeUV8_x, decodeUV_x]
  · simp only [lowHalf, decodeUV8_y, decodeUV_y]

theorem decodeUV8_highHalf (uv : Fin 8 → Nat) :
    highHalf (decodeUV8 uv).x = (decodeUV (highHalf uv)).x ∧
    highHalf (decodeUV8 uv).y = (decodeUV (highHalf uv)).y := by
  constructor <;> funext i
  · simp only [highHalf, decodeUV8_x, decodeUV_x]
  · simp only [highHalf, decodeUV8_y, decodeUV_y]

theorem decodeUV8_binary32_lowHalf (uv : Fin 8 → Nat) :
    lowHalf (decodeUV8_binary32 uv).x = (decodeUV_binary32 (lowHalf uv)).x ∧
    lowHalf (decodeUV8_binary32 uv).y = (decodeUV_binary32 (lowHalf uv)).y := by
  constructor <;> funext i
  · simp only [lowHalf, decodeUV8_binary32_x, decodeUV_binary32_x]
  · simp only [lowHalf, decodeUV8_binary32_y, decodeUV_binary32_y]

theorem decodeUV8_binary32_highHalf (uv : Fin 8 → Nat) :
    highHalf (decodeUV8_binary32 uv).x = (decodeUV_binary32 (highHalf uv)).x ∧
    highHalf (decodeUV8_binary32 uv).y = (decodeUV_binary32 (highHalf uv)).y := by
  constructor <;> funext i
  · simp only [highHalf, decodeUV8_binary32_x, decodeUV_binary32_x]
  · simp only [highHalf, decodeUV8_binary32_y, decodeUV_binary32_y]

theorem vertexRegister_halves (mem : Nat → Nat) (grid_x grid_y grid_z line_offset : Nat)
    (k : Fin 3) :
    (lowHalf (vertexRegister Gather3x3.loader mem grid_x grid_y grid_z line_offset k).x =
        (vertexRegister Gather2x3.loader mem grid_x grid_y grid_z line_offset k).x ∧
      lowHalf (vertexRegister Gather3x3.loader mem grid_x grid_y grid_z line_offset k).y =
        (vertexRegister Gather2x3.loader mem grid_x grid_y grid_z line_offset k).y ∧
      lowHalf (vertexRegister Gather3x3.loader mem grid_x grid_y grid_z line_offset k).z =
        (vertexRegister Gather2x3.loader mem grid_x grid_y grid_z line_offset k).z) ∧
    (highHalf (vertexRegister Gather3x3.loader mem grid_x grid_y grid_z line_offset k).x =
        (vertexRegister Gather2x3.loader mem (ptrAdd grid_x line_offset)
          (ptrAdd grid_y line_offset) (ptrAdd grid_z line_offset) line_offset k).x ∧
      highHalf (vertexRegister Gather3x3.loader mem grid_x grid_y grid_z line_offset k).y =
        (vertexRegister Gather2x3.loader mem (ptrAdd grid_x line_offset)
          (ptrAdd grid_y line_offset) (ptrAdd grid_z line_offset) line_offset k).y ∧
      highHalf (vertexRegister Gather3x3.loader mem grid_x grid_y grid_z line_offset k).z =
        (vertexRegister Gather2x3.loader mem (ptrAdd grid_x line_offset)
          (ptrAdd grid_y line_offset) (ptrAdd grid_z line_offset) line_offset k).z) :=
  ⟨⟨gather3x3_lowHalf mem grid_x line_offset k, gather3x3_lowHalf mem grid_y line_offset k,
      gather3x3_lowHalf mem grid_z line_offset k⟩,
    ⟨gather3x3_highHalf mem grid_x line_offset k, gather3x3_highHalf mem grid_y line_offset k,
      gather3x3_highHalf mem grid_z line_offset k⟩⟩

theorem vertexUV_halves (mem : Nat → Nat) (grid_uv line_offset : Nat) (k : Fin 3) :
    (lowHalf (vertexUV Gather3x3.loader mem grid_uv line_offset k).x =
        (vertexUV Gather2x3.loader mem grid_uv line_offset k).x ∧
      lowHalf (vertexUV Gather3x3.loader mem grid_uv line_offset k).y =
        (vertexUV Gather2x3.loader mem grid_uv line_offset k).y) ∧
    (highHalf (vertexUV Gather3x3.loader mem grid_uv line_offset k).x =
        (vertexUV Gather2x3.loader mem (ptrAdd grid_uv line_offset) line_offset k).x ∧
      highHalf (vertexUV Gather3x3.loader mem grid_uv line_offset k).y =
        (vertexUV Gather2x3.loader mem (ptrAdd grid_uv line_offset) line_offset k).y) := by
  have hl := decodeUV8_lowHalf (component (Gather3x3.gather mem grid_uv line_offset) k)
  have hh := decodeUV8_highHalf (component (Gather3x3.gather mem grid_uv line_offset) k)
  rw [gather3x3_lowHalf] at hl
  rw [gather3x3_highHalf] at hh
  exact ⟨hl, hh⟩

theorem intersectHook_halves (mem : Nat → Nat) (grid_uv line_offset : Nat) (u v : Fin 8 → ℚ) :
    (lowHalf (intersectHook Gather3x3.loader mem grid_uv line_offset (u, v)).1 =
        (intersectHook Gather2x3.loader mem grid_uv line_offset (lowHalf u, lowHalf v)).1 ∧
      lowHalf (intersectHook Gather3x3.loader mem grid_uv line_offset (u, v)).2 =
        (intersectHook Gather2x3.loader mem grid_uv line_offset (lowHalf u, lowHalf v)).2) ∧
    (highHalf (intersectHook Gather3x3.loader mem grid_uv line_offset (u, v)).1 =
        (intersectHook Gather2x3.loader mem (ptrAdd grid_uv line_offset) line_offset
          (highHalf u, highHalf v)).1 ∧
      highHalf (intersectHook Gather3x3.loader mem grid_uv line_offset (u, v)).2 =
        (intersectHook Gather2x3.loader mem (ptrAdd grid_uv line_offset) line_offset
          (highHalf u, highHalf v)).2) := by
  have h0 := vertexUV_halves mem grid_uv line_offset 0
  have h1 := vertexUV_halves mem grid_uv line_offset 1
  have h2 := vertexUV_halves mem grid_uv line_offset 2
  refine ⟨⟨?_, ?_⟩, ⟨?_, ?_⟩⟩ <;> funext i
  · have e0 := congrFun h0.1.1 i
    have e1 := congrFun h1.1.1 i
    have e2 := congrFun h2.1.1 i
    exact congrArg₂ (· + ·) (congrArg₂ (· + ·) (congrArg (u (Fin.castLE (by decide) i) * ·) e1)
      (congrArg (v (Fin.castLE (by decide) i) * ·) e2))
      (congrArg ((1 - u (Fin.castLE (by decide) i) - v (Fin.castLE (by decide) i)) * ·) e0)
  · have e0 := congrFun h0.1.2 i
    have e1 := congrFun h1.1.2 i
    have e2 := congrFun h2.1.2 i
    exact congrArg₂ (· + ·) (congrArg₂ (· + ·) (congrArg (u (Fin.castLE (by decide) i) * ·) e1)
      (congrArg (v (Fin.castLE (by decide) i) * ·) e2))
      (congrArg ((1 - u (Fin.castLE (by decide) i) - v (Fin.castLE (by decide) i)) * ·) e0)
  · have e0 := congrFun h0.2.1 i
    have e1 := congrFun h1.2.1 i
    have e2 := congrFun h2.2.1 i
    exact congrArg₂ (· + ·) (congrArg₂ (· + ·) (congrArg (u (Fin.natAdd 4 i) * ·) e1)
      (congrArg (v (Fin.natAdd 4 i) * ·) e2))
      (congrArg ((1 - u (Fin.natAdd 4 i) - v (Fin.natAdd 4 i)) * ·) e0)
  · have e0 := congrFun h0.2.2 i
    have e1 := congrFun h1.2.2 i
    have e2 := congrFun h2.2.2 i
    exact congrArg₂ (· + ·) (congrArg₂ (· + ·) (congrArg (u (Fin.natAdd 4 i) * ·) e1)
      (congrArg (v (Fin.natAdd 4 i) * ·) e2))
      (congrArg ((1 - u (Fin.natAdd 4 i) - v (Fin.natAdd 4 i)) * ·) e0)

theorem occludedHook_eq_intersectHook (L : Loader) (mem : Nat → Nat)
    (grid_uv line_offset : Nat) :
    occludedHook L mem grid_uv line_offset = intersectHook L mem grid_uv line_offset :=
  rfl

/-! ## The two passes of the narrow path -/

theorem occludedLoader_of_patch (L : Loader) (tri : TriangleOccluded F) (mem : Nat → Nat)
    (ray : Ray F) (grid_x grid_y grid_z grid_uv line_offset : Nat) (pre : Precalculations)
    (scene : Nat) (patch : SubdivPatch1Cached) (hpatch : pre.patch = some patch) :
    ∃ pass, occludedLoader L tri mem ray grid_x grid_y grid_z grid_uv line_offset pre scene =
      some pass := by
  simp [occludedLoader, hpatch]

theorem intersectLoader_of_patch (L : Loader) (tri : TriangleIntersect F) (mem : Nat → Nat)
    (ray : Ray F) (grid_x grid_y grid_z grid_uv line_offset : Nat) (pre : Precalculations)
    (scene : Nat) (patch : SubdivPatch1Cached) (hpatch : pre.patch = some patch) :
    ∃ pass, intersectLoader L tri mem ray grid_x grid_y grid_z grid_uv line_offset pre scene =
      some pass := by
  simp [intersectLoader, hpatch]

/-- C15: on the non-AVX path, for every triangle test, memory and ray, and a precalculation
object bound to a patch, both 4-wide passes return a result, and `occluded` returns true exactly
when the pass on grid rows 0-1 returns true or the pass on rows 1-2 (all four plane pointers
advanced by `line_offset`, run on the ray left by the first pass) returns true; when the first
pass returns true the result does not involve the second pass, and the ray is the one left by
the first pass; otherwise the ray is the one left by the second pass. -/
theorem occluded_short_circuit (vfloat_size : Nat) (cache : SharedLazyTessellationCache)
    (tri : TriangleOccluded F) (mem : Nat → Nat) (pre : Precalculations) (ray : Ray F)
    (prim ty scene lazy_node : Nat) (patch : SubdivPatch1Cached)
    (hpatch : pre.patch = some patch) :
    ∃ pass1 pass2 : Bool × Ray F,
      occludedLoader Gather2x3.loader tri mem ray
        (occludedPlanes vfloat_size cache patch prim).grid_x
        (occludedPlanes vfloat_size cache patch prim).grid_y
        (occludedPlanes vfloat_size cache patch prim).grid_z
        (occludedPlanes vfloat_size cache patch prim).grid_uv
        (occludedPlanes vfloat_size cache patch prim).line_offset pre scene = some pass1 ∧
      occludedLoader Gather2x3.loader tri mem pass1.2
        (ptrAdd (occludedPlanes vfloat_size cache patch prim).grid_x
          (occludedPlanes vfloat_size cache patch prim).line_offset)
        (ptrAdd (occludedPlanes vfloat_size cache patch prim).grid_y
          (occludedPlanes vfloat_size cache patch prim).line_offset)
        (ptrAdd (occludedPlanes vfloat_size cache patch prim).grid_z
          (occludedPlanes vfloat_size cache patch prim).line_offset)
        (ptrAdd (occludedPlanes vfloat_size cache patch prim).grid_uv
          (occludedPlanes vfloat_size cache patch prim).line_offset)
        (occludedPlanes vfloat_size cache patch prim).line_offset pre scene = some pass2 ∧
      occluded false vfloat_size cache tri mem pre ray prim ty scene lazy_node =
        some (pass1.1 || pass2.1, if pass1.1 = true then pass1.2 else pass2.2) ∧
      (pass1.1 = true →
        occluded false vfloat_size cache tri mem pre ray prim ty scene lazy_node =
          some (true, pass1.2)) := by
  obtain ⟨pass1, h1⟩ := occludedLoader_of_patch Gather2x3.loader tri mem ray
    (occludedPlanes vfloat_size cache patch prim).grid_x
    (occludedPlanes vfloat_size cache patch prim).grid_y
    (occludedPlanes vfloat_size cache patch prim).grid_z
    (occludedPlanes vfloat_size cache patch prim).grid_uv
    (occludedPlanes vfloat_size cache patch prim).line_offset pre scene patch hpatch
  obtain ⟨pass2, h2⟩ := occludedLoader_of_patch Gather2x3.loader tri mem pass1.2
    (ptrAdd (occludedPlanes vfloat_size cache patch prim).grid_x
      (occludedPlanes vfloat_size cache patch prim).line_offset)
    (ptrAdd (occludedPlanes vfloat_size cache patch prim).grid_y
      (occludedPlanes vfloat_size cache patch prim).line_offset)
    (ptrAdd (occludedPlanes vfloat_size cache patch prim).grid_z
      (occludedPlanes vfloat_size cache patch prim).line_offset)
    (ptrAdd (occludedPlanes vfloat_size cache patch prim).grid_uv
      (occludedPlanes vfloat_size cache patch prim).line_offset)
    (occludedPlanes vfloat_size cache patch prim).line_offset pre scene patch hpatch
  refine ⟨pass1, pass2, h1, h2, ?_, ?_⟩
  · obtain ⟨b1, r1⟩ := pass1
    obtain ⟨b2, r2⟩ := pass2
    simp only [occluded, hpatch, h1]
    cases b1
    · simp only at h2
      simp only [h2]
      cases b2 <;> simp
    · simp
  · intro hb
    obtain ⟨b1, r1⟩ := pass1
    simp only at hb
    subst hb
    simp [occluded, hpatch, h1]

/-- C16: on the non-AVX path, for every triangle test, memory and ray, and a precalculation
object bound to a patch, both 4-wide passes return a ray and `intersect` yields
`pass2(pass1(ray))`: the pass on rows 0-1 is run on the input ray, the pass on rows 1-2 (all
four plane pointers advanced by `line_offset`) is run on the ray left by the first, whatever
the first did, and its result is the result of `intersect`. -/
theorem intersect_two_passes (vfloat_size : Nat) (cache : SharedLazyTessellationCache)
    (tri : TriangleIntersect F) (mem : Nat → Nat) (pre : Precalculations) (ray : Ray F)
    (prim ty scene lazy_node : Nat) (patch : SubdivPatch1Cached)
    (hpatch : pre.patch = some patch) :
    ∃ pass1 pass2 : Ray F,
      intersectLoader Gather2x3.loader tri mem ray
        (intersectPlanes vfloat_size cache patch prim).grid_x
        (intersectPlanes vfloat_size cache patch prim).grid_y
        (intersectPlanes vfloat_size cache patch prim).grid_z
        (intersectPlanes vfloat_size cache patch prim).grid_uv
        (intersectPlanes vfloat_size cache patch prim).line_offset pre scene = some pass1 ∧
      intersectLoader Gather2x3.loader tri mem pass1
        (ptrAdd (intersectPlanes vfloat_size cache patch prim).grid_x
          (intersectPlanes vfloat_size cache patch prim).line_offset)
        (ptrAdd (intersectPlanes vfloat_size cache patch prim).grid_y
          (intersectPlanes vfloat_size cache patch prim).line_offset)
        (ptrAdd (intersectPlanes vfloat_size cache patch prim).grid_z
          (intersectPlanes vfloat_size cache patch prim).line_offset)
        (ptrAdd (intersectPlanes vfloat_size cache patch prim).grid_uv
          (intersectPlanes vfloat_size cache patch prim).line_offset)
        (intersectPlanes vfloat_size cache patch prim).line_offset pre scene = some pass2 ∧
      intersect false vfloat_size cache tri mem pre ray prim ty scene lazy_node =
        some pass2 := by
  obtain ⟨pass1, h1⟩ := intersectLoader_of_patch Gather2x3.loader tri mem ray
    (intersectPlanes vfloat_size cache patch prim).grid_x
    (intersectPlanes vfloat_size cache patch prim).grid_y
    (intersectPlanes vfloat_size cache patch prim).grid_z
    (intersectPlanes vfloat_size cache patch prim).grid_uv
    (intersectPlanes vfloat_size cache patch prim).line_offset pre scene patch hpatch
  obtain ⟨pass2, h2⟩ := intersectLoader_of_patch Gather2x3.loader tri mem pass1
    (ptrAdd (intersectPlanes vfloat_size cache patch prim).grid_x
      (intersectPlanes vfloat_size cache patch prim).line_offset)
    (ptrAdd (intersectPlanes vfloat_size cache patch prim).grid_y
      (intersectPlanes vfloat_size cache patch prim).line_offset)
    (ptrAdd (intersectPlanes vfloat_size cache patch prim).grid_z
      (intersectPlanes vfloat_size cache patch prim).line_offset)
    (ptrAdd (intersectPlanes vfloat_size cache patch prim).grid_uv
      (intersectPlanes vfloat_size cache patch prim).line_offset)
    (intersectPlanes vfloat_size cache patch prim).line_offset pre scene patch hpatch
  refine ⟨pass1, pass2, h1, h2, ?_⟩
  simp only [intersect, hpatch, h1]
  simpa using h2

/-- C15 witness: the example patch with a memory that holds the marker word everywhere, so
that the pass on rows 0-1 already reports a hit. `occluded` returns true with the ray left by
that pass: `primID`, in which the example test counts its calls, went from 8 to 9, so the test
ran once. -/
theorem occluded_short_circuit_witness :
    (⟨some examplePatch⟩ : Precalculations).patch = some examplePatch ∧
    occluded false 4 exampleCache markerOccluded onesMem ⟨some examplePatch⟩ exampleRay 1000 0 0
      0 = some (true, { exampleRay with geomID := 0, primID := 9 }) := by
  obtain ⟨pass1, pass2, h1, _, _, h⟩ := occluded_short_circuit 4 exampleCache markerOccluded
    onesMem ⟨some examplePatch⟩ exampleRay 1000 0 0 0 examplePatch rfl
  have e1 : pass1 = (true, { exampleRay with geomID := 0, primID := 9 }) :=
    Option.some.inj (h1.symm.trans rfl)
  subst e1
  exact ⟨rfl, h rfl⟩

/-- C16 witness: the scenario of the specification. The example patch has ids `geom = 3`,
`prim = 9`; the memory holds the marker only in grid row 2, so the pass on rows 0-1 commits
nothing and the pass on rows 1-2 commits a hit at `t = 5` on the ray with `tfar = 10`: the
final `tfar` is 5 and `geomID`, `primID` are the ids of the patch. -/
theorem intersect_two_passes_witness :
    (⟨some examplePatch⟩ : Precalculations).patch = some examplePatch ∧
    exampleRay.tfar = 10 ∧
    intersectLoader Gather2x3.loader markerIntersect exampleMem exampleRay
      (intersectPlanes 4 exampleCache examplePatch 1000).grid_x
      (intersectPlanes 4 exampleCache examplePatch 1000).grid_y
      (intersectPlanes 4 exampleCache examplePatch 1000).grid_z
      (intersectPlanes 4 exampleCache examplePatch 1000).grid_uv
      (intersectPlanes 4 exampleCache examplePatch 1000).line_offset ⟨some examplePatch⟩ 0 =
        some exampleRay ∧
    intersect false 4 exampleCache markerIntersect exampleMem ⟨some examplePatch⟩ exampleRay 1000
      0 0 0 = some { exampleRay with tfar := 5, geomID := 3, primID := 9 } := by
  obtain ⟨pass1, pass2, h1, h2, h⟩ := intersect_two_passes 4 exampleCache markerIntersect
    exampleMem ⟨some examplePatch⟩ exampleRay 1000 0 0 0 examplePatch rfl
  have e1 : pass1 = exampleRay := Option.some.inj (h1.symm.trans rfl)
  subst e1
  have e2 : pass2 = { exampleRay with tfar := 5, geomID := 3, primID := 9 } :=
    Option.some.inj (h2.symm.trans rfl)
  subst e2
  exact ⟨rfl, rfl, rfl, h⟩

/-! ## The AVX path and the narrow path -/

theorem intersectLoader_eq_call (L : Loader) (tri : TriangleIntersect F) (mem : Nat → Nat)
    (ray : Ray F) (g : GridPlanes) (pre : Precalculations) (scene : Nat)
    (patch : SubdivPatch1Cached) (hpatch : pre.patch = some patch) :
    intersectLoader L tri mem ray g.grid_x g.grid_y g.grid_z g.grid_uv g.line_offset pre scene =
      some (intersectCall L tri mem ray g patch scene) := by
  simp only [intersectLoader, hpatch]
  rfl

theorem occludedLoader_eq_call (L : Loader) (tri : TriangleOccluded F) (mem : Nat → Nat)
    (ray : Ray F) (g : GridPlanes) (pre : Precalculations) (scene : Nat)
    (patch : SubdivPatch1Cached) (hpatch : pre.patch = some patch) :
    occludedLoader L tri mem ray g.grid_x g.grid_y g.grid_z g.grid_uv g.line_offset pre scene =
      some (occludedCall L tri mem ray g patch scene) := by
  simp only [occludedLoader, hpatch]
  rfl

theorem intersectLoader_nextRow_eq_call (L : Loader) (tri : TriangleIntersect F)
    (mem : Nat → Nat) (ray : Ray F) (g : GridPlanes) (pre : Precalculations) (scene : Nat)
    (patch : SubdivPatch1Cached) (hpatch : pre.patch = some patch) :
    intersectLoader L tri mem ray (ptrAdd g.grid_x g.line_offset)
      (ptrAdd g.grid_y g.line_offset) (ptrAdd g.grid_z g.line_offset)
      (ptrAdd g.grid_uv g.line_offset) g.line_offset pre scene =
      some (intersectCall L tri mem ray g.nextRow patch scene) :=
  intersectLoader_eq_call L tri mem ray g.nextRow pre scene patch hpatch

theorem occludedLoader_nextRow_eq_call (L : Loader) (tri : TriangleOccluded F)
    (mem : Nat → Nat) (ray : Ray F) (g : GridPlanes) (pre : Precalculations) (scene : Nat)
    (patch : SubdivPatch1Cached) (hpatch : pre.patch = some patch) :
    occludedLoader L tri mem ray (ptrAdd g.grid_x g.line_offset)
      (ptrAdd g.grid_y g.line_offset) (ptrAdd g.grid_z g.line_offset)
      (ptrAdd g.grid_uv g.line_offset) g.line_offset pre scene =
      some (occludedCall L tri mem ray g.nextRow patch scene) :=
  occludedLoader_eq_call L tri mem ray g.nextRow pre scene patch hpatch

/-- C20 counterexample: the example patch with a memory that holds the marker word everywhere
and an occlusion test that counts in `primID`, which is 8 on entry, the triangles it is handed.
On the AVX path `occluded` leaves `primID = 16`: the test saw eight triangles. On the narrow
path the test on rows 0-1 reports a hit and `occluded` returns with `primID = 12`: the test saw
four triangles, and the four of rows 1-2 were never presented. -/
theorem occluded_paths_counterexample :
    occluded true 4 exampleCache laneCountingOccluded onesMem ⟨some examplePatch⟩ exampleRay 1000
      0 0 0 = some (true, { exampleRay with primID := 16 }) ∧
    occludedCall Gather2x3.loader laneCountingOccluded onesMem exampleRay
      (occludedPlanes 4 exampleCache examplePatch 1000) examplePatch 0 =
        (true, { exampleRay with primID := 12 }) ∧
    occluded false 4 exampleCache laneCountingOccluded onesMem ⟨some examplePatch⟩ exampleRay 1000
      0 0 0 = some (true, { exampleRay with primID := 12 }) ∧
    (12 : Int) ≠ 16 :=
  ⟨rfl, rfl, rfl, by decide⟩

/-- C20 (amended): for every memory, grid pointer and `line_offset`, lanes 0-3 of each component
of `Gather3x3::gather(grid, line_offset)` equal `Gather2x3::gather(grid, line_offset)` and lanes
4-7 equal `Gather2x3::gather(grid + line_offset, line_offset)`. Hence the registers `v0`, `v1`,
`v2`, the decoded uv triples (in exact and in single-precision arithmetic) and the results of the
uv lambda of the 8-wide template are, in lanes 0-3 and in lanes 4-7, those of the 4-wide template
on rows 0-1 and on rows 1-2. For a precalculation object bound to a patch, the AVX path of
`intersect` makes one call of the triangle test with the eight triangles, and the narrow path
makes two calls, the first with the four triangles of rows 0-1 and the second, on the ray the
first left, with the four of rows 1-2: the same eight triangles and uv triples. The AVX path of
`occluded` makes one call with the eight triangles; the narrow path makes the same two calls
when the first reports no hit, and when the first reports a hit it returns true with the ray of
that call, having presented only the four triangles of rows 0-1. Both paths are taken on the
same planes. -/
theorem avx_path_vs_narrow_path (words : Nat → α) (vfloat_size : Nat)
    (cache : SharedLazyTessellationCache) (triI : TriangleIntersect F)
    (triO : TriangleOccluded F) (mem : Nat → Nat) (pre : Precalculations) (ray : Ray F)
    (prim ty scene lazy_node : Nat) (patch : SubdivPatch1Cached)
    (hpatch : pre.patch = some patch) :
    (∀ (grid line_offset : Nat) (k : Fin 3),
      lowHalf (component (Gather3x3.gather words grid line_offset) k) =
        component (Gather2x3.gather words grid line_offset) k ∧
      highHalf (component (Gather3x3.gather words grid line_offset) k) =
        component (Gather2x3.gather words (ptrAdd grid line_offset) line_offset) k) ∧
    (∀ (grid_x grid_y grid_z line_offset : Nat) (k : Fin 3),
      (lowHalf (vertexRegister Gather3x3.loader mem grid_x grid_y grid_z line_offset k).x =
          (vertexRegister Gather2x3.loader mem grid_x grid_y grid_z line_offset k).x ∧
        lowHalf (vertexRegister Gather3x3.loader mem grid_x grid_y grid_z line_offset k).y =
          (vertexRegister Gather2x3.loader mem grid_x grid_y grid_z line_offset k).y ∧
        lowHalf (vertexRegister Gather3x3.loader mem grid_x grid_y grid_z line_offset k).z =
          (vertexRegister Gather2x3.loader mem grid_x grid_y grid_z line_offset k).z) ∧
      (highHalf (vertexRegister Gather3x3.loader mem grid_x grid_y grid_z line_offset k).x =
          (vertexRegister Gather2x3.loader mem (ptrAdd grid_x line_offset)
            (ptrAdd grid_y line_offset) (ptrAdd grid_z line_offset) line_offset k).x ∧
        highHalf (vertexRegister Gather3x3.loader mem grid_x grid_y grid_z line_offset k).y =
          (vertexRegister Gather2x3.loader mem (ptrAdd grid_x line_offset)
            (ptrAdd grid_y line_offset) (ptrAdd grid_z line_offset) line_offset k).y ∧
        highHalf (vertexRegister Gather3x3.loader mem grid_x grid_y grid_z line_offset k).z =
          (vertexRegister Gather2x3.loader mem (ptrAdd grid_x line_offset)
            (ptrAdd grid_y line_offset) (ptrAdd grid_z line_offset) line_offset k).z)) ∧
    (∀ (grid_uv line_offset : Nat) (k : Fin 3),
      (lowHalf (vertexUV Gather3x3.loader mem grid_uv line_offset k).x =
          (vertexUV Gather2x3.loader mem grid_uv line_offset k).x ∧
        lowHalf (vertexUV Gather3x3.loader mem grid_uv line_offset k).y =
          (vertexUV Gather2x3.loader mem grid_uv line_offset k).y) ∧
      (highHalf (vertexUV Gather3x3.loader mem grid_uv line_offset k).x =
          (vertexUV Gather2x3.loader mem (ptrAdd grid_uv line_offset) line_offset k).x ∧
        highHalf (vertexUV Gather3x3.loader mem grid_uv line_offset k).y =
          (vertexUV Gather2x3.loader mem (ptrAdd grid_uv line_offset) line_offset k).y)) ∧
    (∀ (grid_uv line_offset : Nat) (k : Fin 3),
      (lowHalf (decodeUV8_binary32 (component (Gather3x3.gather mem grid_uv line_offset) k)).x =
          (decodeUV_binary32 (component (Gather2x3.gather mem grid_uv line_offset) k)).x ∧
        lowHalf (decodeUV8_binary32 (component (Gather3x3.gather mem grid_uv line_offset) k)).y =
          (decodeUV_binary32 (component (Gather2x3.gather mem grid_uv line_offset) k)).y) ∧
      (highHalf (decodeUV8_binary32 (component (Gather3x3.gather mem grid_uv line_offset) k)).x =
          (decodeUV_binary32 (component (Gather2x3.gather mem (ptrAdd grid_uv line_offset)
            line_offset) k)).x ∧
        highHalf (decodeUV8_binary32 (component (Gather3x3.gather mem grid_uv line_offset) k)).y =
          (decodeUV_binary32 (component (Gather2x3.gather mem (ptrAdd grid_uv line_offset)
            line_offset) k)).y)) ∧
    (∀ (grid_uv line_offset : Nat) (u v : Fin 8 → ℚ),
      (lowHalf (intersectHook Gather3x3.loader mem grid_uv line_offset (u, v)).1 =
          (intersectHook Gather2x3.loader mem grid_uv line_offset (lowHalf u, lowHalf v)).1 ∧
        lowHalf (intersectHook Gather3x3.loader mem grid_uv line_offset (u, v)).2 =
          (intersectHook Gather2x3.loader mem grid_uv line_offset (lowHalf u, lowHalf v)).2) ∧
      (highHalf (intersectHook Gather3x3.loader mem grid_uv line_offset (u, v)).1 =
          (intersectHook Gather2x3.loader mem (ptrAdd grid_uv line_offset) line_offset
            (highHalf u, highHalf v)).1 ∧
        highHalf (intersectHook Gather3x3.loader mem grid_uv line_offset (u, v)).2 =
          (intersectHook Gather2x3.loader mem (ptrAdd grid_uv line_offset) line_offset
            (highHalf u, highHalf v)).2)) ∧
    (∀ (grid_uv line_offset : Nat) (u v : Fin 8 → ℚ),
      (lowHalf (occludedHook Gather3x3.loader mem grid_uv line_offset (u, v)).1 =
          (occludedHook Gather2x3.loader mem grid_uv line_offset (lowHalf u, lowHalf v)).1 ∧
        lowHalf (occludedHook Gather3x3.loader mem grid_uv line_offset (u, v)).2 =
          (occludedHook Gather2x3.loader mem grid_uv line_offset (lowHalf u, lowHalf v)).2) ∧
      (highHalf (occludedHook Gather3x3.loader mem grid_uv line_offset (u, v)).1 =
          (occludedHook Gather2x3.loader mem (ptrAdd grid_uv line_offset) line_offset
            (highHalf u, highHalf v)).1 ∧
        highHalf (occludedHook Gather3x3.loader mem grid_uv line_offset (u, v)).2 =
          (occludedHook Gather2x3.loader mem (ptrAdd grid_uv line_offset) line_offset
            (highHalf u, highHalf v)).2)) ∧
    intersect true vfloat_size cache triI mem pre ray prim ty scene lazy_node =
      some (intersectCall Gather3x3.loader triI mem ray
        (intersectPlanes vfloat_size cache patch prim) patch scene) ∧
    intersect false vfloat_size cache triI mem pre ray prim ty scene lazy_node =
      some (intersectCall Gather2x3.loader triI mem
        (intersectCall Gather2x3.loader triI mem ray
          (intersectPlanes vfloat_size cache patch prim) patch scene)
        (intersectPlanes vfloat_size cache patch prim).nextRow patch scene) ∧
    occluded true vfloat_size cache triO mem pre ray prim ty scene lazy_node =
      some (occludedCall Gather3x3.loader triO mem ray
        (occludedPlanes vfloat_size cache patch prim) patch scene) ∧
    ((occludedCall Gather2x3.loader triO mem ray
        (occludedPlanes vfloat_size cache patch prim) patch scene).1 = false →
      occluded false vfloat_size cache triO mem pre ray prim ty scene lazy_node =
        some (occludedCall Gather2x3.loader triO mem
          (occludedCall Gather2x3.loader triO mem ray
            (occludedPlanes vfloat_size cache patch prim) patch scene).2
          (occludedPlanes vfloat_size cache patch prim).nextRow patch scene)) ∧
    ((occludedCall Gather2x3.loader triO mem ray
        (occludedPlanes vfloat_size cache patch prim) patch scene).1 = true →
      occluded false vfloat_size cache triO mem pre ray prim ty scene lazy_node =
        some (true, (occludedCall Gather2x3.loader triO mem ray
          (occludedPlanes vfloat_size cache patch prim) patch scene).2)) := by
  have hI1 := intersectLoader_eq_call Gather2x3.loader triI mem ray
    (intersectPlanes vfloat_size cache patch prim) pre scene patch hpatch
  have hO1 := occludedLoader_eq_call Gather2x3.loader triO mem ray
    (occludedPlanes vfloat_size cache patch prim) pre scene patch hpatch
  refine ⟨fun grid line_offset k =>
      ⟨gather3x3_lowHalf words grid line_offset k, gather3x3_highHalf words grid line_offset k⟩,
    fun grid_x grid_y grid_z line_offset k =>
      vertexRegister_halves mem grid_x grid_y grid_z line_offset k,
    fun grid_uv line_offset k => vertexUV_halves mem grid_uv line_offset k,
    ?_, fun grid_uv line_offset u v => intersectHook_halves mem grid_uv line_offset u v,
    fun grid_uv line_offset u v => intersectHook_halves mem grid_uv line_offset u v,
    ?_, ?_, ?_, ?_, ?_⟩
  · intro grid_uv line_offset k
    have hl := decodeUV8_binary32_lowHalf (component (Gather3x3.gather mem grid_uv line_offset) k)
    have hh := decodeUV8_binary32_highHalf (component (Gather3x3.gather mem grid_uv line_offset) k)
    rw [gather3x3_lowHalf] at hl
    rw [gather3x3_highHalf] at hh
    exact ⟨hl, hh⟩
  · simp only [intersect, hpatch]
    exact intersectLoader_eq_call Gather3x3.loader triI mem ray
      (intersectPlanes vfloat_size cache patch prim) pre scene patch hpatch
  · simp only [intersect, hpatch, hI1]
    exact intersectLoader_nextRow_eq_call Gather2x3.loader triI mem _
      (intersectPlanes vfloat_size cache patch prim) pre scene patch hpatch
  · simp only [occluded, hpatch]
    exact occludedLoader_eq_call Gather3x3.loader triO mem ray
      (occludedPlanes vfloat_size cache patch prim) pre scene patch hpatch
  · intro hb
    simp only [occluded, hpatch, hO1]
    generalize occludedCall Gather2x3.loader triO mem ray
      (occludedPlanes vfloat_size cache patch prim) patch scene = c at hb ⊢
    obtain ⟨b1, r1⟩ := c
    simp only at hb
    subst hb
    simp only [Bool.false_eq_true, if_false]
    rw [occludedLoader_nextRow_eq_call Gather2x3.loader triO mem r1
      (occludedPlanes vfloat_size cache patch prim) pre scene patch hpatch]
    generalize occludedCall Gather2x3.loader triO mem r1
      (occludedPlanes vfloat_size cache patch prim).nextRow patch scene = c2
    obtain ⟨b2, r2⟩ := c2
    cases b2 <;> rfl
  · intro hb
    simp only [occluded, hpatch, hO1]
    generalize occludedCall Gather2x3.loader triO mem ray
      (occludedPlanes vfloat_size cache patch prim) patch scene = c at hb ⊢
    obtain ⟨b1, r1⟩ := c
    simp only at hb
    subst hb
    simp

/-- C20 witness: the example patch and the test that counts the triangles it is handed in
`primID`, which is 8 on entry, with the marker word only in grid row 2. The first narrow call
reports no hit, and `occluded` returns true with `primID = 16` on the AVX path and on the narrow
path: the test saw eight triangles on both. -/
theorem avx_path_vs_narrow_path_witness :
    (⟨some examplePatch⟩ : Precalculations).patch = some examplePatch ∧
    (occludedCall Gather2x3.loader laneCountingOccluded exampleMem exampleRay
      (occludedPlanes 4 exampleCache examplePatch 1000) examplePatch 0).1 = false ∧
    occluded true 4 exampleCache laneCountingOccluded exampleMem ⟨some examplePatch⟩ exampleRay
      1000 0 0 0 = some (true, { exampleRay with primID := 16 }) ∧
    occluded false 4 exampleCache laneCountingOccluded exampleMem ⟨some examplePatch⟩ exampleRay
      1000 0 0 0 = some (true, { exampleRay with primID := 16 }) ∧
    intersect true 4 exampleCache markerIntersect exampleMem ⟨some examplePatch⟩ exampleRay 1000
      0 0 0 = some { exampleRay with tfar := 5, geomID := 3, primID := 9 } ∧
    intersect false 4 exampleCache markerIntersect exampleMem ⟨some examplePatch⟩ exampleRay 1000
      0 0 0 = some { exampleRay with tfar := 5, geomID := 3, primID := 9 } := by
  have h := avx_path_vs_narrow_path exampleMem 4 exampleCache markerIntersect
    laneCountingOccluded exampleMem ⟨some examplePatch⟩ exampleRay 1000 0 0 0 examplePatch rfl
  exact ⟨rfl, rfl, h.2.2.2.2.2.2.2.2.1.trans rfl, (h.2.2.2.2.2.2.2.2.2.1 rfl).trans rfl,
    h.2.2.2.2.2.2.1.trans rfl, h.2.2.2.2.2.2.2.1.trans rfl⟩

/-! ## Lock pairing of the precalculation object -/

theorem lifecycle_counts (ray : Ray F) (ptr : Nat) (bind : Option SubdivPatch1Cached)
    (cache : SharedLazyTessellationCache) :
    (lifecycle ray ptr bind cache).lockCalls =
      cache.lockCalls + (if bind.isSome = true then 1 else 0) ∧
    (lifecycle ray ptr bind cache).unlockCalls =
      cache.unlockCalls + (if bind.isSome = true then 1 else 0) ∧
    (lifecycle ray ptr bind cache).lockCount = cache.lockCount ∧
    (lifecycle ray ptr bind cache).dataPtr = cache.dataPtr := by
  cases bind with
  | none =>
    simp [lifecycle, Precalculations.construct, Precalculations.destruct]
  | some patch =>
    simp [lifecycle, Precalculations.construct, Precalculations.destruct,
      Precalculations.bindAndLock, SharedLazyTessellationCache.lock,
      SharedLazyTessellationCache.unlock]

theorem lifecycle_sequence (ray : Ray F) (ptr : Nat) (binds : List (Option SubdivPatch1Cached)) :
    ∀ cache : SharedLazyTessellationCache,
      (binds.foldl (fun c bind => lifecycle ray ptr bind c) cache).lockCalls + cache.unlockCalls =
        (binds.foldl (fun c bind => lifecycle ray ptr bind c) cache).unlockCalls +
          cache.lockCalls ∧
      (binds.foldl (fun c bind => lifecycle ray ptr bind c) cache).lockCount =
        cache.lockCount := by
  induction binds with
  | nil =>
    intro cache
    exact ⟨Nat.add_comm _ _, rfl⟩
  | cons bind rest ih =>
    intro cache
    obtain ⟨h1, h2, h3, _⟩ := lifecycle_counts ray ptr bind cache
    obtain ⟨ih1, ih2⟩ := ih (lifecycle ray ptr bind cache)
    simp only [List.foldl_cons]
    constructor
    · omega
    · rw [ih2, h3]

/-- C17: a newly constructed `Precalculations` object has `patch == null` and the constructor
leaves the cache as it was, so it has taken no lock; the destructor calls `unlock` exactly once
when `patch` is non-null and not at all when it is null, and never calls `lock`; so over a
construct / optionally bind-and-lock / destroy sequence the number of `unlock` calls equals the
number of `lock` calls and the lock count is back at its value before construction, and the
same holds over any succession of such sequences. -/
theorem lock_release_pairing (ray : Ray F) (ptr : Nat) (cache : SharedLazyTessellationCache)
    (pre : Precalculations) (bind : Option SubdivPatch1Cached)
    (binds : List (Option SubdivPatch1Cached)) :
    (Precalculations.construct ray ptr cache).1.patch = none ∧
    (Precalculations.construct ray ptr cache).2 = cache ∧
    (pre.destruct cache).unlockCalls =
      cache.unlockCalls + (if pre.patch = none then 0 else 1) ∧
    (pre.destruct cache).lockCalls = cache.lockCalls ∧
    (lifecycle ray ptr bind cache).lockCalls =
      cache.lockCalls + (if bind.isSome = true then 1 else 0) ∧
    (lifecycle ray ptr bind cache).unlockCalls =
      cache.unlockCalls + (if bind.isSome = true then 1 else 0) ∧
    (lifecycle ray ptr bind cache).lockCount = cache.lockCount ∧
    (binds.foldl (fun c bind => lifecycle ray ptr bind c) cache).lockCalls + cache.unlockCalls =
      (binds.foldl (fun c bind => lifecycle ray ptr bind c) cache).unlockCalls +
        cache.lockCalls ∧
    (binds.foldl (fun c bind => lifecycle ray ptr bind c) cache).lockCount =
      cache.lockCount := by
  obtain ⟨h1, h2, h3, _⟩ := lifecycle_counts ray ptr bind cache
  obtain ⟨hs1, hs2⟩ := lifecycle_sequence ray ptr binds cache
  refine ⟨rfl, rfl, ?_, ?_, h1, h2, h3, hs1, hs2⟩
  · cases hp : pre.patch <;>
      simp [Precalculations.destruct, hp, SharedLazyTessellationCache.unlock]
  · cases hp : pre.patch <;>
      simp [Precalculations.destruct, hp, SharedLazyTessellationCache.unlock]

/-! ## Layout of the grid planes -/

/-- C18: for every patch whose plane size does not wrap around in `size_t`, the two entry
points compute the same plane pointers and strides: `dim_offset` is
`grid_size_simd_blocks * vfloat::size`, the row stride `line_offset` is `grid_u_res`, and the y,
z and uv plane pointers are the x plane pointer plus 1, 2 and 3 times `dim_offset` float
elements; on the AVX path `intersect` and `occluded` hand exactly these pointers and this
stride to their template, which passes them to the gathers. -/
theorem grid_plane_layout (vfloat_size : Nat) (cache : SharedLazyTessellationCache)
    (patch : SubdivPatch1Cached) (prim : Nat) (triI : TriangleIntersect F)
    (triO : TriangleOccluded F) (mem : Nat → Nat) (pre : Precalculations) (ray : Ray F)
    (ty scene lazy_node : Nat)
    (hfit : 3 * (patch.grid_size_simd_blocks * vfloat_size) < 2 ^ 64)
    (hres : patch.grid_u_res < 2 ^ 64)
    (hpatch : pre.patch = some patch) :
    (intersectPlanes vfloat_size cache patch prim).dim_offset =
      patch.grid_size_simd_blocks * vfloat_size ∧
    (intersectPlanes vfloat_size cache patch prim).line_offset = patch.grid_u_res ∧
    (intersectPlanes vfloat_size cache patch prim).grid_y =
      ptrAdd (intersectPlanes vfloat_size cache patch prim).grid_x
        (1 * (intersectPlanes vfloat_size cache patch prim).dim_offset) ∧
    (intersectPlanes vfloat_size cache patch prim).grid_z =
      ptrAdd (intersectPlanes vfloat_size cache patch prim).grid_x
        (2 * (intersectPlanes vfloat_size cache patch prim).dim_offset) ∧
    (intersectPlanes vfloat_size cache patch prim).grid_uv =
      ptrAdd (intersectPlanes vfloat_size cache patch prim).grid_x
        (3 * (intersectPlanes vfloat_size cache patch prim).dim_offset) ∧
    occludedPlanes vfloat_size cache patch prim = intersectPlanes vfloat_size cache patch prim ∧
    intersect true vfloat_size cache triI mem pre ray prim ty scene lazy_node =
      intersectLoader Gather3x3.loader triI mem ray
        (intersectPlanes vfloat_size cache patch prim).grid_x
        (intersectPlanes vfloat_size cache patch prim).grid_y
        (intersectPlanes vfloat_size cache patch prim).grid_z
        (intersectPlanes vfloat_size cache patch prim).grid_uv
        (intersectPlanes vfloat_size cache patch prim).line_offset pre scene ∧
    occluded true vfloat_size cache triO mem pre ray prim ty scene lazy_node =
      occludedLoader Gather3x3.loader triO mem ray
        (intersectPlanes vfloat_size cache patch prim).grid_x
        (intersectPlanes vfloat_size cache patch prim).grid_y
        (intersectPlanes vfloat_size cache patch prim).grid_z
        (intersectPlanes vfloat_size cache patch prim).grid_uv
        (intersectPlanes vfloat_size cache patch prim).line_offset pre scene := by
  have hdim : (patch.grid_size_simd_blocks * vfloat_size) % 2 ^ 64 =
      patch.grid_size_simd_blocks * vfloat_size := Nat.mod_eq_of_lt (by omega)
  have h1 : (1 * (patch.grid_size_simd_blocks * vfloat_size)) % 2 ^ 64 =
      1 * (patch.grid_size_simd_blocks * vfloat_size) := Nat.mod_eq_of_lt (by omega)
  have h2 : (2 * (patch.grid_size_simd_blocks * vfloat_size)) % 2 ^ 64 =
      2 * (patch.grid_size_simd_blocks * vfloat_size) := Nat.mod_eq_of_lt (by omega)
  have h3 : (3 * (patch.grid_size_simd_blocks * vfloat_size)) % 2 ^ 64 =
      3 * (patch.grid_size_simd_blocks * vfloat_size) := Nat.mod_eq_of_lt (by omega)
  refine ⟨hdim, Nat.mod_eq_of_lt hres, ?_, ?_, ?_, rfl, ?_, ?_⟩
  · simp only [intersectPlanes, hdim, h1]
  · simp only [intersectPlanes, hdim, h2]
  · simp only [intersectPlanes, hdim, h3]
  · simp [intersect, hpatch]
  · simp only [occluded, hpatch]
    rfl

/-- C18 witness: the example patch (`grid_size_simd_blocks = 3`, `grid_u_res = 3`) with
`vfloat::size = 4` in the pool at address 1000: `dim_offset` is 12 floats, the row stride is 3,
and the x, y, z and uv planes start at the addresses 1000, 1048, 1096 and 1144. -/
theorem grid_plane_layout_witness :
    3 * (examplePatch.grid_size_simd_blocks * 4) < 2 ^ 64 ∧
    examplePatch.grid_u_res < 2 ^ 64 ∧
    (⟨some examplePatch⟩ : Precalculations).patch = some examplePatch ∧
    (intersectPlanes 4 exampleCache examplePatch 1000).dim_offset = 12 ∧
    (intersectPlanes 4 exampleCache examplePatch 1000).line_offset = 3 ∧
    (intersectPlanes 4 exampleCache examplePatch 1000).grid_x = 1000 ∧
    (intersectPlanes 4 exampleCache examplePatch 1000).grid_y = 1048 ∧
    (intersectPlanes 4 exampleCache examplePatch 1000).grid_z = 1096 ∧
    (intersectPlanes 4 exampleCache examplePatch 1000).grid_uv = 1144 ∧
    occludedPlanes 4 exampleCache examplePatch 1000 =
      intersectPlanes 4 exampleCache examplePatch 1000 :=
  ⟨by decide, by decide, rfl,
    (grid_plane_layout 4 exampleCache examplePatch 1000 markerIntersect markerOccluded exampleMem
      ⟨some examplePatch⟩ exampleRay 0 0 0 (by decide) (by decide) rfl).1,
    (grid_plane_layout 4 exampleCache examplePatch 1000 markerIntersect markerOccluded exampleMem
      ⟨some examplePatch⟩ exampleRay 0 0 0 (by decide) (by decide) rfl).2.1,
    by decide, by decide, by decide, by decide,
    (grid_plane_layout 4 exampleCache examplePatch 1000 markerIntersect markerOccluded exampleMem
      ⟨some examplePatch⟩ exampleRay 0 0 0 (by decide) (by decide) rfl).2.2.2.2.2.1⟩

/-! ## The second occlusion pass -/

/-- C21 counterexample: the example patch with a memory that holds the marker word everywhere
and an occlusion test that counts its calls in `primID`, which is 8 on entry. The pass on rows
0-1 reports a hit and leaves `primID = 9`; the test on rows 1-2, run on that ray, would leave
`primID = 10`; `occluded` returns the ray with `primID = 9`: the second test was not
evaluated. -/
theorem occluded_both_passes_counterexample :
    occludedLoader Gather2x3.loader markerOccluded onesMem exampleRay
      (occludedPlanes 4 exampleCache examplePatch 1000).grid_x
      (occludedPlanes 4 exampleCache examplePatch 1000).grid_y
      (occludedPlanes 4 exampleCache examplePatch 1000).grid_z
      (occludedPlanes 4 exampleCache examplePatch 1000).grid_uv
      (occludedPlanes 4 exampleCache examplePatch 1000).line_offset ⟨some examplePatch⟩ 0 =
        some (true, { exampleRay with geomID := 0, primID := 9 }) ∧
    occludedLoader Gather2x3.loader markerOccluded onesMem
      { exampleRay with geomID := 0, primID := 9 }
      (ptrAdd (occludedPlanes 4 exampleCache examplePatch 1000).grid_x
        (occludedPlanes 4 exampleCache examplePatch 1000).line_offset)
      (ptrAdd (occludedPlanes 4 exampleCache examplePatch 1000).grid_y
        (occludedPlanes 4 exampleCache examplePatch 1000).line_offset)
      (ptrAdd (occludedPlanes 4 exampleCache examplePatch 1000).grid_z
        (occludedPlanes 4 exampleCache examplePatch 1000).line_offset)
      (ptrAdd (occludedPlanes 4 exampleCache examplePatch 1000).grid_uv
        (occludedPlanes 4 exampleCache examplePatch 1000).line_offset)
      (occludedPlanes 4 exampleCache examplePatch 1000).line_offset ⟨some examplePatch⟩ 0 =
        some (true, { exampleRay with geomID := 0, primID := 10 }) ∧
    occluded false 4 exampleCache markerOccluded onesMem ⟨some examplePatch⟩ exampleRay 1000 0 0
      0 = some (true, { exampleRay with geomID := 0, primID := 9 }) ∧
    (9 : Int) ≠ 10 :=
  ⟨rfl, rfl, rfl, by decide⟩

/-- C21 (amended): on the non-AVX path, for every triangle test, memory and ray, and a
precalculation object bound to a patch, `occluded` evaluates the 4-wide test on rows 0-1; when
that test reports a hit, `occluded` returns true with the ray that test left and the test on
rows 1-2 is not evaluated; when it reports no hit, `occluded` returns what the 4-wide test on
rows 1-2 returns on the ray left by the first. -/
theorem occluded_second_pass_only_without_hit (vfloat_size : Nat)
    (cache : SharedLazyTessellationCache) (tri : TriangleOccluded F) (mem : Nat → Nat)
    (pre : Precalculations) (ray : Ray F) (prim ty scene lazy_node : Nat)
    (patch : SubdivPatch1Cached) (hpatch : pre.patch = some patch) :
    ∃ pass1 : Bool × Ray F,
      occludedLoader Gather2x3.loader tri mem ray
        (occludedPlanes vfloat_size cache patch prim).grid_x
        (occludedPlanes vfloat_size cache patch prim).grid_y
        (occludedPlanes vfloat_size cache patch prim).grid_z
        (occludedPlanes vfloat_size cache patch prim).grid_uv
        (occludedPlanes vfloat_size cache patch prim).line_offset pre scene = some pass1 ∧
      (pass1.1 = true →
        occluded false vfloat_size cache tri mem pre ray prim ty scene lazy_node =
          some (true, pass1.2)) ∧
      (pass1.1 = false →
        occluded false vfloat_size cache tri mem pre ray prim ty scene lazy_node =
          occludedLoader Gather2x3.loader tri mem pass1.2
            (ptrAdd (occludedPlanes vfloat_size cache patch prim).grid_x
              (occludedPlanes vfloat_size cache patch prim).line_offset)
            (ptrAdd (occludedPlanes vfloat_size cache patch prim).grid_y
              (occludedPlanes vfloat_size cache patch prim).line_offset)
            (ptrAdd (occludedPlanes vfloat_size cache patch prim).grid_z
              (occludedPlanes vfloat_size cache patch prim).line_offset)
            (ptrAdd (occludedPlanes vfloat_size cache patch prim).grid_uv
              (occludedPlanes vfloat_size cache patch prim).line_offset)
            (occludedPlanes vfloat_size cache patch prim).line_offset pre scene) := by
  obtain ⟨pass1, h1⟩ := occludedLoader_of_patch Gather2x3.loader tri mem ray
    (occludedPlanes vfloat_size cache patch prim).grid_x
    (occludedPlanes vfloat_size cache patch prim).grid_y
    (occludedPlanes vfloat_size cache patch prim).grid_z
    (occludedPlanes vfloat_size cache patch prim).grid_uv
    (occludedPlanes vfloat_size cache patch prim).line_offset pre scene patch hpatch
  obtain ⟨pass2, h2⟩ := occludedLoader_of_patch Gather2x3.loader tri mem pass1.2
    (ptrAdd (occludedPlanes vfloat_size cache patch prim).grid_x
      (occludedPlanes vfloat_size cache patch prim).line_offset)
    (ptrAdd (occludedPlanes vfloat_size cache patch prim).grid_y
      (occludedPlanes vfloat_size cache patch prim).line_offset)
    (ptrAdd (occludedPlanes vfloat_size cache patch prim).grid_z
      (occludedPlanes vfloat_size cache patch prim).line_offset)
    (ptrAdd (occludedPlanes vfloat_size cache patch prim).grid_uv
      (occludedPlanes vfloat_size cache patch prim).line_offset)
    (occludedPlanes vfloat_size cache patch prim).line_offset pre scene patch hpatch
  refine ⟨pass1, h1, ?_, ?_⟩
  · intro hb
    obtain ⟨b1, r1⟩ := pass1
    simp only at hb
    subst hb
    simp [occluded, hpatch, h1]
  · intro hb
    obtain ⟨b1, r1⟩ := pass1
    obtain ⟨b2, r2⟩ := pass2
    simp only at hb
    subst hb
    simp only at h2
    simp only [occluded, hpatch, h1, h2]
    cases b2 <;> simp

/-- C21 witness: the example patch and the call-counting test. With the marker word everywhere
the first pass reports a hit and `occluded` returns after one call (`primID = 9`); with the
marker only in grid row 2 the first pass reports no hit and `occluded` returns the hit of the
second pass after two calls (`primID = 10`). -/
theorem occluded_second_pass_only_without_hit_witness :
    (⟨some examplePatch⟩ : Precalculations).patch = some examplePatch ∧
    occluded false 4 exampleCache markerOccluded onesMem ⟨some examplePatch⟩ exampleRay 1000 0 0
      0 = some (true, { exampleRay with geomID := 0, primID := 9 }) ∧
    occluded false 4 exampleCache markerOccluded exampleMem ⟨some examplePatch⟩ exampleRay 1000 0
      0 0 = some (true, { exampleRay with geomID := 0, primID := 10 }) := by
  obtain ⟨passA, hA, hhit, _⟩ := occluded_second_pass_only_without_hit 4 exampleCache
    markerOccluded onesMem ⟨some examplePatch⟩ exampleRay 1000 0 0 0 examplePatch rfl
  obtain ⟨passB, hB, _, hmiss⟩ := occluded_second_pass_only_without_hit 4 exampleCache
    markerOccluded exampleMem ⟨some examplePatch⟩ exampleRay 1000 0 0 0 examplePatch rfl
  have eA : passA = (true, { exampleRay with geomID := 0, primID := 9 }) :=
    Option.some.inj (hA.symm.trans rfl)
  have eB : passB = (false, { exampleRay with primID := 9 }) :=
    Option.some.inj (hB.symm.trans rfl)
  subst eA
  subst eB
  exact ⟨rfl, hhit rfl, (hmiss rfl).trans rfl⟩

/-! ## Resolution of the patch identity into the data pool -/

/-- C22: with `base` the data pointer of the cache and all arithmetic on 64-bit unsigned
addresses, `intersect` and `occluded` resolve the x plane of the grid to the address
`base + ((prim - base) >> 2)`; for every 64-bit `prim` with `base ≤ prim < base + poolSize`
no step wraps around and the address satisfies `base ≤ address ≤ prim`, so it lies inside the
pool. -/
theorem pool_address (vfloat_size : Nat) (cache : SharedLazyTessellationCache)
    (patch : SubdivPatch1Cached) (prim poolSize : Nat)
    (h64 : prim < 2 ^ 64)
    (hlow : cache.getDataPtr ≤ prim)
    (hhigh : prim < cache.getDataPtr + poolSize) :
    (intersectPlanes vfloat_size cache patch prim).grid_x =
      (((prim % 2 ^ 64 + 2 ^ 64 - cache.getDataPtr % 2 ^ 64) % 2 ^ 64) >>> 2 +
        cache.getDataPtr % 2 ^ 64) % 2 ^ 64 ∧
    (intersectPlanes vfloat_size cache patch prim).grid_x =
      cache.getDataPtr + ((prim - cache.getDataPtr) >>> 2) ∧
    (occludedPlanes vfloat_size cache patch prim).grid_x =
      cache.getDataPtr + ((prim - cache.getDataPtr) >>> 2) ∧
    cache.getDataPtr ≤ (intersectPlanes vfloat_size cache patch prim).grid_x ∧
    (intersectPlanes vfloat_size cache patch prim).grid_x ≤ prim ∧
    (intersectPlanes vfloat_size cache patch prim).grid_x < cache.getDataPtr + poolSize := by
  have hx : (intersectPlanes vfloat_size cache patch prim).grid_x =
      cache.getDataPtr + ((prim - cache.getDataPtr) >>> 2) := by
    simp only [intersectPlanes, Nat.shiftRight_eq_div_pow]
    have hb : cache.getDataPtr % 2 ^ 64 = cache.getDataPtr := Nat.mod_eq_of_lt (by omega)
    have hp : prim % 2 ^ 64 = prim := Nat.mod_eq_of_lt h64
    rw [hb, hp]
    omega
  have hdiv : (prim - cache.getDataPtr) >>> 2 ≤ prim - cache.getDataPtr := by
    rw [Nat.shiftRight_eq_div_pow]
    exact Nat.div_le_self _ _
  refine ⟨rfl, hx, hx, ?_, ?_, ?_⟩
  · rw [hx]
    omega
  · rw [hx]
    omega
  · rw [hx]
    omega

/-- C22 witness: the pool at address 1000 with 4096 bytes and the patch identity 1040: the x
plane is resolved to `1000 + (40 >> 2) = 1010`, which lies between 1000 and 1040. -/
theorem pool_address_witness :
    (1040 : Nat) < 2 ^ 64 ∧ exampleCache.getDataPtr ≤ 1040 ∧
    1040 < exampleCache.getDataPtr + 4096 ∧
    (intersectPlanes 4 exampleCache examplePatch 1040).grid_x = 1010 ∧
    (occludedPlanes 4 exampleCache examplePatch 1040).grid_x = 1010 ∧
    exampleCache.getDataPtr ≤ (intersectPlanes 4 exampleCache examplePatch 1040).grid_x ∧
    (intersectPlanes 4 exampleCache examplePatch 1040).grid_x ≤ 1040 :=
  ⟨by decide, by decide, by decide,
    (pool_address 4 exampleCache examplePatch 1040 4096 (by decide) (by decide)
      (by decide)).2.1,
    (pool_address 4 exampleCache examplePatch 1040 4096 (by decide) (by decide)
      (by decide)).2.2.1,
    (pool_address 4 exampleCache examplePatch 1040 4096 (by decide) (by decide)
      (by decide)).2.2.2.1,
    (pool_address 4 exampleCache examplePatch 1040 4096 (by decide) (by decide)
      (by decide)).2.2.2.2.1⟩

/-! ## What the gathers read -/

/-- C24: for every two memories that agree on elements 0, 1, 2 of each loaded row (rows 0 and 1
for `Gather2x3`, rows 0, 1 and 2 for `Gather3x3`), the gather results are equal: element 3 of
the 4-float loads, which the loads read past the end of the row, reaches no output lane. -/
theorem gather_ignores_overread (mem mem2 : Nat → α) (grid line_offset : Nat) :
    ((∀ (row : Fin 2) (col : Fin 3),
        mem (sampleAddr grid line_offset (row.val, col.val)) =
          mem2 (sampleAddr grid line_offset (row.val, col.val))) →
      Gather2x3.gather mem grid line_offset = Gather2x3.gather mem2 grid line_offset) ∧
    ((∀ (row : Fin 3) (col : Fin 3),
        mem (sampleAddr grid line_offset (row.val, col.val)) =
          mem2 (sampleAddr grid line_offset (row.val, col.val))) →
      Gather3x3.gather mem grid line_offset = Gather3x3.gather mem2 grid line_offset) := by
  constructor
  · intro hagree2
    apply Vec3vf.ext <;> funext lane <;> fin_cases lane
    · exact hagree2 0 0
    · exact hagree2 1 0
    · exact hagree2 0 1
    · exact hagree2 1 1
    · exact hagree2 0 1
    · exact hagree2 0 1
    · exact hagree2 0 2
    · exact hagree2 0 2
    · exact hagree2 1 0
    · exact hagree2 1 1
    · exact hagree2 1 1
    · exact hagree2 1 2
  · intro hagree3
    apply Vec3vf.ext <;> funext lane <;> fin_cases lane
    · exact hagree3 0 0
    · exact hagree3 1 0
    · exact hagree3 0 1
    · exact hagree3 1 1
    · exact hagree3 1 0
    · exact hagree3 2 0
    · exact hagree3 1 1
    · exact hagree3 2 1
    · exact hagree3 0 1
    · exact hagree3 0 1
    · exact hagree3 0 2
    · exact hagree3 0 2
    · exact hagree3 1 1
    · exact hagree3 1 1
    · exact hagree3 1 2
    · exact hagree3 1 2
    · exact hagree3 1 0
    · exact hagree3 1 1
    · exact hagree3 1 1
    · exact hagree3 1 2
    · exact hagree3 2 0
    · exact hagree3 2 1
    · exact hagree3 2 1
    · exact hagree3 2 2

/-- C24 witness: a plane at address 0 with four floats per row, and the same plane with the
fourth float of rows 0, 1 and 2 overwritten: the two memories differ at byte address 12, agree
on elements 0, 1, 2 of the loaded rows, and both gathers return the same registers. -/
theorem gather_ignores_overread_witness :
    addressMem 12 ≠ overreadMem 12 ∧
    (∀ (row : Fin 3) (col : Fin 3),
      addressMem (sampleAddr 0 4 (row.val, col.val)) =
        overreadMem (sampleAddr 0 4 (row.val, col.val))) ∧
    Gather2x3.gather addressMem 0 4 = Gather2x3.gather overreadMem 0 4 ∧
    Gather3x3.gather addressMem 0 4 = Gather3x3.gather overreadMem 0 4 :=
  ⟨by decide, by decide,
    (gather_ignores_overread addressMem overreadMem 0 4).1 (by decide),
    (gather_ignores_overread addressMem overreadMem 0 4).2 (by decide)⟩

/-! ## Winding of the gathered triangles -/

/-- C25: for every memory, grid pointer and `line_offset`, lane `l` of `Gather2x3::gather`
holds the samples at the corners `stripTriangle l` and lane `l` of `Gather3x3::gather` the
samples at the corners `gridTriangle l`; with the sample `rij` placed at the integer point
`(i, j)`, twice the signed area `(v1 - v0) x (v2 - v0)` of the triangle is `-1` in each of the
four lanes and in each of the eight lanes: the same non-zero sign and the same magnitude, so
every gathered triangle is non-degenerate in parameter space and all face the same way. -/
theorem consistent_winding (mem : Nat → α) (grid line_offset : Nat) :
    (∀ lane k, component (Gather2x3.gather mem grid line_offset) k lane =
      mem (sampleAddr grid line_offset (stripTriangle lane k))) ∧
    (∀ lane k, component (Gather3x3.gather mem grid line_offset) k lane =
      mem (sampleAddr grid line_offset (gridTriangle lane k))) ∧
    (∀ lane, signedArea2 (stripTriangle lane 0) (stripTriangle lane 1)
      (stripTriangle lane 2) = -1) ∧
    (∀ lane, signedArea2 (gridTriangle lane 0) (gridTriangle lane 1)
      (gridTriangle lane 2) = -1) := by
  refine ⟨?_, ?_, by decide, by decide⟩
  · intro lane k
    fin_cases lane <;> fin_cases k <;> rfl
  · intro lane k
    fin_cases lane <;> fin_cases k <;> rfl

end GridSOAIntersector1

/-! ## Rejection in the single-lane variant -/

/-- C23: for each width `W`, lane `k < W`, ray batch, candidate and callback, also one that
writes to lanes other than `k`, if `geomID[k]` is `-1` after the callback then the single-lane
`runIntersectionFilter` returns false and the registers `u`, `v`, `tfar`, `geomID`, `primID`,
`Ng.x`, `Ng.y`, `Ng.z` equal their pre-call values on all `W` lanes. -/
theorem runIntersectionFilterLane_rollback_all (geometry : Geometry F) (ray : RayK W F)
    (k : Fin W) (u v t : F) (Ng : Vec3fa F) (geomID primID : Int)
    (hrejected : (afterIntersectionFilterLane geometry ray k u v t Ng geomID primID).geomID k
      = -1) :
    (runIntersectionFilterLane geometry ray k u v t Ng geomID primID).1 = false ∧
    (runIntersectionFilterLane geometry ray k u v t Ng geomID primID).2.u = ray.u ∧
    (runIntersectionFilterLane geometry ray k u v t Ng geomID primID).2.v = ray.v ∧
    (runIntersectionFilterLane geometry ray k u v t Ng geomID primID).2.tfar = ray.tfar ∧
    (runIntersectionFilterLane geometry ray k u v t Ng geomID primID).2.geomID = ray.geomID ∧
    (runIntersectionFilterLane geometry ray k u v t Ng geomID primID).2.primID = ray.primID ∧
    (runIntersectionFilterLane geometry ray k u v t Ng geomID primID).2.Ng.x = ray.Ng.x ∧
    (runIntersectionFilterLane geometry ray k u v t Ng geomID primID).2.Ng.y = ray.Ng.y ∧
    (runIntersectionFilterLane geometry ray k u v t Ng geomID primID).2.Ng.z = ray.Ng.z := by
  rw [runIntersectionFilterLane_of_rejected geometry ray k u v t Ng geomID primID hrejected]
  exact ⟨rfl, rfl, rfl, rfl, rfl, rfl, rfl, rfl, rfl⟩

/-- C23 witness: width 4, lane `k = 0`, a callback that rejects lane 0 and writes 99 into `u` of
lane 1: after the callback lane 1 holds `u = 99`; the call returns false and lane 1 is back at
its pre-call `u = 21`, as is every lane of `u`. -/
theorem runIntersectionFilterLane_rollback_all_witness :
    (afterIntersectionFilterLane
      (exampleGeometry false (fun _ => scribble (fun i => i == 0) (fun i => i == 1) 99) true)
      (exampleRayK : RayK 4 Int) 0 1 2 3 ⟨4, 5, 6⟩ 5 6).geomID 0 = -1 ∧
    (afterIntersectionFilterLane
      (exampleGeometry false (fun _ => scribble (fun i => i == 0) (fun i => i == 1) 99) true)
      (exampleRayK : RayK 4 Int) 0 1 2 3 ⟨4, 5, 6⟩ 5 6).u 1 = 99 ∧
    (exampleRayK : RayK 4 Int).u 1 = 21 ∧
    (runIntersectionFilterLane
      (exampleGeometry false (fun _ => scribble (fun i => i == 0) (fun i => i == 1) 99) true)
      (exampleRayK : RayK 4 Int) 0 1 2 3 ⟨4, 5, 6⟩ 5 6).1 = false ∧
    (runIntersectionFilterLane
      (exampleGeometry false (fun _ => scribble (fun i => i == 0) (fun i => i == 1) 99) true)
      (exampleRayK : RayK 4 Int) 0 1 2 3 ⟨4, 5, 6⟩ 5 6).2.u = (exampleRayK : RayK 4 Int).u :=
  ⟨by decide, by decide, by decide,
    (runIntersectionFilterLane_rollback_all
      (exampleGeometry false (fun _ => scribble (fun i => i == 0) (fun i => i == 1) 99) true)
      (exampleRayK : RayK 4 Int) 0 1 2 3 ⟨4, 5, 6⟩ 5 6 (by decide)).1,
    (runIntersectionFilterLane_rollback_all
      (exampleGeometry false (fun _ => scribble (fun i => i == 0) (fun i => i == 1) 99) true)
      (exampleRayK : RayK 4 Int) 0 1 2 3 ⟨4, 5, 6⟩ 5 6 (by decide)).2.1⟩

end isa

end embree
